import Mathlib

/-!
# Vulkan render-pass descriptor: shared FBO registry and attachment planning

A shallow embedding of `RenderSystems/Vulkan/src/OgreVulkanRenderPassDescriptor.cpp`.

* Native handles (`VkImage`, `VkImageView`, `VkRenderPass`, `VkFramebuffer`) are
  natural numbers, `0` being the null handle.
* Fixed-size C arrays are lists whose length is the array size; an access past
  the end is the fault `Fault.outOfBounds`.
* Pointers that may be null are `Option`; dereferencing `none` is the fault
  `Fault.nullDereference`.
* Calls into the Vulkan device are recorded, in order, in `VulkanDevice.calls`.
* What the file uses but other translation units declare (constants, the
  flush-only key, format mapping) is collected in `Externals`.
-/

namespace Ogre

/-! ## Vulkan enumerations and records -/

/-- Native handle; `0` is `VK_NULL_HANDLE`. -/
abbrev VkHandle := Nat

inductive VkImageLayout where
  | UNDEFINED
  | COLOR_ATTACHMENT_OPTIMAL
  | DEPTH_STENCIL_ATTACHMENT_OPTIMAL
  | DEPTH_STENCIL_READ_ONLY_OPTIMAL
  | PRESENT_SRC_KHR
  deriving DecidableEq, Repr

inductive VkAttachmentLoadOp where
  | LOAD
  | CLEAR
  | DONT_CARE
  deriving DecidableEq, Repr

inductive VkAttachmentStoreOp where
  | STORE
  | DONT_CARE
  deriving DecidableEq, Repr

/-- The sentinel `VK_ATTACHMENT_UNUSED`, `(~0U)` as a 32-bit unsigned value. -/
def VK_ATTACHMENT_UNUSED : Nat := 4294967295

/-- The flag `VK_SAMPLE_COUNT_1_BIT`. -/
def VK_SAMPLE_COUNT_1_BIT : Nat := 1

structure VkAttachmentDescription where
  format : Nat
  samples : Nat
  loadOp : VkAttachmentLoadOp
  storeOp : VkAttachmentStoreOp
  stencilLoadOp : VkAttachmentLoadOp
  stencilStoreOp : VkAttachmentStoreOp
  initialLayout : VkImageLayout
  finalLayout : VkImageLayout
  deriving DecidableEq, Repr

/-- The value of `VkAttachmentDescription x = {}` (all members zero). -/
def VkAttachmentDescription.zero : VkAttachmentDescription :=
  { format := 0, samples := 0, loadOp := .LOAD, storeOp := .STORE,
    stencilLoadOp := .LOAD, stencilStoreOp := .STORE,
    initialLayout := .UNDEFINED, finalLayout := .UNDEFINED }

structure VkAttachmentReference where
  attachment : Nat
  layout : VkImageLayout
  deriving DecidableEq, Repr

/-- The members of `VkSubpassDescription` that `setupFbo` fills in.
`pColorAttachments` is the whole local array the pointer names, of which the
first `colorAttachmentCount` elements are read; an element never written is
`none`. -/
structure VkSubpassDescription where
  inputAttachmentCount : Nat
  colorAttachmentCount : Nat
  pColorAttachments : List (Option VkAttachmentReference)
  pResolveAttachments : Option (List (Option VkAttachmentReference))
  pDepthStencilAttachment : Option (Option VkAttachmentReference)
  deriving DecidableEq, Repr

structure VkRenderPassCreateInfo where
  attachmentCount : Nat
  pAttachments : List VkAttachmentDescription
  subpassCount : Nat
  pSubpasses : VkSubpassDescription
  deriving DecidableEq, Repr

/-- The framebuffer creation record; `pAttachments` is the content of the
image-view array at the moment of the call. -/
structure VkFramebufferCreateInfo where
  renderPass : VkHandle
  attachmentCount : Nat
  pAttachments : List VkHandle
  width : Nat
  height : Nat
  layers : Nat
  deriving DecidableEq, Repr

/-- One call into the native device, with its arguments and (for a creation)
the handle it returned. -/
inductive VkCall where
  | createView (mipLevel arraySliceStart slice numSlices : Nat) (texName : VkHandle) (result : VkHandle)
  | vkCreateRenderPass (info : VkRenderPassCreateInfo) (result : VkHandle)
  | vkCreateFramebuffer (info : VkFramebufferCreateInfo) (result : VkHandle)
  | vkDestroyFramebuffer (framebuffer : VkHandle)
  | vkDestroyImageView (view : VkHandle)
  | vkDestroyRenderPass (renderPass : VkHandle)
  deriving DecidableEq, Repr

/-- The device behind `mQueue->mDevice`: a supply of fresh handles and the
trace of calls made so far (oldest first). Native creation calls are taken to
succeed, so `OGRE_VK_CHECK` never raises. -/
structure VulkanDevice where
  handleCounter : Nat
  calls : List VkCall
  deriving DecidableEq, Repr

/-- Allocate the next handle; it is never the null handle. -/
def VulkanDevice.fresh (dev : VulkanDevice) : VkHandle := dev.handleCounter + 1

/-! ## Faults -/

/-- How an operation can fail: the engine exception `ERR_INVALIDPARAMS`
(`OGRE_EXCEPT`), or one of the undefined behaviours of the source. -/
inductive Fault where
  | ERR_INVALIDPARAMS
  | nullDereference
  | outOfBounds
  | invalidIterator
  | indeterminateRead
  | assertionFailed
  deriving DecidableEq, Repr

/-- `xs[i]` for a C array: reading past the end is a fault. -/
def readAt {α : Type} (xs : List α) (i : Nat) : Except Fault α :=
  match xs[i]? with
  | some x => .ok x
  | none => .error .outOfBounds

/-- `xs[i] = v` for a C array: writing past the end is a fault. -/
def writeAt {α : Type} (xs : List α) (i : Nat) (v : α) : Except Fault (List α) :=
  if i < xs.length then .ok (xs.set i v) else .error .outOfBounds

/-- `*p` for a pointer that may be null. -/
def deref {α : Type} (p : Option α) : Except Fault α :=
  match p with
  | some x => .ok x
  | none => .error .nullDereference

/-! ## Textures and descriptors -/

/-- What `VulkanTextureGpuWindow` adds to a texture: the data reached through
`getWindow()`, `getCurrentImageIdx()` and `getImageAcquiredSemaphore()`. -/
structure VulkanTextureGpuWindow where
  swapchainImageViews : List VkHandle
  currentImageIdx : Nat
  imageAcquiredSemaphore : VkHandle
  deriving DecidableEq, Repr

/-- The texture collaborator, as far as this file queries it. `address` is the
object identity used by pointer comparison; `asWindow` is the result of
`dynamic_cast<VulkanTextureGpuWindow*>` (`none` when the cast yields null). -/
structure VulkanTextureGpu where
  address : Nat
  format : Nat
  fsaa : Nat
  msaaTextureName : VkHandle
  finalTextureName : VkHandle
  renderWindowSpecific : Bool
  multisample : Bool
  width : Nat
  height : Nat
  asWindow : Option VulkanTextureGpuWindow
  deriving DecidableEq, Repr

/-- The four components of `ColourValue`; floating-point values are carried as
exact numbers and their conversions are not interpreted. -/
structure ColourValue where
  r : Int
  g : Int
  b : Int
  a : Int
  deriving DecidableEq, Repr

/-- `VkClearColorValue`: which member of the union was written, and from which
colour. -/
inductive VkClearColorValue where
  | float32 (c : ColourValue)
  | uint32 (c : ColourValue)
  | int32 (c : ColourValue)
  deriving DecidableEq, Repr

/-- `VkClearValue`, with the colour and the depth/stencil member kept side by
side (the overlay of the union is not modelled). -/
structure VkClearValue where
  color : VkClearColorValue
  depth : Int
  stencil : Nat
  deriving DecidableEq, Repr

/-- `VulkanFrameBufferDescKey`: the member that `operator<` reads. -/
structure VulkanFrameBufferDescKey where
  numColourEntries : Nat
  deriving DecidableEq, Repr

/-- `VulkanFrameBufferDescValue`. The width of `refCount` is declared outside
this file; it is an unbounded natural here. -/
structure VulkanFrameBufferDescValue where
  refCount : Nat
  mNumImageViews : Nat
  mImageViews : List VkHandle
  mWindowImageViews : List VkHandle
  mFramebuffers : List VkHandle
  mRenderPass : VkHandle
  deriving DecidableEq, Repr

structure VulkanFlushOnlyDescValue where
  refCount : Nat
  deriving DecidableEq, Repr

/-- The descriptor. `mColour` and `mClearValues` are the fixed-size member
arrays. An iterator into one of the registries is the key of the node it
names, `none` being `end()`; the flush-only key is given by its equivalence
class under its ordering (see `Externals.flushKey`). -/
structure VulkanRenderPassDescriptor where
  mNumColourEntries : Nat
  mColour : List (Option VulkanTextureGpu)
  mDepth : Option VulkanTextureGpu
  mInformationOnly : Bool
  mClearValues : List VkClearValue
  mSharedFboItor : Option VulkanFrameBufferDescKey
  mSharedFboFlushItor : Option Nat
  mTargetWidth : Nat
  mTargetHeight : Nat
  deriving DecidableEq, Repr

/-- What this file takes from other translation units.
* `OGRE_MAX_MULTIPLE_RENDER_TARGETS`, `All` (`RenderPassDescriptor::All`) and
  `PF_UNKNOWN` are constants of the engine headers;
* `vulkanMappingsGet` is `VulkanMappings::get`, `isInteger` is
  `PixelUtil::isInteger`;
* `defaultNumColourEntries` is the value the default construction of a key
  leaves in `numColourEntries`;
* `assertLow` tells whether `OGRE_ASSERT_LOW` is compiled in;
* `flushKey` is `FrameBufferDescKey key( *this )` up to equivalence under that
  key's ordering: two descriptors get the same number exactly when neither key
  is less than the other;
* `checkWarnIfRtvWasFlushed` is the member of that name;
* `isReverseDepthBufferEnabled` is the render system's query of that name. -/
structure Externals where
  OGRE_MAX_MULTIPLE_RENDER_TARGETS : Nat
  All : Nat
  PF_UNKNOWN : Nat
  vulkanMappingsGet : Nat → Nat
  isInteger : Nat → Bool
  defaultNumColourEntries : Nat
  assertLow : Bool
  flushKey : VulkanRenderPassDescriptor → Nat
  checkWarnIfRtvWasFlushed : VulkanRenderPassDescriptor → Nat → Except Fault Unit
  isReverseDepthBufferEnabled : Bool

/-- The render system's two registries together with the device. The order of
the nodes of a map is not observable in this file; a new node goes in front. -/
structure World where
  mFrameBufferDescMap : List (VulkanFrameBufferDescKey × VulkanFrameBufferDescValue)
  mFlushOnlyDescMap : List (Nat × VulkanFlushOnlyDescValue)
  device : VulkanDevice
  deriving DecidableEq, Repr

/-! ## Keys and the two registries -/

/-- `VulkanFrameBufferDescKey::operator<`. -/
def VulkanFrameBufferDescKey.lt (self other : VulkanFrameBufferDescKey) : Bool :=
  if self.numColourEntries ≠ other.numColourEntries then
    decide (self.numColourEntries < other.numColourEntries)
  else
    false

/-- Equivalence of two keys for `std::map`: neither is less than the other. -/
def VulkanFrameBufferDescKey.equiv (a b : VulkanFrameBufferDescKey) : Bool :=
  !a.lt b && !b.lt a

/-- `VulkanFrameBufferDescKey::VulkanFrameBufferDescKey( const RenderPassDescriptor &desc )`:
the body is empty and `desc` is not handed on, so the key is the default
constructed one. -/
def VulkanFrameBufferDescKey.ofDesc (ext : Externals) (_desc : VulkanRenderPassDescriptor) :
    VulkanFrameBufferDescKey :=
  { numColourEntries := ext.defaultNumColourEntries }

/-- `VulkanFrameBufferDescValue::VulkanFrameBufferDescValue()`; the image-view
array has one element per attachment `setupFbo` can plan. -/
def VulkanFrameBufferDescValue.new (ext : Externals) : VulkanFrameBufferDescValue :=
  { refCount := 0, mNumImageViews := 0,
    mImageViews := List.replicate (ext.OGRE_MAX_MULTIPLE_RENDER_TARGETS * 2 + 2) 0,
    mWindowImageViews := [], mFramebuffers := [], mRenderPass := 0 }

/-- `VulkanFlushOnlyDescValue::VulkanFlushOnlyDescValue()`. -/
def VulkanFlushOnlyDescValue.new : VulkanFlushOnlyDescValue := { refCount := 0 }

/-- `map.find( key )`: the node whose key is equivalent to `key`. -/
def mapFind {K V : Type} (eqv : K → K → Bool) (m : List (K × V)) (key : K) : Option (K × V) :=
  m.find? (fun node => eqv node.1 key)

/-- Update `itor->second` in place. A map holds at most one node per
equivalence class, so acting on the equivalent nodes acts on that node. -/
def mapModify {K V : Type} (eqv : K → K → Bool) (m : List (K × V)) (itor : K) (f : V → V) :
    List (K × V) :=
  m.map (fun node => if eqv node.1 itor then (node.1, f node.2) else node)

/-- `map.erase( itor )`. -/
def mapErase {K V : Type} (eqv : K → K → Bool) (m : List (K × V)) (itor : K) : List (K × V) :=
  m.filter (fun node => !eqv node.1 itor)

/-- Equivalence of flush-only keys, which are given by their class. -/
def flushEquiv (a b : Nat) : Bool := a == b

/-- The image-view loop of `destroyFbo`, from index `i` for `remaining` more
iterations. -/
def destroyImageViews : Nat → Nat → List VkHandle → VulkanDevice →
    Except Fault (List VkHandle × VulkanDevice)
  | 0, _, views, dev => .ok (views, dev)
  | remaining + 1, i, views, dev => do
    let view ← readAt views i
    if view ≠ 0 then
      let dev1 := { dev with calls := dev.calls ++ [VkCall.vkDestroyImageView view] }
      let views1 ← writeAt views i 0
      destroyImageViews remaining (i + 1) views1 dev1
    else
      destroyImageViews remaining (i + 1) views dev

/-- `VulkanRenderPassDescriptor::destroyFbo`. -/
def destroyFbo (dev : VulkanDevice) (fboDesc : VulkanFrameBufferDescValue) :
    Except Fault (VulkanFrameBufferDescValue × VulkanDevice) := do
  let dev1 := { dev with calls := dev.calls ++ fboDesc.mFramebuffers.map VkCall.vkDestroyFramebuffer }
  let fboDesc1 := { fboDesc with mFramebuffers := [] }
  let (views, dev2) ← destroyImageViews fboDesc1.mNumImageViews 0 fboDesc1.mImageViews dev1
  let fboDesc2 := { fboDesc1 with mImageViews := views, mNumImageViews := 0 }
  let dev3 := { dev2 with calls := dev2.calls ++ [VkCall.vkDestroyRenderPass fboDesc2.mRenderPass] }
  .ok ({ fboDesc2 with mRenderPass := 0 }, dev3)

/-- The first block of `releaseFbo`: give back the reference on the FBO entry. -/
def releaseFboShared (d : VulkanRenderPassDescriptor) (w : World) :
    Except Fault (VulkanRenderPassDescriptor × World) :=
  match d.mSharedFboItor with
  | none => .ok (d, w)
  | some itor =>
    match mapFind VulkanFrameBufferDescKey.equiv w.mFrameBufferDescMap itor with
    | none => .error .invalidIterator
    | some (_, value) => do
      let value1 := { value with refCount := value.refCount - 1 }
      if value1.refCount = 0 then
        let (_, dev1) ← destroyFbo w.device value1
        .ok ({ d with mSharedFboItor := none },
             { w with mFrameBufferDescMap :=
                        mapErase VulkanFrameBufferDescKey.equiv w.mFrameBufferDescMap itor,
                      device := dev1 })
      else
        .ok ({ d with mSharedFboItor := none },
             { w with mFrameBufferDescMap :=
                        mapModify VulkanFrameBufferDescKey.equiv w.mFrameBufferDescMap itor
                          (fun _ => value1) })

/-- The second block of `releaseFbo`: give back the reference on the
flush-only entry. -/
def releaseFboFlush (d : VulkanRenderPassDescriptor) (w : World) :
    Except Fault (VulkanRenderPassDescriptor × World) :=
  match d.mSharedFboFlushItor with
  | none => .ok (d, w)
  | some itor =>
    match mapFind flushEquiv w.mFlushOnlyDescMap itor with
    | none => .error .invalidIterator
    | some (_, value) =>
      let value1 : VulkanFlushOnlyDescValue := { value with refCount := value.refCount - 1 }
      if value1.refCount = 0 then
        .ok ({ d with mSharedFboFlushItor := none },
             { w with mFlushOnlyDescMap := mapErase flushEquiv w.mFlushOnlyDescMap itor })
      else
        .ok ({ d with mSharedFboFlushItor := none },
             { w with mFlushOnlyDescMap :=
                        mapModify flushEquiv w.mFlushOnlyDescMap itor (fun _ => value1) })

/-- `VulkanRenderPassDescriptor::releaseFbo`. -/
def releaseFbo (d : VulkanRenderPassDescriptor) (w : World) :
    Except Fault (VulkanRenderPassDescriptor × World) := do
  let (d1, w1) ← releaseFboShared d w
  releaseFboFlush d1 w1

/-- `VulkanRenderPassDescriptor::calculateSharedFlushOnlyKey`. -/
def calculateSharedFlushOnlyKey (ext : Externals) (d : VulkanRenderPassDescriptor) (w : World) :
    Except Fault (VulkanRenderPassDescriptor × World) :=
  let key := ext.flushKey d
  let frameBufferDescMap :=
    match mapFind flushEquiv w.mFlushOnlyDescMap key with
    | some _ => w.mFlushOnlyDescMap
    | none => (key, { VulkanFlushOnlyDescValue.new with refCount := 0 }) :: w.mFlushOnlyDescMap
  match mapFind flushEquiv frameBufferDescMap key with
  | none => .error .invalidIterator
  | some (newItor, _) =>
    let frameBufferDescMap1 :=
      mapModify flushEquiv frameBufferDescMap newItor
        (fun value => { value with refCount := value.refCount + 1 })
    .ok ({ d with mSharedFboFlushItor := some newItor },
         { w with mFlushOnlyDescMap := frameBufferDescMap1 })

/-- `VulkanRenderPassDescriptor::calculateSharedKey`. -/
def calculateSharedKey (ext : Externals) (d : VulkanRenderPassDescriptor) (w : World) :
    Except Fault (VulkanRenderPassDescriptor × World) :=
  let key := VulkanFrameBufferDescKey.ofDesc ext d
  let frameBufferDescMap :=
    match mapFind VulkanFrameBufferDescKey.equiv w.mFrameBufferDescMap key with
    | some _ => w.mFrameBufferDescMap
    | none =>
      (key, { VulkanFrameBufferDescValue.new ext with refCount := 0 }) :: w.mFrameBufferDescMap
  match mapFind VulkanFrameBufferDescKey.equiv frameBufferDescMap key with
  | none => .error .invalidIterator
  | some (newItor, _) => do
    let frameBufferDescMap1 :=
      mapModify VulkanFrameBufferDescKey.equiv frameBufferDescMap newItor
        (fun value => { value with refCount := value.refCount + 1 })
    let (d1, w1) ← releaseFbo d { w with mFrameBufferDescMap := frameBufferDescMap1 }
    calculateSharedFlushOnlyKey ext { d1 with mSharedFboItor := some newItor } w1

/-! ## Attachment planning -/

/-- `VulkanRenderPassDescriptor::getClearColour`. -/
def getClearColour (ext : Externals) (clearColour : ColourValue) (pixelFormat : Nat) :
    VkClearColorValue :=
  let isInteger := ext.isInteger pixelFormat
  let isSigned := false
  if !isInteger then
    .float32 clearColour
  else if !isSigned then
    .uint32 clearColour
  else
    .int32 clearColour

/-- The locals of `setupFbo` that `setupColourAttachment` and the loops work
on, together with the entry being set up and the device. A reference that was
never written is `none`. Attachment indices stay far below `2^32`, so the
32-bit counters are plain naturals. -/
structure SetupLocals where
  fboDesc : VulkanFrameBufferDescValue
  device : VulkanDevice
  hasRenderWindow : Bool
  attachmentIdx : Nat
  numColourAttachments : Nat
  windowAttachmentIdx : Nat
  usesResolveAttachments : Bool
  attachments : List VkAttachmentDescription
  colourAttachRefs : List (Option VkAttachmentReference)
  resolveAttachRefs : List (Option VkAttachmentReference)
  depthAttachRef : Option VkAttachmentReference
  deriving DecidableEq, Repr

/-- `texture->_createView( mipLevel, 0, slice, 1u, texName )`: the device hands
out a fresh view. -/
def createView (dev : VulkanDevice) (mipLevel slice : Nat) (texName : VkHandle) :
    VkHandle × VulkanDevice :=
  (dev.fresh,
   { handleCounter := dev.handleCounter + 1,
     calls := dev.calls ++ [VkCall.createView mipLevel 0 slice 1 texName dev.fresh] })

/-- The attachment record `setupColourAttachment` fills in for a texture
(the assignments to `attachment.*`). -/
def colourAttachmentDescription (ext : Externals) (texture : VulkanTextureGpu)
    (bResolveTex : Bool) : VkAttachmentDescription :=
  { format := ext.vulkanMappingsGet texture.format
    samples := if bResolveTex then VK_SAMPLE_COUNT_1_BIT else texture.fsaa
    loadOp := if bResolveTex then .DONT_CARE else .CLEAR
    storeOp := .STORE
    stencilLoadOp := .DONT_CARE
    stencilStoreOp := .DONT_CARE
    initialLayout :=
      if !bResolveTex then
        if texture.renderWindowSpecific && !texture.multisample then .UNDEFINED
        else .COLOR_ATTACHMENT_OPTIMAL
      else .UNDEFINED
    finalLayout :=
      if !bResolveTex then
        if texture.renderWindowSpecific && !texture.multisample then .PRESENT_SRC_KHR
        else .COLOR_ATTACHMENT_OPTIMAL
      else if texture.renderWindowSpecific then .PRESENT_SRC_KHR
      else .COLOR_ATTACHMENT_OPTIMAL }

/-- One activation of `setupColourAttachment`, without the call it makes to
itself at the end. -/
def setupColourAttachmentBody (ext : Externals) (d : VulkanRenderPassDescriptor)
    (idx vkIdx : Nat) (bResolveTex : Bool) (s : SetupLocals) : Except Fault SetupLocals := do
  let colour ← (readAt d.mColour idx) >>= deref
  if colour.msaaTextureName = 0 ∧ bResolveTex = true then
    let resolveAttachRefs ←
      writeAt s.resolveAttachRefs vkIdx (some ⟨VK_ATTACHMENT_UNUSED, .UNDEFINED⟩)
    .ok { s with resolveAttachRefs := resolveAttachRefs }
  else
    let texture := colour
    let texName :=
      if bResolveTex = false ∧ texture.msaaTextureName ≠ 0 then texture.msaaTextureName
      else texture.finalTextureName
    let attachments ←
      writeAt s.attachments s.attachmentIdx (colourAttachmentDescription ext texture bResolveTex)
    let (fboDesc, device) ←
      if texture.renderWindowSpecific = false ∨
          (texture.multisample = true ∧ bResolveTex = false) then do
        let (view, device) := createView s.device 0 0 texName
        let views ← writeAt s.fboDesc.mImageViews s.attachmentIdx view
        Except.ok ({ s.fboDesc with mImageViews := views }, device)
      else do
        let views ← writeAt s.fboDesc.mImageViews s.attachmentIdx 0
        let textureVulkan ← deref texture.asWindow
        if ext.assertLow = true ∧ s.fboDesc.mWindowImageViews ≠ [] then
          Except.error Fault.assertionFailed
        else
          Except.ok ({ s.fboDesc with mImageViews := views,
                                      mWindowImageViews := textureVulkan.swapchainImageViews },
                     s.device)
    if bResolveTex = true then
      let resolveAttachRefs ←
        writeAt s.resolveAttachRefs vkIdx (some ⟨s.attachmentIdx, .COLOR_ATTACHMENT_OPTIMAL⟩)
      .ok { s with attachments := attachments, fboDesc := fboDesc, device := device,
                   resolveAttachRefs := resolveAttachRefs,
                   attachmentIdx := s.attachmentIdx + 1 }
    else
      let colourAttachRefs ←
        writeAt s.colourAttachRefs vkIdx (some ⟨s.attachmentIdx, .COLOR_ATTACHMENT_OPTIMAL⟩)
      .ok { s with attachments := attachments, fboDesc := fboDesc, device := device,
                   colourAttachRefs := colourAttachRefs,
                   attachmentIdx := s.attachmentIdx + 1 }

/-- `VulkanRenderPassDescriptor::setupColourAttachment`: for the main target
the function runs once more for the resolve target. -/
def setupColourAttachment (ext : Externals) (d : VulkanRenderPassDescriptor)
    (idx vkIdx : Nat) (bResolveTex : Bool) (s : SetupLocals) : Except Fault SetupLocals :=
  match bResolveTex with
  | true => setupColourAttachmentBody ext d idx vkIdx true s
  | false => do
    let s1 ← setupColourAttachmentBody ext d idx vkIdx false s
    setupColourAttachmentBody ext d idx vkIdx true s1

/-- The attachment record `setupDepthAttachment` fills in. -/
def depthAttachmentDescription (ext : Externals) (depth : VulkanTextureGpu) :
    VkAttachmentDescription :=
  { format := ext.vulkanMappingsGet depth.format
    samples := max depth.fsaa 1
    loadOp := .CLEAR
    storeOp := .DONT_CARE
    stencilLoadOp := .DONT_CARE
    stencilStoreOp := .DONT_CARE
    initialLayout := .UNDEFINED
    finalLayout := .DEPTH_STENCIL_ATTACHMENT_OPTIMAL }

/-- `VulkanRenderPassDescriptor::setupDepthAttachment`: the record written
through the reference, the view returned, and the device afterwards. -/
def setupDepthAttachment (ext : Externals) (d : VulkanRenderPassDescriptor)
    (dev : VulkanDevice) : Except Fault (VkAttachmentDescription × VkHandle × VulkanDevice) := do
  let texture ← deref d.mDepth
  let texName :=
    if texture.msaaTextureName ≠ 0 then texture.msaaTextureName else texture.finalTextureName
  let (view, dev1) := createView dev 0 0 texName
  .ok (depthAttachmentDescription ext texture, view, dev1)

/-- The window-slot detection inside the colour loop of `setupFbo`: a
window-backed target records the current packed index, plus one when the
texture has an MSAA image (the resolve slot is the window's). -/
def recordWindowAttachment (colour : VulkanTextureGpu) (s : SetupLocals) : SetupLocals :=
  if colour.renderWindowSpecific = true then
    { s with windowAttachmentIdx :=
               if colour.msaaTextureName ≠ 0 then s.attachmentIdx + 1 else s.attachmentIdx }
  else s

/-- The colour loop of `setupFbo`, from index `i` for `remaining` more
iterations. -/
def setupFboColours (ext : Externals) (d : VulkanRenderPassDescriptor) :
    Nat → Nat → SetupLocals → Except Fault SetupLocals
  | 0, _, s => .ok s
  | remaining + 1, i, s => do
    let colour ← (readAt d.mColour i) >>= deref
    let s1 := { s with hasRenderWindow := s.hasRenderWindow || colour.renderWindowSpecific }
    if colour.format = ext.PF_UNKNOWN then
      setupFboColours ext d remaining (i + 1) s1
    else
      let s2 := recordWindowAttachment colour s1
      let s3 ← setupColourAttachment ext d i s2.numColourAttachments false s2
      let resolveRef ← readAt s3.resolveAttachRefs s3.numColourAttachments
      let usesResolveAttachments ←
        match resolveRef with
        | none => Except.error Fault.indeterminateRead
        | some ref =>
          Except.ok (if ref.attachment ≠ VK_ATTACHMENT_UNUSED then true
                     else s3.usesResolveAttachments)
      setupFboColours ext d remaining (i + 1)
        { s3 with usesResolveAttachments := usesResolveAttachments,
                  numColourAttachments := s3.numColourAttachments + 1 }

/-- The locals of `setupFbo` when the loop starts. -/
def SetupLocals.init (ext : Externals) (fboDesc : VulkanFrameBufferDescValue)
    (dev : VulkanDevice) : SetupLocals :=
  { fboDesc := fboDesc, device := dev, hasRenderWindow := false, attachmentIdx := 0,
    numColourAttachments := 0, windowAttachmentIdx := 4294967295,
    usesResolveAttachments := false,
    attachments :=
      List.replicate (ext.OGRE_MAX_MULTIPLE_RENDER_TARGETS * 2 + 2) VkAttachmentDescription.zero,
    colourAttachRefs := List.replicate ext.OGRE_MAX_MULTIPLE_RENDER_TARGETS none,
    resolveAttachRefs := List.replicate ext.OGRE_MAX_MULTIPLE_RENDER_TARGETS none,
    depthAttachRef := none }

/-- The planning part of `setupFbo`: the colour loop and the depth block, up to
the point where the subpass is assembled. -/
def setupFboPlan (ext : Externals) (d : VulkanRenderPassDescriptor)
    (fboDesc : VulkanFrameBufferDescValue) (dev : VulkanDevice) : Except Fault SetupLocals := do
  let s ← setupFboColours ext d d.mNumColourEntries 0 (SetupLocals.init ext fboDesc dev)
  if d.mDepth.isSome then
    let (attachment, view, dev1) ← setupDepthAttachment ext d s.device
    let attachments ← writeAt s.attachments s.attachmentIdx attachment
    let views ← writeAt s.fboDesc.mImageViews s.attachmentIdx view
    .ok { s with attachments := attachments,
                 fboDesc := { s.fboDesc with mImageViews := views },
                 device := dev1,
                 depthAttachRef := some ⟨s.attachmentIdx, .DEPTH_STENCIL_ATTACHMENT_OPTIMAL⟩,
                 attachmentIdx := s.attachmentIdx + 1 }
  else
    .ok s

/-- The subpass `setupFbo` assembles from its locals. -/
def subpassOf (d : VulkanRenderPassDescriptor) (s : SetupLocals) : VkSubpassDescription :=
  { inputAttachmentCount := 0
    colorAttachmentCount := s.numColourAttachments
    pColorAttachments := s.colourAttachRefs
    pResolveAttachments := if s.usesResolveAttachments then some s.resolveAttachRefs else none
    pDepthStencilAttachment := if d.mDepth.isSome then some s.depthAttachRef else none }

/-- The framebuffer loop of `setupFbo`, from index `i` for `remaining` more
iterations. -/
def createFramebuffers (fbCreateInfo : VkFramebufferCreateInfo) (windowAttachmentIdx : Nat) :
    Nat → Nat → VulkanFrameBufferDescValue → VulkanDevice →
    Except Fault (VulkanFrameBufferDescValue × VulkanDevice)
  | 0, _, fboDesc, dev => .ok (fboDesc, dev)
  | remaining + 1, i, fboDesc, dev => do
    let views ←
      if fboDesc.mWindowImageViews ≠ [] then do
        let windowView ← readAt fboDesc.mWindowImageViews i
        writeAt fboDesc.mImageViews windowAttachmentIdx windowView
      else Except.ok fboDesc.mImageViews
    let framebuffer := dev.fresh
    let dev1 : VulkanDevice :=
      { handleCounter := dev.handleCounter + 1,
        calls := dev.calls ++
          [VkCall.vkCreateFramebuffer { fbCreateInfo with pAttachments := views } framebuffer] }
    let framebuffers ← writeAt fboDesc.mFramebuffers i framebuffer
    let views1 ←
      if fboDesc.mWindowImageViews ≠ [] then writeAt views windowAttachmentIdx 0
      else Except.ok views
    createFramebuffers fbCreateInfo windowAttachmentIdx remaining (i + 1)
      { fboDesc with mImageViews := views1, mFramebuffers := framebuffers } dev1

/-- `VulkanRenderPassDescriptor::setupFbo`. -/
def setupFbo (ext : Externals) (d : VulkanRenderPassDescriptor)
    (fboDesc : VulkanFrameBufferDescValue) (dev : VulkanDevice) :
    Except Fault (VulkanFrameBufferDescValue × VulkanDevice) :=
  if fboDesc.mRenderPass ≠ 0 then
    .ok (fboDesc, dev)
  else do
    let s ← setupFboPlan ext d fboDesc dev
    let subpass := subpassOf d s
    let fboDesc1 := { s.fboDesc with mNumImageViews := s.attachmentIdx }
    let renderPassCreateInfo : VkRenderPassCreateInfo :=
      { attachmentCount := s.attachmentIdx, pAttachments := s.attachments,
        subpassCount := 1, pSubpasses := subpass }
    let renderPass := s.device.fresh
    let dev1 : VulkanDevice :=
      { handleCounter := s.device.handleCounter + 1,
        calls := s.device.calls ++ [VkCall.vkCreateRenderPass renderPassCreateInfo renderPass] }
    let fboDesc2 := { fboDesc1 with mRenderPass := renderPass }
    let fbCreateInfo : VkFramebufferCreateInfo :=
      { renderPass := fboDesc2.mRenderPass, attachmentCount := s.attachmentIdx,
        pAttachments := fboDesc2.mImageViews, width := d.mTargetWidth,
        height := d.mTargetHeight, layers := 1 }
    let numFramebuffers := max fboDesc2.mWindowImageViews.length 1
    let fboDesc3 :=
      { fboDesc2 with mFramebuffers :=
          fboDesc2.mFramebuffers.take numFramebuffers ++
            List.replicate (numFramebuffers - fboDesc2.mFramebuffers.length) 0 }
    createFramebuffers fbCreateInfo s.windowAttachmentIdx numFramebuffers 0 fboDesc3 dev1

/-! ## The descriptor's operations -/

/-- `VulkanRenderPassDescriptor::checkRenderWindowStatus`. -/
def checkRenderWindowStatus (ext : Externals) (d : VulkanRenderPassDescriptor) (w : World) :
    Except Fault (VulkanRenderPassDescriptor × World) := do
  let colourIsWindow ←
    if d.mNumColourEntries > 0 then do
      let colour ← (readAt d.mColour 0) >>= deref
      Except.ok colour.renderWindowSpecific
    else Except.ok false
  let depthIsWindow :=
    match d.mDepth with
    | some depth => depth.renderWindowSpecific
    | none => false
  if (colourIsWindow || depthIsWindow) = true ∧ d.mNumColourEntries > 1 then
    .error .ERR_INVALIDPARAMS
  else
    calculateSharedKey ext d w

/-- The loop of `entriesModified` that picks the first non-null colour target. -/
def firstColourTarget (d : VulkanRenderPassDescriptor) :
    Nat → Nat → Option VulkanTextureGpu → Except Fault (Option VulkanTextureGpu)
  | 0, _, anyTargetTexture => .ok anyTargetTexture
  | remaining + 1, i, anyTargetTexture =>
    if anyTargetTexture.isSome then .ok anyTargetTexture
    else do
      let colour ← readAt d.mColour i
      firstColourTarget d remaining (i + 1) colour

/-- `VulkanRenderPassDescriptor::entriesModified`. -/
def entriesModified (ext : Externals) (d : VulkanRenderPassDescriptor) (w : World)
    (entryTypes : Nat) : Except Fault (VulkanRenderPassDescriptor × World) := do
  let (d1, w1) ← checkRenderWindowStatus ext d w
  let anyColour ← firstColourTarget d1 d1.mNumColourEntries 0 none
  let anyTargetTexture := if anyColour.isSome then anyColour else d1.mDepth
  let d2 :=
    match anyTargetTexture with
    | some texture => { d1 with mTargetWidth := texture.width, mTargetHeight := texture.height }
    | none => { d1 with mTargetWidth := 0, mTargetHeight := 0 }
  if entryTypes &&& ext.All ≠ 0 then
    match d2.mSharedFboItor with
    | none => .error .invalidIterator
    | some itor =>
      match mapFind VulkanFrameBufferDescKey.equiv w1.mFrameBufferDescMap itor with
      | none => .error .invalidIterator
      | some (_, fboDesc) => do
        let (fboDesc1, dev1) ← setupFbo ext d2 fboDesc w1.device
        let frameBufferDescMap :=
          mapModify VulkanFrameBufferDescKey.equiv w1.mFrameBufferDescMap itor (fun _ => fboDesc1)
        .ok (d2, { w1 with mFrameBufferDescMap := frameBufferDescMap, device := dev1 })
  else
    .ok (d2, w1)

/-- The loop of `setClearColour( idx, clearColour )` that walks to the slot. -/
def clearColourSlot (d : VulkanRenderPassDescriptor) : Nat → Nat → Nat → Except Fault Nat
  | 0, _, attachmentIdx => .ok attachmentIdx
  | remaining + 1, i, attachmentIdx => do
    let colour ← (readAt d.mColour i) >>= deref
    clearColourSlot d remaining (i + 1)
      (if colour.msaaTextureName ≠ 0 then attachmentIdx + 1 + 1 else attachmentIdx + 1)

/-- `VulkanRenderPassDescriptor::setClearColour( uint8 idx, const ColourValue & )`. -/
def setClearColour (ext : Externals) (d : VulkanRenderPassDescriptor) (idx : Nat)
    (clearColour : ColourValue) : Except Fault VulkanRenderPassDescriptor := do
  let attachmentIdx ← clearColourSlot d idx 0 0
  let colour ← (readAt d.mColour idx) >>= deref
  let old ← readAt d.mClearValues attachmentIdx
  let clearValues ←
    writeAt d.mClearValues attachmentIdx
      { old with color := getClearColour ext clearColour colour.format }
  .ok { d with mClearValues := clearValues }

/-- `VulkanRenderPassDescriptor::willSwitchTo`; `newDesc` may be the null
pointer. -/
def willSwitchTo (ext : Externals) (self : VulkanRenderPassDescriptor)
    (newDesc : Option VulkanRenderPassDescriptor) (warnIfRtvWasFlushed : Bool) :
    Except Fault Nat := do
  let flushAll :=
    match newDesc with
    | none => true
    | some next =>
      decide (self.mSharedFboFlushItor ≠ next.mSharedFboFlushItor) ||
        self.mInformationOnly || next.mInformationOnly
  let entriesToFlush := if flushAll then ext.All else 0
  if warnIfRtvWasFlushed then
    let next ← deref newDesc
    ext.checkWarnIfRtvWasFlushed next entriesToFlush
  .ok entriesToFlush

/-! ## Clear values, pass commands and swap-chain notifications -/

/-- The loop of `setClearColour( const ColourValue & )`. -/
def setClearColourLoop (ext : Externals) (d : VulkanRenderPassDescriptor)
    (clearColour : ColourValue) :
    Nat → Nat → Nat → List VkClearValue → Except Fault (List VkClearValue)
  | 0, _, _, clearValues => .ok clearValues
  | remaining + 1, i, attachmentIdx, clearValues => do
    let colour ← (readAt d.mColour i) >>= deref
    let old ← readAt clearValues attachmentIdx
    let clearValues1 ←
      writeAt clearValues attachmentIdx
        { old with color := getClearColour ext clearColour colour.format }
    setClearColourLoop ext d clearColour remaining (i + 1)
      (if colour.msaaTextureName ≠ 0 then attachmentIdx + 1 + 1 else attachmentIdx + 1)
      clearValues1

/-- `VulkanRenderPassDescriptor::setClearColour( const ColourValue & )`, the
overload for all colour entries. -/
def setClearColourAll (ext : Externals) (d : VulkanRenderPassDescriptor)
    (clearColour : ColourValue) : Except Fault VulkanRenderPassDescriptor := do
  let clearValues ← setClearColourLoop ext d clearColour d.mNumColourEntries 0 0 d.mClearValues
  .ok { d with mClearValues := clearValues }

/-- `mNumImageViews - 1u`: the subtraction is done on the 32-bit unsigned
count, so it wraps around when the count is zero; the result is then widened
to `size_t`. -/
def lastImageViewIdx (mNumImageViews : Nat) : Nat :=
  (mNumImageViews % 4294967296 + 4294967296 - 1) % 4294967296

/-- The common shape of `setClearDepth` and `setClearStencil`: when the
descriptor has a depth target and holds a registry entry, the clear value at
`mNumImageViews - 1u` of that entry is updated. -/
def setDepthStencilClearValue (d : VulkanRenderPassDescriptor) (w : World)
    (update : VkClearValue → VkClearValue) : Except Fault VulkanRenderPassDescriptor :=
  match d.mDepth, d.mSharedFboItor with
  | some _, some itor =>
    match mapFind VulkanFrameBufferDescKey.equiv w.mFrameBufferDescMap itor with
    | none => .error .invalidIterator
    | some (_, fboDesc) => do
      let attachmentIdx := lastImageViewIdx fboDesc.mNumImageViews
      let old ← readAt d.mClearValues attachmentIdx
      let clearValues ← writeAt d.mClearValues attachmentIdx (update old)
      .ok { d with mClearValues := clearValues }
  | _, _ => .ok d

/-- `VulkanRenderPassDescriptor::setClearDepth`. -/
def setClearDepth (ext : Externals) (d : VulkanRenderPassDescriptor) (w : World)
    (clearDepth : Int) : Except Fault VulkanRenderPassDescriptor :=
  setDepthStencilClearValue d w fun old =>
    if !ext.isReverseDepthBufferEnabled then { old with depth := clearDepth }
    else { old with depth := 1 - clearDepth }

/-- `VulkanRenderPassDescriptor::setClearStencil`. -/
def setClearStencil (d : VulkanRenderPassDescriptor) (w : World) (clearStencil : Nat) :
    Except Fault VulkanRenderPassDescriptor :=
  setDepthStencilClearValue d w fun old => { old with stencil := clearStencil }

/-- `VulkanQueue::EncoderState`; only `EncoderGraphicsOpen` is named in the
source, the other states are told apart by a number. -/
inductive EncoderState where
  | EncoderGraphicsOpen
  | other (state : Nat)
  deriving DecidableEq, Repr

/-- `VkRenderPassBeginInfo`, with the render area spelled out; `pClearValues`
is the array it points to. -/
structure VkRenderPassBeginInfo where
  renderPass : VkHandle
  framebuffer : VkHandle
  renderAreaOffsetX : Int
  renderAreaOffsetY : Int
  renderAreaWidth : Nat
  renderAreaHeight : Nat
  clearValueCount : Nat
  pClearValues : List VkClearValue
  deriving DecidableEq, Repr

/-- What the descriptor asks of its queue, in the order asked: the two queue
members it calls and the two commands it records. -/
inductive QueueCall where
  | addWindowToWaitFor (semaphore : VkHandle)
  | vkCmdBeginRenderPass (cmdBuffer : VkHandle) (info : VkRenderPassBeginInfo)
  | vkCmdEndRenderPass (cmdBuffer : VkHandle)
  | endAllEncoders (endRenderPassDesc : Bool)
  deriving DecidableEq, Repr

/-- The part of `VulkanQueue` the descriptor reads, and the log of what it
asked of the queue. -/
structure VulkanQueue where
  mCurrentCmdBuffer : VkHandle
  encoderState : EncoderState
  calls : List QueueCall
  deriving DecidableEq, Repr

/-- `VulkanRenderPassDescriptor::performLoadActions`. As in
`setupColourAttachment`, the `static_cast` of `mColour[0]` to the window
texture class is a fault for a texture that has no window data. -/
def performLoadActions (d : VulkanRenderPassDescriptor) (w : World) (q : VulkanQueue) :
    Except Fault VulkanQueue :=
  if d.mInformationOnly then .ok q
  else do
    let cmdBuffer := q.mCurrentCmdBuffer
    let itor ← match d.mSharedFboItor with
      | some itor => Except.ok itor
      | none => .error .invalidIterator
    let fboDesc ← match mapFind VulkanFrameBufferDescKey.equiv w.mFrameBufferDescMap itor with
      | some (_, fboDesc) => Except.ok fboDesc
      | none => .error .invalidIterator
    let (fboIdx, q1) ←
      if fboDesc.mWindowImageViews ≠ [] then do
        let colour ← (readAt d.mColour 0) >>= deref
        let textureVulkan ← deref colour.asWindow
        let semaphore := textureVulkan.imageAcquiredSemaphore
        let q1 :=
          if semaphore ≠ 0 then { q with calls := q.calls ++ [.addWindowToWaitFor semaphore] }
          else q
        Except.ok (textureVulkan.currentImageIdx, q1)
      else Except.ok (0, q)
    let framebuffer ← readAt fboDesc.mFramebuffers fboIdx
    let passBeginInfo : VkRenderPassBeginInfo :=
      { renderPass := fboDesc.mRenderPass, framebuffer := framebuffer,
        renderAreaOffsetX := 0, renderAreaOffsetY := 0,
        renderAreaWidth := d.mTargetWidth, renderAreaHeight := d.mTargetHeight,
        clearValueCount := d.mClearValues.length, pClearValues := d.mClearValues }
    .ok { q1 with calls := q1.calls ++ [.vkCmdBeginRenderPass cmdBuffer passBeginInfo] }

/-- `VulkanRenderPassDescriptor::performStoreActions`. -/
def performStoreActions (d : VulkanRenderPassDescriptor) (q : VulkanQueue) : VulkanQueue :=
  if d.mInformationOnly then q
  else if q.encoderState ≠ .EncoderGraphicsOpen then q
  else
    { q with
      calls := q.calls ++ [.vkCmdEndRenderPass q.mCurrentCmdBuffer, .endAllEncoders false] }

/-- The two textures a `VulkanWindow` hands out (`getTexture`,
`getDepthTexture`); either pointer may be null. -/
structure VulkanWindow where
  texture : Option VulkanTextureGpu
  depthTexture : Option VulkanTextureGpu
  deriving DecidableEq, Repr

/-- Equality of two texture pointers: both null, or the same address. -/
def samePointer (a b : Option VulkanTextureGpu) : Bool :=
  a.map (fun texture => texture.address) == b.map (fun texture => texture.address)

/-- `VulkanRenderPassDescriptor::notifySwapchainCreated`. -/
def notifySwapchainCreated (ext : Externals) (d : VulkanRenderPassDescriptor) (w : World)
    (window : VulkanWindow) : Except Fault (VulkanRenderPassDescriptor × World) := do
  let colours ← writeAt d.mColour 0 window.texture
  entriesModified ext
    { d with mNumColourEntries := 1, mColour := colours, mDepth := window.depthTexture } w ext.All

/-- `VulkanRenderPassDescriptor::notifySwapchainDestroyed`. -/
def notifySwapchainDestroyed (d : VulkanRenderPassDescriptor) (w : World)
    (window : VulkanWindow) : Except Fault (VulkanRenderPassDescriptor × World) := do
  let ours ←
    if d.mNumColourEntries > 0 then do
      let colour ← (readAt d.mColour 0) >>= deref
      Except.ok (colour.renderWindowSpecific && samePointer (some colour) window.texture)
    else Except.ok false
  if ours then releaseFbo d w else .ok (d, w)

/-! ## The triplanar-texturing script factory -/

/-- A value node of a script property, as far as `SGScriptTranslator::getFloat`
and `SGScriptTranslator::getString` look at it: what each of them stores
through its output pointer, `none` when it returns false. -/
structure AbstractNode where
  getFloat : Option Int
  getString : Option String
  deriving DecidableEq, Repr

/-- `PropertyAbstractNode`: the fields `createInstance` reads. -/
structure PropertyAbstractNode where
  name : String
  values : List AbstractNode
  file : String
  line : Nat
  deriving DecidableEq, Repr

/-- The error code `createInstance` reports. -/
inductive CompileErrorCode where
  | CE_INVALIDPARAMETERS
  deriving DecidableEq, Repr

/-- One `ScriptCompiler::addError` record. -/
structure CompileError where
  code : CompileErrorCode
  file : String
  line : Nat
  deriving DecidableEq, Repr

/-- `ScriptCompiler`: the errors added so far, oldest first. -/
structure ScriptCompiler where
  errors : List CompileError
  deriving DecidableEq, Repr

/-- `ScriptCompiler::addError`. -/
def ScriptCompiler.addError (compiler : ScriptCompiler) (code : CompileErrorCode)
    (file : String) (line : Nat) : ScriptCompiler :=
  { errors := compiler.errors ++ [⟨code, file, line⟩] }

/-- `TriplanarTexturing`: the members its two setters write. -/
structure TriplanarTexturing where
  mParameters : Int × Int × Int
  mTextureNameFromX : String
  mTextureNameFromY : String
  mTextureNameFromZ : String
  deriving DecidableEq, Repr

/-- `TriplanarTexturing::setParameters`. -/
def TriplanarTexturing.setParameters (self : TriplanarTexturing) (parameters : Int × Int × Int) :
    TriplanarTexturing :=
  { self with mParameters := parameters }

/-- `TriplanarTexturing::setTextureNames`. -/
def TriplanarTexturing.setTextureNames (self : TriplanarTexturing)
    (textureNameFromX textureNameFromY textureNameFromZ : String) : TriplanarTexturing :=
  { self with
    mTextureNameFromX := textureNameFromX, mTextureNameFromY := textureNameFromY,
    mTextureNameFromZ := textureNameFromZ }

/-- `SGScriptTranslator`, as far as `createOrRetrieveInstance( translator )`
depends on it: the instance that call hands out (created or retrieved), null
when it hands out none. -/
structure SGScriptTranslator where
  subRenderState : Option TriplanarTexturing
  deriving DecidableEq, Repr

/-- What `createInstance` leaves behind: the returned pointer (`none` is NULL,
otherwise the instance as it is at the return), the compiler, and the
translator with its instance as the call left it. -/
structure CreateInstanceResult where
  returned : Option TriplanarTexturing
  compiler : ScriptCompiler
  translator : SGScriptTranslator
  deriving DecidableEq, Repr

/-- `TriplanarTexturingFactory::createInstance`. The `pass` argument is not
used by the source. -/
def TriplanarTexturingFactory.createInstance (compiler : ScriptCompiler)
    (prop : PropertyAbstractNode) (translator : SGScriptTranslator) :
    Except Fault CreateInstanceResult :=
  if prop.name = "triplanarTexturing" then
    match prop.values with
    | [v0, v1, v2, v3, v4, v5] =>
      let subRenderState := translator.subRenderState
      let invalid (translator1 : SGScriptTranslator) : Except Fault CreateInstanceResult :=
        .ok { returned := none,
              compiler := compiler.addError .CE_INVALIDPARAMETERS prop.file prop.line,
              translator := translator1 }
      match v0.getFloat with
      | none => invalid translator
      | some p0 =>
      match v1.getFloat with
      | none => invalid translator
      | some p1 =>
      match v2.getFloat with
      | none => invalid translator
      | some p2 => do
      let tpSubRenderState ← deref subRenderState
      let tpSubRenderState1 := tpSubRenderState.setParameters (p0, p1, p2)
      let translator1 : SGScriptTranslator := { subRenderState := some tpSubRenderState1 }
      match v3.getString with
      | none => invalid translator1
      | some textureNameFromX =>
      match v4.getString with
      | none => invalid translator1
      | some textureNameFromY =>
      match v5.getString with
      | none => invalid translator1
      | some textureNameFromZ =>
      let tpSubRenderState2 :=
        tpSubRenderState1.setTextureNames textureNameFromX textureNameFromY textureNameFromZ
      .ok { returned := some tpSubRenderState2, compiler := compiler,
            translator := { subRenderState := some tpSubRenderState2 } }
    | _ =>
      .ok { returned := none,
            compiler := compiler.addError .CE_INVALIDPARAMETERS prop.file prop.line,
            translator := translator }
  else
    .ok { returned := none, compiler := compiler, translator := translator }

/-! ## The packing, in the words of the specification -/

/-- Number of packed slots one colour target contributes: none when its format
is null/unknown, otherwise the primary slot and, when the texture has an
implicit multisample texture, the resolve slot after it. -/
def slotsOfColour (ext : Externals) (texture : VulkanTextureGpu) : Nat :=
  if texture.format = ext.PF_UNKNOWN then 0
  else if texture.msaaTextureName ≠ 0 then 2
  else 1

/-- Number of packed colour slots of a list of colour targets. -/
def packedSlotCount (ext : Externals) (colours : List VulkanTextureGpu) : Nat :=
  (colours.map (slotsOfColour ext)).sum

/-- Number of colour targets that contribute a slot (format not null/unknown). -/
def plannedColourCount (ext : Externals) (colours : List VulkanTextureGpu) : Nat :=
  (colours.filter (fun texture => decide (texture.format ≠ ext.PF_UNKNOWN))).length

/-- Packed index of the primary slot of logical colour entry `i`: the slots of
the entries before it come first. -/
def packedIndex (ext : Externals) (colours : List VulkanTextureGpu) (i : Nat) : Nat :=
  packedSlotCount ext (colours.take i)

/-- Position of logical colour entry `i` among the entries that contribute a
slot. -/
def referenceIndex (ext : Externals) (colours : List VulkanTextureGpu) (i : Nat) : Nat :=
  plannedColourCount ext (colours.take i)

/-- Number of slots of a planned colour target whose image view is left to the
window's swap chain: a window-backed primary that is not multisampled, and a
window-backed resolve. -/
def windowSlotsPlanned (texture : VulkanTextureGpu) : Nat :=
  (if texture.renderWindowSpecific = true ∧ texture.multisample = false then 1 else 0) +
  (if texture.renderWindowSpecific = true ∧ texture.msaaTextureName ≠ 0 then 1 else 0)

/-- Number of window slots one colour target contributes (none when it is
skipped). -/
def windowSlotsOfColour (ext : Externals) (texture : VulkanTextureGpu) : Nat :=
  if texture.format = ext.PF_UNKNOWN then 0 else windowSlotsPlanned texture

/-- Number of window slots of a list of colour targets. -/
def windowSlotCount (ext : Externals) (colours : List VulkanTextureGpu) : Nat :=
  (colours.map (windowSlotsOfColour ext)).sum

/-- The first `mNumColourEntries` elements of `mColour` are exactly the
textures `colours`, none of them null. -/
def HasColours (d : VulkanRenderPassDescriptor) (colours : List VulkanTextureGpu) : Prop :=
  d.mNumColourEntries = colours.length ∧
  ∀ i, i < colours.length → d.mColour[i]? = some colours[i]?

/-- The colour targets can be planned without leaving the arrays or tripping
the window assertion: at most `OGRE_MAX_MULTIPLE_RENDER_TARGETS` of them, every
window-backed one is a window texture, and (where the assertion is compiled in)
at most one slot is left to a swap chain. -/
def Plannable (ext : Externals) (colours : List VulkanTextureGpu) : Prop :=
  colours.length ≤ ext.OGRE_MAX_MULTIPLE_RENDER_TARGETS ∧
  (∀ texture ∈ colours, texture.renderWindowSpecific = true → texture.asWindow.isSome = true) ∧
  (ext.assertLow = true → windowSlotCount ext colours ≤ 1)

/-- Run `calculateSharedKey` for each descriptor of a list in turn. -/
def acquireAll (ext : Externals) :
    List VulkanRenderPassDescriptor → World →
    Except Fault (List VulkanRenderPassDescriptor × World)
  | [], w => .ok ([], w)
  | d :: ds, w => do
    let (d1, w1) ← calculateSharedKey ext d w
    let (ds1, w2) ← acquireAll ext ds w1
    .ok (d1 :: ds1, w2)

/-- Run `releaseFbo` for each descriptor of a list in turn. -/
def releaseAll :
    List VulkanRenderPassDescriptor → World →
    Except Fault (List VulkanRenderPassDescriptor × World)
  | [], w => .ok ([], w)
  | d :: ds, w => do
    let (d1, w1) ← releaseFbo d w
    let (ds1, w2) ← releaseAll ds w1
    .ok (d1 :: ds1, w2)

/-- The value of the FBO registry entry for `key`, if there is one. -/
def fboEntry (w : World) (key : VulkanFrameBufferDescKey) : Option VulkanFrameBufferDescValue :=
  (mapFind VulkanFrameBufferDescKey.equiv w.mFrameBufferDescMap key).map (fun node => node.2)

/-- Reference count of the flush-only entry for `key` (zero when absent). -/
def flushRefCount (w : World) (key : Nat) : Nat :=
  match mapFind flushEquiv w.mFlushOnlyDescMap key with
  | some node => node.2.refCount
  | none => 0

/-- Number of `destroyFbo` invocations so far: each one ends with exactly one
`vkDestroyRenderPass`, which nothing else calls. -/
def destroyFboCount (dev : VulkanDevice) : Nat :=
  (dev.calls.filter (fun call =>
    match call with
    | VkCall.vkDestroyRenderPass _ => true
    | _ => false)).length

/-- A free descriptor after it ran `calculateSharedKey`. -/
def acquiredDescriptor (ext : Externals) (d : VulkanRenderPassDescriptor) :
    VulkanRenderPassDescriptor :=
  { d with mSharedFboItor := some (VulkanFrameBufferDescKey.ofDesc ext d),
           mSharedFboFlushItor := some (ext.flushKey
             { d with mSharedFboItor := some (VulkanFrameBufferDescKey.ofDesc ext d) }) }

/-- The flush-only handles held by a list of descriptors. -/
def flushHandles (ds : List VulkanRenderPassDescriptor) : List Nat :=
  ds.filterMap (fun d => d.mSharedFboFlushItor)


/-- Replace the elements of `xs` from index `k` on by `ys`. -/
def overwrite {α : Type} (xs : List α) (k : Nat) (ys : List α) : List α :=
  xs.take k ++ ys ++ xs.drop (k + ys.length)

/-- The resolve reference `setupColourAttachment` writes for a texture whose
primary slot is `a`. -/
def resolveReference (texture : VulkanTextureGpu) (a : Nat) : VkAttachmentReference :=
  if texture.msaaTextureName ≠ 0 then ⟨a + 1, .COLOR_ATTACHMENT_OPTIMAL⟩
  else ⟨VK_ATTACHMENT_UNUSED, .UNDEFINED⟩

/-- The attachment records of one planned colour target: the primary slot and,
when the texture has an implicit multisample texture, the resolve slot. -/
def colourSlots (ext : Externals) (texture : VulkanTextureGpu) : List VkAttachmentDescription :=
  if texture.msaaTextureName ≠ 0 then
    [colourAttachmentDescription ext texture false, colourAttachmentDescription ext texture true]
  else [colourAttachmentDescription ext texture false]

/-- The attachment records of the colour targets in packed order. -/
def attachmentList (ext : Externals) : List VulkanTextureGpu → List VkAttachmentDescription
  | [] => []
  | t :: cs =>
    if t.format = ext.PF_UNKNOWN then attachmentList ext cs
    else colourSlots ext t ++ attachmentList ext cs

/-- The colour references of the planned colour targets, the first primary slot
being `a`. -/
def colourRefList (ext : Externals) : Nat → List VulkanTextureGpu → List VkAttachmentReference
  | _, [] => []
  | a, t :: cs =>
    if t.format = ext.PF_UNKNOWN then colourRefList ext a cs
    else ⟨a, .COLOR_ATTACHMENT_OPTIMAL⟩ :: colourRefList ext (a + (colourSlots ext t).length) cs

/-- The resolve references of the planned colour targets, the first primary
slot being `a`. -/
def resolveRefList (ext : Externals) : Nat → List VulkanTextureGpu → List VkAttachmentReference
  | _, [] => []
  | a, t :: cs =>
    if t.format = ext.PF_UNKNOWN then resolveRefList ext a cs
    else resolveReference t a :: resolveRefList ext (a + (colourSlots ext t).length) cs

/-- What the colour loop of `setupFbo` has done to its locals `s` once it ran
over the colour targets `cs`, giving `s1`. -/
structure ColoursPlanned (ext : Externals) (cs : List VulkanTextureGpu)
    (s s1 : SetupLocals) : Prop where
  attachments :
    s1.attachments = overwrite s.attachments s.attachmentIdx (attachmentList ext cs)
  attachmentIdx : s1.attachmentIdx = s.attachmentIdx + packedSlotCount ext cs
  colourAttachRefs :
    s1.colourAttachRefs = overwrite s.colourAttachRefs s.numColourAttachments
      ((colourRefList ext s.attachmentIdx cs).map some)
  resolveAttachRefs :
    s1.resolveAttachRefs = overwrite s.resolveAttachRefs s.numColourAttachments
      ((resolveRefList ext s.attachmentIdx cs).map some)
  numColourAttachments :
    s1.numColourAttachments = s.numColourAttachments + plannedColourCount ext cs
  imageViewsLength : s1.fboDesc.mImageViews.length = s.fboDesc.mImageViews.length
  hasRenderWindow :
    s1.hasRenderWindow = (s.hasRenderWindow || cs.any (fun t => t.renderWindowSpecific))
  usesResolveAttachments :
    s1.usesResolveAttachments = (s.usesResolveAttachments ||
      (resolveRefList ext s.attachmentIdx cs).any
        (fun r => decide (r.attachment ≠ VK_ATTACHMENT_UNUSED)))
  depthAttachRef : s1.depthAttachRef = s.depthAttachRef
  refCount : s1.fboDesc.refCount = s.fboDesc.refCount
  mNumImageViews : s1.fboDesc.mNumImageViews = s.fboDesc.mNumImageViews
  mFramebuffers : s1.fboDesc.mFramebuffers = s.fboDesc.mFramebuffers
  mRenderPass : s1.fboDesc.mRenderPass = s.fboDesc.mRenderPass
  windowIdx : s1.fboDesc.mWindowImageViews ≠ [] → s1.windowAttachmentIdx < s1.attachmentIdx
  windowViews :
    windowSlotCount ext cs = 0 → s1.fboDesc.mWindowImageViews = s.fboDesc.mWindowImageViews

/-- The slot of the depth target, if there is one. -/
def depthSlots (ext : Externals) (d : VulkanRenderPassDescriptor) : List VkAttachmentDescription :=
  match d.mDepth with
  | some depth => [depthAttachmentDescription ext depth]
  | none => []

/-- What the planning part of `setupFbo` leaves in its locals for a descriptor
whose colour targets are `cs`, starting from the entry `fboDesc`. -/
structure FboPlanned (ext : Externals) (d : VulkanRenderPassDescriptor)
    (cs : List VulkanTextureGpu) (fboDesc : VulkanFrameBufferDescValue)
    (s : SetupLocals) : Prop where
  attachments :
    s.attachments = (attachmentList ext cs ++ depthSlots ext d) ++
      List.replicate (ext.OGRE_MAX_MULTIPLE_RENDER_TARGETS * 2 + 2 -
        (attachmentList ext cs ++ depthSlots ext d).length) VkAttachmentDescription.zero
  attachmentIdx : s.attachmentIdx = packedSlotCount ext cs + (depthSlots ext d).length
  colourAttachRefs :
    s.colourAttachRefs = (colourRefList ext 0 cs).map some ++
      List.replicate (ext.OGRE_MAX_MULTIPLE_RENDER_TARGETS - plannedColourCount ext cs) none
  resolveAttachRefs :
    s.resolveAttachRefs = (resolveRefList ext 0 cs).map some ++
      List.replicate (ext.OGRE_MAX_MULTIPLE_RENDER_TARGETS - plannedColourCount ext cs) none
  numColourAttachments : s.numColourAttachments = plannedColourCount ext cs
  depthAttachRef :
    s.depthAttachRef =
      d.mDepth.map (fun _ => ⟨packedSlotCount ext cs, .DEPTH_STENCIL_ATTACHMENT_OPTIMAL⟩)
  hasRenderWindow : s.hasRenderWindow = cs.any (fun t => t.renderWindowSpecific)
  usesResolveAttachments :
    s.usesResolveAttachments =
      (resolveRefList ext 0 cs).any (fun r => decide (r.attachment ≠ VK_ATTACHMENT_UNUSED))
  imageViewsLength : s.fboDesc.mImageViews.length = fboDesc.mImageViews.length
  refCount : s.fboDesc.refCount = fboDesc.refCount
  mNumImageViews : s.fboDesc.mNumImageViews = fboDesc.mNumImageViews
  mFramebuffers : s.fboDesc.mFramebuffers = fboDesc.mFramebuffers
  mRenderPass : s.fboDesc.mRenderPass = fboDesc.mRenderPass
  windowIdx : s.fboDesc.mWindowImageViews ≠ [] → s.windowAttachmentIdx < s.attachmentIdx
  windowViews :
    windowSlotCount ext cs = 0 → s.fboDesc.mWindowImageViews = fboDesc.mWindowImageViews

/-- Whether `setupColourAttachment` creates an image view for a slot of the
texture (its test `!isRenderWindowSpecific() || ( isMultisample() && !bResolveTex )`);
otherwise the slot is left to the window's swap chain. -/
def createsView (texture : VulkanTextureGpu) (bResolveTex : Bool) : Bool :=
  !texture.renderWindowSpecific || (texture.multisample && !bResolveTex)

/-- The image views of the slots of one planned colour target, when the device
has handed out `h` handles so far: a created view, or null for a window slot. -/
def colourViews (texture : VulkanTextureGpu) (h : Nat) : List VkHandle :=
  if texture.msaaTextureName ≠ 0 then
    [if createsView texture false then h + 1 else 0,
     if createsView texture true then (if createsView texture false then h + 1 else h) + 1
     else 0]
  else [if createsView texture false then h + 1 else 0]

/-- The `_createView` calls made for one planned colour target. -/
def colourViewCalls (texture : VulkanTextureGpu) (h : Nat) : List VkCall :=
  (if createsView texture false then
    [VkCall.createView 0 0 0 1
      (if texture.msaaTextureName ≠ 0 then texture.msaaTextureName
       else texture.finalTextureName) (h + 1)]
   else []) ++
  (if texture.msaaTextureName ≠ 0 ∧ createsView texture true = true then
    [VkCall.createView 0 0 0 1 texture.finalTextureName
      ((if createsView texture false then h + 1 else h) + 1)]
   else [])

/-- The swap-chain view list recorded after one planned colour target. -/
def windowViewsAfter (texture : VulkanTextureGpu) (views : List VkHandle) : List VkHandle :=
  if windowSlotsPlanned texture = 0 then views
  else
    match texture.asWindow with
    | some textureVulkan => textureVulkan.swapchainImageViews
    | none => views

/-- The image views of the colour slots in packed order. -/
def viewList (ext : Externals) : Nat → List VulkanTextureGpu → List VkHandle
  | _, [] => []
  | h, t :: cs =>
    if t.format = ext.PF_UNKNOWN then viewList ext h cs
    else colourViews t h ++ viewList ext (h + (colourViewCalls t h).length) cs

/-- The `_createView` calls of the colour loop, in order. -/
def viewCallList (ext : Externals) : Nat → List VulkanTextureGpu → List VkCall
  | _, [] => []
  | h, t :: cs =>
    if t.format = ext.PF_UNKNOWN then viewCallList ext h cs
    else colourViewCalls t h ++ viewCallList ext (h + (colourViewCalls t h).length) cs

/-- The swap-chain view list recorded by the colour loop. -/
def plannedWindowViews (ext : Externals) :
    List VulkanTextureGpu → List VkHandle → List VkHandle
  | [], views => views
  | t :: cs, views =>
    if t.format = ext.PF_UNKNOWN then plannedWindowViews ext cs views
    else plannedWindowViews ext cs (windowViewsAfter t views)

/-- The window slot index recorded by the colour loop, the first primary slot
being `a`. -/
def plannedWindowIdx (ext : Externals) : List VulkanTextureGpu → Nat → Nat → Nat
  | [], _, widx => widx
  | t :: cs, a, widx =>
    if t.format = ext.PF_UNKNOWN then plannedWindowIdx ext cs a widx
    else
      plannedWindowIdx ext cs (a + (colourSlots ext t).length)
        (if t.renderWindowSpecific = true then
          (if t.msaaTextureName ≠ 0 then a + 1 else a)
         else widx)

/-- What the colour loop of `setupFbo` has done to the image views, the window
data and the device once it ran over the colour targets `cs`. -/
structure ColoursRealized (ext : Externals) (cs : List VulkanTextureGpu)
    (s s1 : SetupLocals) : Prop where
  imageViews :
    s1.fboDesc.mImageViews =
      overwrite s.fboDesc.mImageViews s.attachmentIdx (viewList ext s.device.handleCounter cs)
  calls : s1.device.calls = s.device.calls ++ viewCallList ext s.device.handleCounter cs
  handleCounter :
    s1.device.handleCounter =
      s.device.handleCounter + (viewCallList ext s.device.handleCounter cs).length
  windowViews :
    s1.fboDesc.mWindowImageViews = plannedWindowViews ext cs s.fboDesc.mWindowImageViews
  windowAttachmentIdx :
    s1.windowAttachmentIdx = plannedWindowIdx ext cs s.attachmentIdx s.windowAttachmentIdx

/-- The image view of the depth slot, if there is a depth target, when the
device has handed out `h` handles so far. -/
def depthViews (d : VulkanRenderPassDescriptor) (h : Nat) : List VkHandle :=
  match d.mDepth with
  | some _ => [h + 1]
  | none => []

/-- The `_createView` call of `setupDepthAttachment`, if there is a depth
target. -/
def depthViewCalls (d : VulkanRenderPassDescriptor) (h : Nat) : List VkCall :=
  match d.mDepth with
  | some depth =>
    [VkCall.createView 0 0 0 1
      (if depth.msaaTextureName ≠ 0 then depth.msaaTextureName else depth.finalTextureName)
      (h + 1)]
  | none => []

/-- What the planning part of `setupFbo` leaves in the image views, the window
data and the device, starting from the entry `fboDesc` and the device `dev`. -/
structure FboRealized (ext : Externals) (d : VulkanRenderPassDescriptor)
    (cs : List VulkanTextureGpu) (fboDesc : VulkanFrameBufferDescValue) (dev : VulkanDevice)
    (s : SetupLocals) : Prop where
  imageViews :
    s.fboDesc.mImageViews =
      overwrite fboDesc.mImageViews 0
        (viewList ext dev.handleCounter cs ++
          depthViews d (dev.handleCounter + (viewCallList ext dev.handleCounter cs).length))
  calls :
    s.device.calls =
      dev.calls ++ (viewCallList ext dev.handleCounter cs ++
        depthViewCalls d (dev.handleCounter + (viewCallList ext dev.handleCounter cs).length))
  handleCounter :
    s.device.handleCounter =
      dev.handleCounter + (viewCallList ext dev.handleCounter cs).length +
        (depthViews d 0).length
  windowViews :
    s.fboDesc.mWindowImageViews = plannedWindowViews ext cs fboDesc.mWindowImageViews
  windowAttachmentIdx : s.windowAttachmentIdx = plannedWindowIdx ext cs 0 4294967295

/-- The `vkCreateFramebuffer` calls of the framebuffer loop of `setupFbo`, from
index `i` for `remaining` more iterations, when the template image views are
`views`, the swap-chain views `windowViews` and the device has handed out `h`
handles so far. -/
def framebufferCalls (fbCreateInfo : VkFramebufferCreateInfo) (windowAttachmentIdx : Nat)
    (views windowViews : List VkHandle) : Nat → Nat → Nat → List VkCall
  | 0, _, _ => []
  | remaining + 1, i, h =>
    VkCall.vkCreateFramebuffer
      { fbCreateInfo with
        pAttachments :=
          if windowViews = [] then views
          else views.set windowAttachmentIdx (windowViews[i]?.getD 0) } (h + 1) ::
    framebufferCalls fbCreateInfo windowAttachmentIdx views windowViews remaining (i + 1) (h + 1)

/-- The `VkRenderPassCreateInfo` `setupFbo` assembles from its locals. -/
def renderPassCreateInfoOf (d : VulkanRenderPassDescriptor) (s : SetupLocals) :
    VkRenderPassCreateInfo :=
  { attachmentCount := s.attachmentIdx, pAttachments := s.attachments,
    subpassCount := 1, pSubpasses := subpassOf d s }

/-- The `VkFramebufferCreateInfo` `setupFbo` assembles from its locals, before
the framebuffer loop puts a swap-chain view into the window slot. -/
def fbCreateInfoOf (d : VulkanRenderPassDescriptor) (s : SetupLocals) :
    VkFramebufferCreateInfo :=
  { renderPass := s.device.handleCounter + 1, attachmentCount := s.attachmentIdx,
    pAttachments := s.fboDesc.mImageViews, width := d.mTargetWidth,
    height := d.mTargetHeight, layers := 1 }

/-- The registry entry `setupFbo` leaves, given the locals at the end of its
planning part. -/
def realizedFbo (s : SetupLocals) : VulkanFrameBufferDescValue :=
  { s.fboDesc with
    mNumImageViews := s.attachmentIdx
    mRenderPass := s.device.handleCounter + 1
    mImageViews :=
      if s.fboDesc.mWindowImageViews = [] then s.fboDesc.mImageViews
      else s.fboDesc.mImageViews.set s.windowAttachmentIdx 0
    mFramebuffers :=
      List.range' (s.device.handleCounter + 1 + 1) (max s.fboDesc.mWindowImageViews.length 1) }

/-- The device `setupFbo` leaves, given the locals at the end of its planning
part: the render pass is created first, then the framebuffers. -/
def realizedDevice (d : VulkanRenderPassDescriptor) (s : SetupLocals) : VulkanDevice :=
  { handleCounter :=
      s.device.handleCounter + 1 + max s.fboDesc.mWindowImageViews.length 1
    calls :=
      s.device.calls ++
        VkCall.vkCreateRenderPass (renderPassCreateInfoOf d s) (s.device.handleCounter + 1) ::
        framebufferCalls (fbCreateInfoOf d s) s.windowAttachmentIdx s.fboDesc.mImageViews
          s.fboDesc.mWindowImageViews (max s.fboDesc.mWindowImageViews.length 1) 0
          (s.device.handleCounter + 1) }

/-- Whether a device call is a `vkCreateRenderPass`. -/
def VkCall.isCreateRenderPass : VkCall → Bool
  | .vkCreateRenderPass _ _ => true
  | _ => false

/-- Whether a device call is a `vkCreateFramebuffer`. -/
def VkCall.isCreateFramebuffer : VkCall → Bool
  | .vkCreateFramebuffer _ _ => true
  | _ => false

/-- The texture `entriesModified` takes the target size from: the first
non-null colour target among the first `mNumColourEntries` entries, else the
depth target. -/
def targetTexture (d : VulkanRenderPassDescriptor) : Option VulkanTextureGpu :=
  match (d.mColour.take d.mNumColourEntries).findSome? id with
  | some texture => some texture
  | none => d.mDepth

/-- A free descriptor after `entriesModified`: both handles acquired and the
target size taken from `targetTexture` (zero when there is none). -/
def configuredDescriptor (ext : Externals) (d : VulkanRenderPassDescriptor) :
    VulkanRenderPassDescriptor :=
  { acquiredDescriptor ext d with
    mTargetWidth := ((targetTexture d).map (fun texture => texture.width)).getD 0
    mTargetHeight := ((targetTexture d).map (fun texture => texture.height)).getD 0 }

/-- The window/MRT configuration `checkRenderWindowStatus` rejects: the colour
target at index 0 or the depth target is window-backed and there is more than
one colour entry. -/
def windowWithMrt (d : VulkanRenderPassDescriptor) : Bool :=
  (((d.mColour[0]?.getD none).map (fun colour => colour.renderWindowSpecific)).getD false ||
    (d.mDepth.map (fun depth => depth.renderWindowSpecific)).getD false) &&
  decide (d.mNumColourEntries > 1)

/-- Calling `setClearColour( i, clearColour )` for the entries `i`, `i + 1`, …,
`remaining` of them, one after the other: what the all-entries overload is
specified to amount to. -/
def setClearColourEach (ext : Externals) (clearColour : ColourValue) :
    Nat → Nat → VulkanRenderPassDescriptor → Except Fault VulkanRenderPassDescriptor
  | 0, _, d => .ok d
  | remaining + 1, i, d => do
    let d1 ← setClearColour ext d i clearColour
    setClearColourEach ext clearColour remaining (i + 1) d1

/-- A reference-counted map agrees with a count of holders per key: every
node's count is the number of holders of its key and is not zero, and every
key that has a holder has a node. -/
def RefCounted {K V : Type} (rc : V → Nat) (m : List (K × V)) (c : K → Nat) : Prop :=
  (∀ node ∈ m, rc node.2 = c node.1 ∧ rc node.2 ≠ 0) ∧
  ∀ k, c k ≠ 0 → ∃ node ∈ m, node.1 = k

/-- What is done to the registries on behalf of the descriptor at a position
of a list of descriptors: it runs `calculateSharedKey`, it runs `releaseFbo`,
or its attachments and other members are set to those of `d` while it keeps
its two registry handles. -/
inductive RegistryOp where
  | acquire (i : Nat)
  | release (i : Nat)
  | configure (i : Nat) (d : VulkanRenderPassDescriptor)

/-- One registry operation on a list of descriptors and the registries. -/
def applyOp (ext : Externals) (op : RegistryOp)
    (st : List VulkanRenderPassDescriptor × World) :
    Except Fault (List VulkanRenderPassDescriptor × World) :=
  match op with
  | .acquire i => do
    let d ← readAt st.1 i
    let (d1, w1) ← calculateSharedKey ext d st.2
    .ok (st.1.set i d1, w1)
  | .release i => do
    let d ← readAt st.1 i
    let (d1, w1) ← releaseFbo d st.2
    .ok (st.1.set i d1, w1)
  | .configure i d1 => do
    let d ← readAt st.1 i
    .ok (st.1.set i
      { d1 with mSharedFboItor := d.mSharedFboItor,
                mSharedFboFlushItor := d.mSharedFboFlushItor }, st.2)

/-- A sequence of registry operations, one after the other. -/
def applyOps (ext : Externals) :
    List RegistryOp → List VulkanRenderPassDescriptor × World →
    Except Fault (List VulkanRenderPassDescriptor × World)
  | [], st => .ok st
  | op :: ops, st => do
    let st1 ← applyOp ext op st
    applyOps ext ops st1

/-- The invariant of the two registries against a list of descriptors: each
FBO entry and each flush-only entry has a refCount equal to the number of
descriptors whose handle names it, no entry has refCount 0, and every handle
of a descriptor is `end()` or names an entry of its map. -/
def RegistryInvariant (ds : List VulkanRenderPassDescriptor) (w : World) : Prop :=
  RefCounted (fun v : VulkanFrameBufferDescValue => v.refCount) w.mFrameBufferDescMap
    (fun k => (ds.filter (fun d => decide (d.mSharedFboItor = some k))).length) ∧
  RefCounted (fun v : VulkanFlushOnlyDescValue => v.refCount) w.mFlushOnlyDescMap
    (fun k => (ds.filter (fun d => decide (d.mSharedFboFlushItor = some k))).length)

/-! ## Concrete inputs -/

/-- A configuration of the externals with the engine's usual constants. -/
def exampleExternals : Externals :=
  { OGRE_MAX_MULTIPLE_RENDER_TARGETS := 8, All := 4294967295, PF_UNKNOWN := 0,
    vulkanMappingsGet := fun format => format, isInteger := fun _ => false,
    defaultNumColourEntries := 0, assertLow := true,
    flushKey := fun d => d.mNumColourEntries,
    checkWarnIfRtvWasFlushed := fun _ _ => .ok (),
    isReverseDepthBufferEnabled := false }

/-- An off-screen texture; it is multisampled when it has an MSAA image. -/
def exampleTexture (address format msaaTextureName : Nat) : VulkanTextureGpu :=
  { address := address, format := format, fsaa := if msaaTextureName ≠ 0 then 4 else 1,
    msaaTextureName := msaaTextureName, finalTextureName := 100 + address,
    renderWindowSpecific := false, multisample := decide (msaaTextureName ≠ 0),
    width := 640, height := 480, asWindow := none }

/-- A window-backed texture without multisampling, with three swap-chain views. -/
def exampleWindowTexture (address format : Nat) : VulkanTextureGpu :=
  { address := address, format := format, fsaa := 1,
    msaaTextureName := 0, finalTextureName := 100 + address,
    renderWindowSpecific := true, multisample := false,
    width := 640, height := 480, asWindow := some ⟨[71, 72, 73], 0, 9⟩ }

def exampleClearValue : VkClearValue :=
  { color := .float32 ⟨0, 0, 0, 0⟩, depth := 0, stencil := 0 }

/-- A descriptor with the given colour targets and depth target, holding no
registry entry. -/
def exampleDescriptor (colours : List VulkanTextureGpu) (depth : Option VulkanTextureGpu) :
    VulkanRenderPassDescriptor :=
  { mNumColourEntries := colours.length,
    mColour := colours.map some ++ List.replicate (8 - colours.length) none,
    mDepth := depth, mInformationOnly := false,
    mClearValues := List.replicate 18 exampleClearValue,
    mSharedFboItor := none, mSharedFboFlushItor := none, mTargetWidth := 0, mTargetHeight := 0 }

/-- Both registries empty, no device call made yet. -/
def emptyWorld : World :=
  { mFrameBufferDescMap := [], mFlushOnlyDescMap := [], device := ⟨0, []⟩ }

/-! ## Theorems -/

/-! ### The registries -/

theorem VulkanFrameBufferDescKey.equiv_eq (a b : VulkanFrameBufferDescKey) :
    a.equiv b = decide (a = b) := by
  cases a with | mk x => cases b with | mk y =>
  simp only [VulkanFrameBufferDescKey.equiv, VulkanFrameBufferDescKey.lt,
    VulkanFrameBufferDescKey.mk.injEq]
  by_cases h : x = y
  · simp [h]
  · rcases Nat.lt_or_gt_of_ne h with h1 | h1
    · simp [h, h1, Nat.lt_asymm h1]
    · have h2 : ¬ x < y := Nat.lt_asymm h1
      have h3 : ¬ y = x := fun e => h e.symm
      simp [h, h1, h2, h3]

theorem flushEquiv_eq (a b : Nat) : flushEquiv a b = decide (a = b) := by
  by_cases h : a = b <;> simp [flushEquiv, h]

theorem equiv_fun_eq : VulkanFrameBufferDescKey.equiv = (fun a b => decide (a = b)) := by
  funext a b; exact VulkanFrameBufferDescKey.equiv_eq a b

theorem flushEquiv_fun_eq : flushEquiv = (fun a b => decide (a = b)) := by
  funext a b; exact flushEquiv_eq a b

section MapLemmas
variable {K V : Type} [DecidableEq K]

theorem mapFind_key (m : List (K × V)) (k : K) (n : K × V)
    (h : mapFind (fun a b => decide (a = b)) m k = some n) : n.1 = k := by
  have := List.find?_some h
  simpa using this

theorem mapFind_modify (m : List (K × V)) (it k : K) (f : V → V) :
    mapFind (fun a b => decide (a = b)) (mapModify (fun a b => decide (a = b)) m it f) k =
      (mapFind (fun a b => decide (a = b)) m k).map
        (fun n => if n.1 = it then (n.1, f n.2) else n) := by
  induction m with
  | nil => rfl
  | cons n m ih =>
    obtain ⟨nk, nv⟩ := n
    simp only [mapFind, mapModify] at ih ⊢
    rw [List.map_cons, List.find?_cons, List.find?_cons]
    by_cases h1 : nk = it
    · by_cases h2 : nk = k
      · have h3 : it = k := h1 ▸ h2
        simp only [h1, h3, decide_True, if_true, Option.map_some']
      · have h3 : ¬ it = k := fun h => h2 (h1.trans h)
        simp only [h1, h3, decide_True, decide_False, if_true]
        exact ih
    · by_cases h2 : nk = k
      · simp only [h1, h2, decide_True, decide_False, Option.map_some', if_false]
        simp [← h2, h1]
      · simp only [h1, h2, decide_False, Bool.false_eq_true, if_false]
        exact ih

theorem mapFind_erase (m : List (K × V)) (it k : K) :
    mapFind (fun a b => decide (a = b)) (mapErase (fun a b => decide (a = b)) m it) k =
      if k = it then none else mapFind (fun a b => decide (a = b)) m k := by
  induction m with
  | nil => simp [mapFind, mapErase]
  | cons n m ih =>
    obtain ⟨nk, nv⟩ := n
    simp only [mapFind, mapErase] at ih ⊢
    rw [List.filter_cons]
    by_cases h1 : nk = it
    · simp only [h1, decide_True, Bool.not_true]
      rw [List.find?_cons]
      by_cases h2 : k = it
      · simp only [h2, if_true]; simp [h2] at ih; simp [ih]
      · have h3 : ¬ it = k := fun h => h2 h.symm
        simp only [h2, h3, decide_False, if_false] at ih ⊢
        simpa using ih
    · simp only [h1, decide_False, Bool.not_false, if_true]
      rw [List.find?_cons, List.find?_cons, ih]
      by_cases h3 : nk = k
      · have h2 : ¬ k = it := fun h => h1 (h3.trans h)
        simp [h3, h2]
      · simp [h3]

end MapLemmas

theorem destroyImageViews_ok : ∀ (r i : Nat) (views : List VkHandle) (dev : VulkanDevice),
    i + r ≤ views.length →
    ∃ views1 dev1, destroyImageViews r i views dev = .ok (views1, dev1) ∧
      views1.length = views.length ∧ destroyFboCount dev1 = destroyFboCount dev ∧
      dev1.handleCounter = dev.handleCounter
  | 0, i, views, dev, _ => ⟨views, dev, rfl, rfl, rfl, rfl⟩
  | r + 1, i, views, dev, h => by
    have hi : i < views.length := by omega
    have hread : readAt views i = .ok views[i] := by
      simp [readAt, List.getElem?_eq_getElem hi]
    unfold destroyImageViews
    simp only [hread, bind, Except.bind]
    by_cases hv : views[i] ≠ 0
    · rw [if_pos hv]
      simp only [writeAt, hi, if_true]
      have hlen : i + 1 + r ≤ (views.set i 0).length := by simp; omega
      obtain ⟨v1, d1, h1, h2, h3, h4⟩ := destroyImageViews_ok r (i + 1) (views.set i 0)
        { dev with calls := dev.calls ++ [VkCall.vkDestroyImageView views[i]] } hlen
      refine ⟨v1, d1, h1, by simpa using h2, ?_, by simpa using h4⟩
      rw [h3]
      simp [destroyFboCount, List.filter_append]
    · rw [if_neg hv]
      have hlen : i + 1 + r ≤ views.length := by omega
      exact destroyImageViews_ok r (i + 1) views dev hlen

theorem destroyFbo_ok (dev : VulkanDevice) (v : VulkanFrameBufferDescValue)
    (h : v.mNumImageViews ≤ v.mImageViews.length) :
    ∃ v1 dev1, destroyFbo dev v = .ok (v1, dev1) ∧
      destroyFboCount dev1 = destroyFboCount dev + 1 := by
  obtain ⟨views1, dev1, h1, _, h3, _⟩ := destroyImageViews_ok v.mNumImageViews 0 v.mImageViews
    { dev with calls := dev.calls ++ v.mFramebuffers.map VkCall.vkDestroyFramebuffer }
    (by omega)
  refine ⟨{ v with mFramebuffers := [], mImageViews := views1, mNumImageViews := 0,
                   mRenderPass := 0 },
    { dev1 with calls := dev1.calls ++ [VkCall.vkDestroyRenderPass v.mRenderPass] }, ?_, ?_⟩
  · unfold destroyFbo
    simp only [bind, Except.bind, h1]
  · simp only [destroyFboCount, List.filter_append] at h3 ⊢
    simp only [List.length_append] at h3 ⊢
    rw [h3]
    have : (List.filter (fun call => match call with
        | VkCall.vkDestroyRenderPass _ => true
        | _ => false) (List.map VkCall.vkDestroyFramebuffer v.mFramebuffers)).length = 0 := by
      rw [List.length_eq_zero, List.filter_eq_nil_iff]
      intro c hc
      obtain ⟨x, _, rfl⟩ := List.mem_map.mp hc
      simp
    simp [this]

/-- The key every descriptor gets. -/
theorem ofDesc_eq (ext : Externals) (d : VulkanRenderPassDescriptor) :
    VulkanFrameBufferDescKey.ofDesc ext d = ⟨ext.defaultNumColourEntries⟩ := rfl

theorem calculateSharedFlushOnlyKey_ok (ext : Externals) (d : VulkanRenderPassDescriptor)
    (w : World) :
    ∃ w1, calculateSharedFlushOnlyKey ext d w =
        .ok ({ d with mSharedFboFlushItor := some (ext.flushKey d) }, w1) ∧
      w1.mFrameBufferDescMap = w.mFrameBufferDescMap ∧ w1.device = w.device ∧
      ∀ g, flushRefCount w1 g = flushRefCount w g + if g = ext.flushKey d then 1 else 0 := by
  unfold calculateSharedFlushOnlyKey
  simp only [flushEquiv_fun_eq]
  cases hfind : mapFind (fun a b => decide (a = b)) w.mFlushOnlyDescMap (ext.flushKey d) with
  | none =>
    have hcons : mapFind (fun a b : Nat => decide (a = b))
        ((ext.flushKey d, { VulkanFlushOnlyDescValue.new with refCount := 0 }) ::
          w.mFlushOnlyDescMap) (ext.flushKey d)
        = some (ext.flushKey d, { VulkanFlushOnlyDescValue.new with refCount := 0 }) := by
      simp [mapFind]
    simp only [hcons]
    refine ⟨_, rfl, rfl, rfl, ?_⟩
    intro g
    simp only [flushRefCount, flushEquiv_fun_eq, mapFind_modify]
    by_cases hg : g = ext.flushKey d
    · subst hg
      simp [hcons, hfind]
    · have hne : ¬ ext.flushKey d = g := fun h => hg h.symm
      have h2 : mapFind (fun a b : Nat => decide (a = b))
          ((ext.flushKey d, { VulkanFlushOnlyDescValue.new with refCount := 0 }) ::
            w.mFlushOnlyDescMap) g
          = mapFind (fun a b : Nat => decide (a = b)) w.mFlushOnlyDescMap g := by
        simp [mapFind, List.find?_cons, hne]
      rw [h2]
      cases h3 : mapFind (fun a b : Nat => decide (a = b)) w.mFlushOnlyDescMap g with
      | none => simp [hg]
      | some n =>
        have := mapFind_key _ _ _ h3
        have hn : ¬ n.1 = ext.flushKey d := by rw [this]; exact hg
        simp [hg, hn]
  | some n =>
    have hk := mapFind_key _ _ _ hfind
    simp only [hfind, hk]
    refine ⟨_, rfl, rfl, rfl, ?_⟩
    intro g
    simp only [flushRefCount, flushEquiv_fun_eq, mapFind_modify]
    by_cases hg : g = ext.flushKey d
    · subst hg
      simp [hfind, hk]
    · cases h3 : mapFind (fun a b : Nat => decide (a = b)) w.mFlushOnlyDescMap g with
      | none => simp [hg]
      | some n' =>
        have := mapFind_key _ _ _ h3
        have hn : ¬ n'.1 = ext.flushKey d := by rw [this]; exact hg
        simp [hg, hn]

theorem releaseFboFlush_ok (d : VulkanRenderPassDescriptor) (w : World) (f : Nat)
    (hd : d.mSharedFboFlushItor = some f) (hrc : 1 ≤ flushRefCount w f) :
    ∃ w1, releaseFboFlush d w = .ok ({ d with mSharedFboFlushItor := none }, w1) ∧
      w1.mFrameBufferDescMap = w.mFrameBufferDescMap ∧ w1.device = w.device ∧
      ∀ g, flushRefCount w1 g = flushRefCount w g - if g = f then 1 else 0 := by
  unfold releaseFboFlush
  simp only [hd, flushEquiv_fun_eq]
  simp only [flushRefCount, flushEquiv_fun_eq] at hrc
  cases hfind : mapFind (fun a b => decide (a = b)) w.mFlushOnlyDescMap f with
  | none => rw [hfind] at hrc; simp at hrc
  | some n =>
    rw [hfind] at hrc
    simp only at hrc
    have hk := mapFind_key _ _ _ hfind
    obtain ⟨nk, nv⟩ := n
    simp only at hk hrc ⊢
    by_cases hz : nv.refCount - 1 = 0
    · rw [if_pos hz]
      refine ⟨_, rfl, rfl, rfl, ?_⟩
      intro g
      simp only [flushRefCount, flushEquiv_fun_eq, mapFind_erase]
      by_cases hg : g = f
      · subst hg; simp [hfind]; omega
      · simp [hg]
    · rw [if_neg hz]
      refine ⟨_, rfl, rfl, rfl, ?_⟩
      intro g
      simp only [flushRefCount, flushEquiv_fun_eq, mapFind_modify]
      by_cases hg : g = f
      · subst hg; simp [hfind, hk]
      · cases h3 : mapFind (fun a b : Nat => decide (a = b)) w.mFlushOnlyDescMap g with
        | none => simp [hg]
        | some n' =>
          have := mapFind_key _ _ _ h3
          have hn : ¬ n'.1 = f := by rw [this]; exact hg
          simp [hg, hn]

theorem flushRefCount_congr (w w1 : World) (h : w1.mFlushOnlyDescMap = w.mFlushOnlyDescMap)
    (g : Nat) : flushRefCount w1 g = flushRefCount w g := by
  simp [flushRefCount, h]

theorem fboEntry_congr (w w1 : World) (h : w1.mFrameBufferDescMap = w.mFrameBufferDescMap)
    (k : VulkanFrameBufferDescKey) : fboEntry w1 k = fboEntry w k := by
  simp [fboEntry, h]

theorem releaseFboShared_ok (d : VulkanRenderPassDescriptor) (w : World)
    (k : VulkanFrameBufferDescKey) (v : VulkanFrameBufferDescValue)
    (hd : d.mSharedFboItor = some k) (hv : fboEntry w k = some v) (hrc : 1 ≤ v.refCount)
    (hviews : v.mNumImageViews ≤ v.mImageViews.length) :
    ∃ w1, releaseFboShared d w = .ok ({ d with mSharedFboItor := none }, w1) ∧
      w1.mFlushOnlyDescMap = w.mFlushOnlyDescMap ∧
      (v.refCount = 1 →
        fboEntry w1 k = none ∧ destroyFboCount w1.device = destroyFboCount w.device + 1) ∧
      (1 < v.refCount →
        fboEntry w1 k = some { v with refCount := v.refCount - 1 } ∧ w1.device = w.device) ∧
      (∀ k1, k1 ≠ k → fboEntry w1 k1 = fboEntry w k1) := by
  unfold releaseFboShared
  simp only [hd, equiv_fun_eq]
  simp only [fboEntry, equiv_fun_eq] at hv
  cases hfind : mapFind (fun a b => decide (a = b)) w.mFrameBufferDescMap k with
  | none => rw [hfind] at hv; simp at hv
  | some n =>
    rw [hfind] at hv
    have hk := mapFind_key _ _ _ hfind
    obtain ⟨nk, nv⟩ := n
    simp only [Option.map_some', Option.some.injEq] at hv hk
    subst hv
    simp only
    by_cases hz : nv.refCount - 1 = 0
    · rw [if_pos hz]
      obtain ⟨v1, dev1, hdestroy, hcount⟩ :=
        destroyFbo_ok w.device { nv with refCount := nv.refCount - 1 } hviews
      simp only [bind, Except.bind, hdestroy]
      refine ⟨_, rfl, rfl, ?_, ?_, ?_⟩
      · intro _
        refine ⟨?_, hcount⟩
        simp [fboEntry, equiv_fun_eq, mapFind_erase]
      · intro h; omega
      · intro k1 hk1
        simp [fboEntry, equiv_fun_eq, mapFind_erase, hk1]
    · rw [if_neg hz]
      refine ⟨_, rfl, rfl, ?_, ?_, ?_⟩
      · intro h; omega
      · intro _
        refine ⟨?_, rfl⟩
        simp [fboEntry, equiv_fun_eq, mapFind_modify, hfind, hk]
      · intro k1 hk1
        simp only [fboEntry, equiv_fun_eq, mapFind_modify]
        cases h3 : mapFind (fun a b : VulkanFrameBufferDescKey => decide (a = b))
            w.mFrameBufferDescMap k1 with
        | none => simp
        | some n' =>
          have := mapFind_key _ _ _ h3
          have hn : ¬ n'.1 = k := by rw [this]; exact hk1
          simp [hn]

theorem releaseFbo_ok (d : VulkanRenderPassDescriptor) (w : World)
    (k : VulkanFrameBufferDescKey) (v : VulkanFrameBufferDescValue) (f : Nat)
    (hd : d.mSharedFboItor = some k) (hv : fboEntry w k = some v) (hrc : 1 ≤ v.refCount)
    (hviews : v.mNumImageViews ≤ v.mImageViews.length)
    (hf : d.mSharedFboFlushItor = some f) (hfrc : 1 ≤ flushRefCount w f) :
    ∃ w1, releaseFbo d w =
        .ok ({ d with mSharedFboItor := none, mSharedFboFlushItor := none }, w1) ∧
      (v.refCount = 1 →
        fboEntry w1 k = none ∧ destroyFboCount w1.device = destroyFboCount w.device + 1) ∧
      (1 < v.refCount →
        fboEntry w1 k = some { v with refCount := v.refCount - 1 } ∧ w1.device = w.device) ∧
      (∀ k1, k1 ≠ k → fboEntry w1 k1 = fboEntry w k1) ∧
      ∀ g, flushRefCount w1 g = flushRefCount w g - if g = f then 1 else 0 := by
  obtain ⟨w1, h1, h2, h3, h4, h5⟩ := releaseFboShared_ok d w k v hd hv hrc hviews
  have hfrc1 : 1 ≤ flushRefCount w1 f := by rw [flushRefCount_congr w w1 h2]; exact hfrc
  obtain ⟨w2, g1, g2, g3, g4⟩ :=
    releaseFboFlush_ok { d with mSharedFboItor := none } w1 f hf hfrc1
  refine ⟨w2, ?_, ?_, ?_, ?_, ?_⟩
  · unfold releaseFbo
    simp only [bind, Except.bind, h1, g1]
  · intro h
    obtain ⟨a, b⟩ := h3 h
    exact ⟨by rw [fboEntry_congr w1 w2 g2]; exact a, by rw [g3]; exact b⟩
  · intro h
    obtain ⟨a, b⟩ := h4 h
    exact ⟨by rw [fboEntry_congr w1 w2 g2]; exact a, by rw [g3]; exact b⟩
  · intro k1 hk1
    rw [fboEntry_congr w1 w2 g2]; exact h5 k1 hk1
  · intro g
    rw [g4 g, flushRefCount_congr w w1 h2]

theorem releaseFbo_free (d : VulkanRenderPassDescriptor) (w : World)
    (h1 : d.mSharedFboItor = none) (h2 : d.mSharedFboFlushItor = none) :
    releaseFbo d w = .ok (d, w) := by
  simp [releaseFbo, releaseFboShared, releaseFboFlush, h1, h2, bind, Except.bind]

/-- A free descriptor that runs `calculateSharedKey`. -/
theorem calculateSharedKey_free (ext : Externals) (d : VulkanRenderPassDescriptor) (w : World)
    (h1 : d.mSharedFboItor = none) (h2 : d.mSharedFboFlushItor = none) :
    ∃ w1, calculateSharedKey ext d w =
        .ok ({ d with mSharedFboItor := some (VulkanFrameBufferDescKey.ofDesc ext d),
                      mSharedFboFlushItor := some (ext.flushKey
                        { d with mSharedFboItor := some (VulkanFrameBufferDescKey.ofDesc ext d) }) },
             w1) ∧
      fboEntry w1 (VulkanFrameBufferDescKey.ofDesc ext d) =
        some { (fboEntry w (VulkanFrameBufferDescKey.ofDesc ext d)).getD
                 (VulkanFrameBufferDescValue.new ext) with
               refCount := ((fboEntry w (VulkanFrameBufferDescKey.ofDesc ext d)).getD
                 (VulkanFrameBufferDescValue.new ext)).refCount + 1 } ∧
      w1.device = w.device ∧
      ∀ g, flushRefCount w1 g = flushRefCount w g +
        if g = ext.flushKey
          { d with mSharedFboItor := some (VulkanFrameBufferDescKey.ofDesc ext d) } then 1
        else 0 := by
  generalize hK : VulkanFrameBufferDescKey.ofDesc ext d = K
  unfold calculateSharedKey
  simp only [hK, equiv_fun_eq]
  cases hfind : mapFind (fun a b => decide (a = b)) w.mFrameBufferDescMap K with
  | none =>
    have hcons : mapFind (fun a b : VulkanFrameBufferDescKey => decide (a = b))
        ((K, { VulkanFrameBufferDescValue.new ext with refCount := 0 }) ::
          w.mFrameBufferDescMap) K
        = some (K, { VulkanFrameBufferDescValue.new ext with refCount := 0 }) := by
      simp [mapFind]
    simp only [hcons]
    rw [releaseFbo_free d _ h1 h2]
    simp only [bind, Except.bind]
    obtain ⟨w2, g1, g2, g3, g4⟩ := calculateSharedFlushOnlyKey_ok ext
      { d with mSharedFboItor := some K }
      (World.mk
        (mapModify (fun a b => decide (a = b))
          ((K, { VulkanFrameBufferDescValue.new ext with refCount := 0 }) ::
            w.mFrameBufferDescMap) K
          (fun value => { value with refCount := value.refCount + 1 }))
        w.mFlushOnlyDescMap w.device)
    refine ⟨w2, g1, ?_, g3, ?_⟩
    · rw [fboEntry_congr _ w2 g2]
      simp only [fboEntry, equiv_fun_eq, mapFind_modify, hcons, hfind]
      simp [VulkanFrameBufferDescValue.new]
    · intro g
      rw [g4 g]
      rfl
  | some n =>
    have hk := mapFind_key _ _ _ hfind
    simp only [hfind, hk]
    rw [releaseFbo_free d _ h1 h2]
    simp only [bind, Except.bind]
    obtain ⟨w2, g1, g2, g3, g4⟩ := calculateSharedFlushOnlyKey_ok ext
      { d with mSharedFboItor := some K }
      (World.mk
        (mapModify (fun a b => decide (a = b)) w.mFrameBufferDescMap K
          (fun value => { value with refCount := value.refCount + 1 }))
        w.mFlushOnlyDescMap w.device)
    refine ⟨w2, g1, ?_, g3, ?_⟩
    · rw [fboEntry_congr _ w2 g2]
      simp only [fboEntry, equiv_fun_eq, mapFind_modify, hfind]
      simp [hk]
    · intro g
      rw [g4 g]
      rfl

theorem acquireAll_ok (ext : Externals) : ∀ (ds : List VulkanRenderPassDescriptor) (w : World),
    (∀ d ∈ ds, d.mSharedFboItor = none ∧ d.mSharedFboFlushItor = none) →
    ∃ w1, acquireAll ext ds w = .ok (ds.map (acquiredDescriptor ext), w1) ∧
      w1.device = w.device ∧
      (∀ g, flushRefCount w1 g =
        flushRefCount w g + (flushHandles (ds.map (acquiredDescriptor ext))).count g) ∧
      (ds ≠ [] → fboEntry w1 ⟨ext.defaultNumColourEntries⟩ =
        some { (fboEntry w ⟨ext.defaultNumColourEntries⟩).getD
                 (VulkanFrameBufferDescValue.new ext) with
               refCount := ((fboEntry w ⟨ext.defaultNumColourEntries⟩).getD
                 (VulkanFrameBufferDescValue.new ext)).refCount + ds.length })
  | [], w, _ => ⟨w, rfl, rfl, by intro g; simp [flushHandles], by intro h; exact absurd rfl h⟩
  | d :: ds, w, hfree => by
    obtain ⟨hd1, hd2⟩ := hfree d (List.mem_cons_self _ _)
    obtain ⟨w1, e1, e2, e3, e4⟩ := calculateSharedKey_free ext d w hd1 hd2
    obtain ⟨w2, f1, f2, f3, f4⟩ := acquireAll_ok ext ds w1
      (fun x hx => hfree x (List.mem_cons_of_mem _ hx))
    refine ⟨w2, ?_, by rw [f2, e3], ?_, ?_⟩
    · unfold acquireAll
      simp only [bind, Except.bind, e1, f1]
      rfl
    · intro g
      rw [f3 g, e4 g]
      simp only [flushHandles, List.map_cons, List.filterMap_cons, acquiredDescriptor,
        List.count_cons]
      by_cases hg : g = ext.flushKey
          { d with mSharedFboItor := some (VulkanFrameBufferDescKey.ofDesc ext d) }
      · simp [hg]; omega
      · have hg2 : ¬ ext.flushKey
          { d with mSharedFboItor := some (VulkanFrameBufferDescKey.ofDesc ext d) } = g :=
          fun h => hg h.symm
        simp [hg, hg2]
    · intro _
      rw [ofDesc_eq] at e2
      by_cases hds : ds = []
      · subst hds
        simp only [acquireAll, Except.ok.injEq, Prod.mk.injEq, List.map_nil, true_and] at f1
        rw [← f1]
        simpa using e2
      · rw [f4 hds, e2]
        simp only [Option.getD_some, List.length_cons]
        congr 2
        omega

theorem releaseAll_ok (k : VulkanFrameBufferDescKey) :
    ∀ (ds : List VulkanRenderPassDescriptor) (w : World) (v : VulkanFrameBufferDescValue),
    (∀ d ∈ ds, d.mSharedFboItor = some k ∧ d.mSharedFboFlushItor.isSome = true) →
    fboEntry w k = some v → ds.length ≤ v.refCount →
    v.mNumImageViews ≤ v.mImageViews.length →
    (∀ g, (flushHandles ds).count g ≤ flushRefCount w g) →
    ∃ ds1 w1, releaseAll ds w = .ok (ds1, w1) ∧ ds1.length = ds.length ∧
      (∀ d1 ∈ ds1, d1.mSharedFboItor = none ∧ d1.mSharedFboFlushItor = none) ∧
      (ds.length < v.refCount →
        fboEntry w1 k = some { v with refCount := v.refCount - ds.length } ∧
        w1.device = w.device) ∧
      (ds.length = v.refCount → ds ≠ [] →
        fboEntry w1 k = none ∧ destroyFboCount w1.device = destroyFboCount w.device + 1)
  | [], w, v, _, hv, _, _, _ =>
    ⟨[], w, rfl, rfl, by simp, by intro _; exact ⟨by simpa using hv, rfl⟩,
      by intro _ h; exact absurd rfl h⟩
  | d :: ds, w, v, hheld, hv, hlen, hviews, hflush => by
    obtain ⟨hd1, hd2⟩ := hheld d (List.mem_cons_self _ _)
    obtain ⟨f, hf⟩ := Option.isSome_iff_exists.mp hd2
    have hlen1 : ds.length + 1 ≤ v.refCount := by simpa using hlen
    have hfrc : 1 ≤ flushRefCount w f := by
      have := hflush f
      simp only [flushHandles, List.filterMap_cons, hf, List.count_cons_self] at this
      omega
    obtain ⟨w1, r1, r2, r3, _, r5⟩ := releaseFbo_ok d w k v f hd1 hv (by omega) hviews hf hfrc
    have hflush1 : ∀ g, (flushHandles ds).count g ≤ flushRefCount w1 g := by
      intro g
      rw [r5 g]
      have := hflush g
      simp only [flushHandles, List.filterMap_cons, hf, List.count_cons] at this
      simp only [flushHandles]
      by_cases hg : g = f
      · subst hg; simp at this ⊢; omega
      · have hg2 : ¬ f = g := fun h => hg h.symm
        simp [hg, hg2] at this ⊢
        exact this
    by_cases hone : v.refCount = 1
    · have hds : ds = [] := by
        apply List.eq_nil_of_length_eq_zero; omega
      subst hds
      obtain ⟨a, b⟩ := r2 hone
      refine ⟨[{ d with mSharedFboItor := none, mSharedFboFlushItor := none }], w1,
        ?_, rfl, ?_, ?_, ?_⟩
      · unfold releaseAll
        simp only [bind, Except.bind, r1, releaseAll]
      · intro d1 hd; simp at hd; subst hd; exact ⟨rfl, rfl⟩
      · intro h; simp at h; omega
      · intro _ _; exact ⟨a, b⟩
    · have hgt : 1 < v.refCount := by omega
      obtain ⟨a, b⟩ := r3 hgt
      obtain ⟨ds1, w2, s1, s2, s3, s4, s5⟩ := releaseAll_ok k ds w1
        { v with refCount := v.refCount - 1 }
        (fun x hx => hheld x (List.mem_cons_of_mem _ hx)) a (by simp; omega) hviews hflush1
      refine ⟨{ d with mSharedFboItor := none, mSharedFboFlushItor := none } :: ds1, w2,
        ?_, by simp [s2], ?_, ?_, ?_⟩
      · unfold releaseAll
        simp only [bind, Except.bind, r1, s1]
      · intro d1 hd
        rcases List.mem_cons.mp hd with h | h
        · subst h; exact ⟨rfl, rfl⟩
        · exact s3 d1 h
      · intro h
        have h' : ds.length < v.refCount - 1 := by simp at h; omega
        obtain ⟨c, e⟩ := s4 h'
        refine ⟨?_, by rw [e, b]⟩
        rw [c]
        simp only [List.length_cons]
        congr 2
        omega
      · intro h _
        have h' : ds.length = v.refCount - 1 := by simp at h; omega
        have hne : ds ≠ [] := by
          intro hnil; subst hnil; simp at h'; omega
        obtain ⟨c, e⟩ := s5 h' hne
        exact ⟨c, by rw [e, b]⟩

theorem flushHandles_take_count_le (ds : List VulkanRenderPassDescriptor) (j g : Nat) :
    (flushHandles (ds.take j)).count g ≤ (flushHandles ds).count g := by
  unfold flushHandles
  exact List.Sublist.count_le ((List.take_sublist j ds).filterMap _) g

/-- C1: starting from a registry with no entry for key `k`, `n ≥ 1` descriptors
holding no handle that run `calculateSharedKey` with keys equivalent to `k` all
end up holding the same entry, whose `refCount` is `n` (and is `j` after the
first `j` of them); when each then runs `releaseFbo` once, the count goes down
by one per release, `destroyFbo` runs exactly once, on the last release, and
the entry is erased. -/
theorem shared_entry_acquire_release (ext : Externals) (w : World)
    (ds : List VulkanRenderPassDescriptor) (k : VulkanFrameBufferDescKey)
    (hn : 1 ≤ ds.length)
    (hfree : ∀ d ∈ ds, d.mSharedFboItor = none ∧ d.mSharedFboFlushItor = none)
    (hkey : ∀ d ∈ ds, (VulkanFrameBufferDescKey.ofDesc ext d).equiv k = true)
    (habsent : fboEntry w k = none) :
    ∃ ds1 w1, acquireAll ext ds w = .ok (ds1, w1) ∧ ds1.length = ds.length ∧
      (∃ itor, itor.equiv k = true ∧ ∀ d1 ∈ ds1, d1.mSharedFboItor = some itor) ∧
      (∃ v, fboEntry w1 k = some v ∧ v.refCount = ds.length) ∧
      (∀ j, j ≤ ds.length → ∃ dsj wj, acquireAll ext (ds.take j) w = .ok (dsj, wj) ∧
        ((fboEntry wj k).map (fun v => v.refCount)).getD 0 = j) ∧
      ∃ ds2 w2, releaseAll ds1 w1 = .ok (ds2, w2) ∧
        fboEntry w2 k = none ∧
        destroyFboCount w2.device = destroyFboCount w.device + 1 ∧
        (∀ d2 ∈ ds2, d2.mSharedFboItor = none) ∧
        (∀ j, j < ds.length → ∃ dsj wj, releaseAll (ds1.take j) w1 = .ok (dsj, wj) ∧
          (∃ v, fboEntry wj k = some v ∧ v.refCount = ds.length - j) ∧
          destroyFboCount wj.device = destroyFboCount w.device) := by
  have hne : ds ≠ [] := by intro h; subst h; simp at hn
  obtain ⟨d0, hd0⟩ := List.exists_mem_of_ne_nil ds hne
  have hk : k = ⟨ext.defaultNumColourEntries⟩ := by
    have := hkey d0 hd0
    rw [VulkanFrameBufferDescKey.equiv_eq] at this
    exact (of_decide_eq_true this).symm
  subst hk
  obtain ⟨w1, a1, a2, a3, a4⟩ := acquireAll_ok ext ds w hfree
  have hentry := a4 hne
  rw [habsent] at hentry
  simp only [Option.getD_none] at hentry
  have hheld : ∀ d ∈ ds.map (acquiredDescriptor ext),
      d.mSharedFboItor = some ⟨ext.defaultNumColourEntries⟩ ∧
      d.mSharedFboFlushItor.isSome = true := by
    intro d hd
    obtain ⟨x, _, rfl⟩ := List.mem_map.mp hd
    exact ⟨rfl, rfl⟩
  have hflush : ∀ g, (flushHandles (ds.map (acquiredDescriptor ext))).count g ≤
      flushRefCount w1 g := by
    intro g; rw [a3 g]; omega
  refine ⟨ds.map (acquiredDescriptor ext), w1, a1, by simp, ?_, ?_, ?_, ?_⟩
  · exact ⟨⟨ext.defaultNumColourEntries⟩, by rw [VulkanFrameBufferDescKey.equiv_eq]; simp,
      fun d1 hd1 => (hheld d1 hd1).1⟩
  · exact ⟨_, hentry, by simp [VulkanFrameBufferDescValue.new]⟩
  · intro j hj
    obtain ⟨wj, b1, _, _, b4⟩ := acquireAll_ok ext (ds.take j) w
      (fun x hx => hfree x (List.mem_of_mem_take hx))
    refine ⟨_, wj, b1, ?_⟩
    by_cases hj0 : j = 0
    · subst hj0
      simp only [List.take_zero, acquireAll, Except.ok.injEq, Prod.mk.injEq, List.map_nil,
        true_and] at b1
      rw [← b1, habsent]; rfl
    · have hne' : ds.take j ≠ [] := by
        intro h
        have := congrArg List.length h
        simp only [List.length_take, List.length_nil] at this
        omega
      rw [b4 hne', habsent]
      simp [VulkanFrameBufferDescValue.new]
      omega
  · obtain ⟨ds2, w2, r1, _, r3, _, r5⟩ := releaseAll_ok ⟨ext.defaultNumColourEntries⟩
      (ds.map (acquiredDescriptor ext)) w1 _ hheld hentry (by simp)
      (by simp [VulkanFrameBufferDescValue.new]) hflush
    obtain ⟨c1, c2⟩ := r5 (by simp [VulkanFrameBufferDescValue.new]) (by simpa using hne)
    refine ⟨ds2, w2, r1, c1, by rw [c2, a2], fun d2 hd2 => (r3 d2 hd2).1, ?_⟩
    intro j hj
    obtain ⟨dsj, wj, s1, _, _, s4, _⟩ := releaseAll_ok ⟨ext.defaultNumColourEntries⟩
      ((ds.map (acquiredDescriptor ext)).take j) w1 _
      (fun x hx => hheld x (List.mem_of_mem_take hx)) hentry
      (by simp) (by simp [VulkanFrameBufferDescValue.new])
      (fun g => Nat.le_trans (flushHandles_take_count_le _ j g) (hflush g))
    have hlt : ((ds.map (acquiredDescriptor ext)).take j).length <
        ({ VulkanFrameBufferDescValue.new ext with
            refCount := (VulkanFrameBufferDescValue.new ext).refCount + ds.length } :
          VulkanFrameBufferDescValue).refCount := by
      simp [VulkanFrameBufferDescValue.new]; omega
    obtain ⟨e1, e2⟩ := s4 hlt
    refine ⟨dsj, wj, s1, ⟨_, e1, ?_⟩, by rw [e2, a2]⟩
    simp [VulkanFrameBufferDescValue.new]
    omega

/-- The acquire/release theorem applied to two concrete descriptors with
different attachments on the empty registry. -/
theorem shared_entry_acquire_release_witness :
    ∃ ds1 w1,
      acquireAll exampleExternals
        [exampleDescriptor [exampleTexture 1 5 0] none, exampleDescriptor [] none]
        emptyWorld = .ok (ds1, w1) ∧
      ∃ v, fboEntry w1 ⟨0⟩ = some v ∧ v.refCount = 2 := by
  obtain ⟨ds1, w1, h1, _, _, ⟨v, h4, h5⟩, _⟩ :=
    shared_entry_acquire_release exampleExternals emptyWorld
      [exampleDescriptor [exampleTexture 1 5 0] none, exampleDescriptor [] none] ⟨0⟩
      (by decide) (by decide) (by decide) rfl
  exact ⟨ds1, w1, h1, v, h4, h5⟩

/-! ### Attachment planning -/

theorem overwrite_nil {α : Type} (xs : List α) (k : Nat) : overwrite xs k [] = xs := by
  simp [overwrite]

theorem length_overwrite {α : Type} (xs : List α) (k : Nat) (ys : List α)
    (h : k + ys.length ≤ xs.length) : (overwrite xs k ys).length = xs.length := by
  simp [overwrite]; omega

theorem set_eq_overwrite {α : Type} (xs : List α) (k : Nat) (y : α) (h : k < xs.length) :
    xs.set k y = overwrite xs k [y] := by
  simp [overwrite, List.set_eq_take_append_cons_drop, h]

theorem overwrite_overwrite {α : Type} (xs : List α) (k : Nat) (ys zs : List α)
    (h : k + ys.length ≤ xs.length) :
    overwrite (overwrite xs k ys) (k + ys.length) zs = overwrite xs k (ys ++ zs) := by
  have hk : (xs.take k).length = k := by simp; omega
  have e1 : (overwrite xs k ys).take (k + ys.length) = xs.take k ++ ys := by
    unfold overwrite
    have : (xs.take k ++ ys).length = k + ys.length := by simp [hk]
    rw [List.take_append_eq_append_take, this]
    simp
  have e2 : (overwrite xs k ys).drop (k + ys.length + zs.length) =
      xs.drop (k + (ys ++ zs).length) := by
    unfold overwrite
    have : (xs.take k ++ ys).length = k + ys.length := by simp [hk]
    rw [List.drop_append_eq_append_drop, this]
    have h0 : k + ys.length + zs.length - (k + ys.length) = zs.length := by omega
    rw [h0, List.drop_drop, List.drop_eq_nil_of_le (by rw [this]; omega)]
    simp only [List.nil_append, List.length_append]
    congr 1; omega
  unfold overwrite at e1 e2 ⊢
  rw [e1, e2]
  simp

theorem overwrite_replicate_zero {α : Type} (n : Nat) (x : α) (ys : List α) :
    overwrite (List.replicate n x) 0 ys = ys ++ List.replicate (n - ys.length) x := by
  simp [overwrite]

theorem getElem?_overwrite {α : Type} (xs : List α) (k : Nat) (ys : List α) (j : Nat)
    (h : k ≤ xs.length) (hj : j < ys.length) : (overwrite xs k ys)[k + j]? = ys[j]? := by
  have hk : (xs.take k).length = k := by simp; omega
  unfold overwrite
  rw [List.append_assoc, List.getElem?_append_right (by omega)]
  simp only [hk, Nat.add_sub_cancel_left]
  rw [List.getElem?_append_left hj]

theorem getElem?_overwrite_lt {α : Type} (xs : List α) (k : Nat) (ys : List α) (j : Nat)
    (h : k ≤ xs.length) (hj : j < k) : (overwrite xs k ys)[j]? = xs[j]? := by
  have hk : (xs.take k).length = k := by simp; omega
  unfold overwrite
  rw [List.append_assoc, List.getElem?_append_left (by omega)]
  rw [List.getElem?_take]
  simp [hj]

theorem set_set_eq_overwrite {α : Type} (xs : List α) (k : Nat) (y z : α)
    (h : k + 1 < xs.length) : (xs.set k y).set (k + 1) z = overwrite xs k [y, z] := by
  rw [set_eq_overwrite xs k y (by omega),
    set_eq_overwrite _ (k + 1) z (by rw [length_overwrite _ _ _ (by simpa using by omega)]; exact h)]
  exact overwrite_overwrite xs k [y] [z] (by simpa using by omega)

theorem setupColourAttachment_ok (ext : Externals) (d : VulkanRenderPassDescriptor)
    (i v : Nat) (t : VulkanTextureGpu) (s : SetupLocals)
    (hcol : d.mColour[i]? = some (some t))
    (hatt : s.attachmentIdx + (colourSlots ext t).length ≤ s.attachments.length)
    (hviews : s.attachmentIdx + (colourSlots ext t).length ≤ s.fboDesc.mImageViews.length)
    (hcref : v < s.colourAttachRefs.length) (hrref : v < s.resolveAttachRefs.length)
    (hwin : t.renderWindowSpecific = true → t.asWindow.isSome = true)
    (hassert : ext.assertLow = true →
      windowSlotsPlanned t = 0 ∨
      (windowSlotsPlanned t ≤ 1 ∧ s.fboDesc.mWindowImageViews = [])) :
    ∃ s1, setupColourAttachment ext d i v false s = .ok s1 ∧
      s1.attachments = overwrite s.attachments s.attachmentIdx (colourSlots ext t) ∧
      s1.attachmentIdx = s.attachmentIdx + (colourSlots ext t).length ∧
      s1.colourAttachRefs =
        s.colourAttachRefs.set v (some ⟨s.attachmentIdx, .COLOR_ATTACHMENT_OPTIMAL⟩) ∧
      s1.resolveAttachRefs =
        s.resolveAttachRefs.set v (some (resolveReference t s.attachmentIdx)) ∧
      s1.fboDesc.mImageViews.length = s.fboDesc.mImageViews.length ∧
      s1.numColourAttachments = s.numColourAttachments ∧
      s1.hasRenderWindow = s.hasRenderWindow ∧
      s1.windowAttachmentIdx = s.windowAttachmentIdx ∧
      s1.usesResolveAttachments = s.usesResolveAttachments ∧
      s1.depthAttachRef = s.depthAttachRef ∧
      s1.fboDesc.refCount = s.fboDesc.refCount ∧
      s1.fboDesc.mNumImageViews = s.fboDesc.mNumImageViews ∧
      s1.fboDesc.mFramebuffers = s.fboDesc.mFramebuffers ∧
      s1.fboDesc.mRenderPass = s.fboDesc.mRenderPass ∧
      (windowSlotsPlanned t = 0 → s1.fboDesc.mWindowImageViews = s.fboDesc.mWindowImageViews) := by
  have hread : readAt d.mColour i = .ok (some t) := by simp [readAt, hcol]
  obtain ⟨win, hwinv⟩ : ∃ win, t.renderWindowSpecific = true → t.asWindow = some win := by
    cases hw : t.asWindow with
    | none =>
      refine ⟨⟨[], 0, 0⟩, fun h => ?_⟩
      have := hwin h; rw [hw] at this; simp at this
    | some win => exact ⟨win, fun _ => rfl⟩
  have hassert1 : ext.assertLow = true → 1 ≤ windowSlotsPlanned t →
      windowSlotsPlanned t ≤ 1 ∧ s.fboDesc.mWindowImageViews = [] := by
    intro h1 h2
    rcases hassert h1 with h | h
    · omega
    · exact h
  by_cases hm : t.msaaTextureName = 0
  · -- no resolve slot
    have hlen : (colourSlots ext t).length = 1 := by simp [colourSlots, hm]
    rw [hlen] at hatt hviews
    have ha : s.attachmentIdx < s.attachments.length := by omega
    have hv : s.attachmentIdx < s.fboDesc.mImageViews.length := by omega
    by_cases hr : t.renderWindowSpecific = true
    · by_cases hms : t.multisample = true
      · simp [setupColourAttachment, setupColourAttachmentBody, hread, deref, bind,
            Except.bind, writeAt, hm, hr, hms, ha, hv, hcref, hrref, createView,
            colourSlots, resolveReference, windowSlotsPlanned,
            set_eq_overwrite _ _ _ ha]
      · have hms' : t.multisample = false := by simpa using hms
        by_cases hal : ext.assertLow = true
        · have hw := (hassert1 hal (by simp [windowSlotsPlanned, hr, hms', hm])).2
          simp [setupColourAttachment, setupColourAttachmentBody, hread, deref, bind,
            Except.bind, writeAt, hm, hr, hms', ha, hv, hcref, hrref, createView,
            colourSlots, resolveReference, windowSlotsPlanned, hwinv hr, hal, hw,
            set_eq_overwrite _ _ _ ha]
        · have hal' : ext.assertLow = false := by simpa using hal
          simp [setupColourAttachment, setupColourAttachmentBody, hread, deref, bind,
            Except.bind, writeAt, hm, hr, hms', ha, hv, hcref, hrref, createView,
            colourSlots, resolveReference, windowSlotsPlanned, hwinv hr, hal',
            set_eq_overwrite _ _ _ ha]
    · have hr' : t.renderWindowSpecific = false := by simpa using hr
      simp [setupColourAttachment, setupColourAttachmentBody, hread, deref, bind,
            Except.bind, writeAt, hm, hr', ha, hv, hcref, hrref, createView,
            colourSlots, resolveReference, windowSlotsPlanned,
            set_eq_overwrite _ _ _ ha]
  · -- primary slot followed by the resolve slot
    have hlen : (colourSlots ext t).length = 2 := by simp [colourSlots, hm]
    rw [hlen] at hatt hviews
    have ha : s.attachmentIdx < s.attachments.length := by omega
    have hv : s.attachmentIdx < s.fboDesc.mImageViews.length := by omega
    have ha1 : s.attachmentIdx + 1 < s.attachments.length := by omega
    have hv1 : s.attachmentIdx + 1 < s.fboDesc.mImageViews.length := by omega
    by_cases hr : t.renderWindowSpecific = true
    · by_cases hms : t.multisample = true
      · by_cases hal : ext.assertLow = true
        · have hw := (hassert1 hal (by simp [windowSlotsPlanned, hr, hms, hm])).2
          simp [setupColourAttachment, setupColourAttachmentBody, hread, deref, bind,
            Except.bind, writeAt, hm, hr, hms, ha, hv, ha1, hv1, hcref, hrref, createView,
            colourSlots, resolveReference, windowSlotsPlanned, hwinv hr, hal, hw,
            set_set_eq_overwrite _ _ _ _ ha1]
        · have hal' : ext.assertLow = false := by simpa using hal
          simp [setupColourAttachment, setupColourAttachmentBody, hread, deref, bind,
            Except.bind, writeAt, hm, hr, hms, ha, hv, ha1, hv1, hcref, hrref, createView,
            colourSlots, resolveReference, windowSlotsPlanned, hwinv hr, hal',
            set_set_eq_overwrite _ _ _ _ ha1]
      · have hms' : t.multisample = false := by simpa using hms
        by_cases hal : ext.assertLow = true
        · have hw := (hassert1 hal (by simp [windowSlotsPlanned, hr, hms', hm])).1
          simp [windowSlotsPlanned, hr, hms', hm] at hw
        · have hal' : ext.assertLow = false := by simpa using hal
          simp [setupColourAttachment, setupColourAttachmentBody, hread, deref, bind,
            Except.bind, writeAt, hm, hr, hms', ha, hv, ha1, hv1, hcref, hrref, createView,
            colourSlots, resolveReference, windowSlotsPlanned, hwinv hr, hal',
            set_set_eq_overwrite _ _ _ _ ha1]
    · have hr' : t.renderWindowSpecific = false := by simpa using hr
      simp [setupColourAttachment, setupColourAttachmentBody, hread, deref, bind,
            Except.bind, writeAt, hm, hr', ha, hv, ha1, hv1, hcref, hrref, createView,
            colourSlots, resolveReference, windowSlotsPlanned,
            set_set_eq_overwrite _ _ _ _ ha1]

theorem packedSlotCount_cons (ext : Externals) (t : VulkanTextureGpu)
    (cs : List VulkanTextureGpu) :
    packedSlotCount ext (t :: cs) = slotsOfColour ext t + packedSlotCount ext cs := by
  simp [packedSlotCount]

theorem plannedColourCount_cons (ext : Externals) (t : VulkanTextureGpu)
    (cs : List VulkanTextureGpu) :
    plannedColourCount ext (t :: cs) =
      (if t.format = ext.PF_UNKNOWN then 0 else 1) + plannedColourCount ext cs := by
  by_cases h : t.format = ext.PF_UNKNOWN
  · simp [plannedColourCount, h]
  · simp [plannedColourCount, h]; omega

theorem windowSlotCount_cons (ext : Externals) (t : VulkanTextureGpu)
    (cs : List VulkanTextureGpu) :
    windowSlotCount ext (t :: cs) = windowSlotsOfColour ext t + windowSlotCount ext cs := by
  simp [windowSlotCount]

theorem slotsOfColour_planned (ext : Externals) (t : VulkanTextureGpu)
    (h : ¬ t.format = ext.PF_UNKNOWN) : slotsOfColour ext t = (colourSlots ext t).length := by
  by_cases hm : t.msaaTextureName = 0 <;> simp [slotsOfColour, colourSlots, h, hm]

theorem windowSlotsOfColour_planned (ext : Externals) (t : VulkanTextureGpu)
    (h : ¬ t.format = ext.PF_UNKNOWN) : windowSlotsOfColour ext t = windowSlotsPlanned t := by
  simp [windowSlotsOfColour, windowSlotsPlanned, h]

theorem length_attachmentList (ext : Externals) (cs : List VulkanTextureGpu) :
    (attachmentList ext cs).length = packedSlotCount ext cs := by
  induction cs with
  | nil => rfl
  | cons t cs ih =>
    rw [packedSlotCount_cons]
    by_cases h : t.format = ext.PF_UNKNOWN
    · simp [attachmentList, h, ih, slotsOfColour]
    · simp [attachmentList, h, ih, slotsOfColour_planned ext t h]

theorem length_colourRefList (ext : Externals) (cs : List VulkanTextureGpu) :
    ∀ a, (colourRefList ext a cs).length = plannedColourCount ext cs := by
  induction cs with
  | nil => intro a; rfl
  | cons t cs ih =>
    intro a
    rw [plannedColourCount_cons]
    by_cases h : t.format = ext.PF_UNKNOWN
    · simp [colourRefList, h, ih]
    · simp [colourRefList, h, ih]; omega

theorem length_resolveRefList (ext : Externals) (cs : List VulkanTextureGpu) :
    ∀ a, (resolveRefList ext a cs).length = plannedColourCount ext cs := by
  induction cs with
  | nil => intro a; rfl
  | cons t cs ih =>
    intro a
    rw [plannedColourCount_cons]
    by_cases h : t.format = ext.PF_UNKNOWN
    · simp [resolveRefList, h, ih]
    · simp [resolveRefList, h, ih]; omega

theorem setupFboColours_ok (ext : Externals) (d : VulkanRenderPassDescriptor) :
    ∀ (cs : List VulkanTextureGpu) (i : Nat) (s : SetupLocals),
    (∀ j, j < cs.length → d.mColour[i + j]? = some cs[j]?) →
    s.attachmentIdx + packedSlotCount ext cs ≤ s.attachments.length →
    s.attachmentIdx + packedSlotCount ext cs ≤ s.fboDesc.mImageViews.length →
    s.numColourAttachments + plannedColourCount ext cs ≤ s.colourAttachRefs.length →
    s.numColourAttachments + plannedColourCount ext cs ≤ s.resolveAttachRefs.length →
    (∀ t ∈ cs, t.renderWindowSpecific = true → t.asWindow.isSome = true) →
    (ext.assertLow = true → windowSlotCount ext cs = 0 ∨
      (windowSlotCount ext cs ≤ 1 ∧ s.fboDesc.mWindowImageViews = [])) →
    (s.fboDesc.mWindowImageViews ≠ [] → s.windowAttachmentIdx < s.attachmentIdx) →
    ∃ s1, setupFboColours ext d cs.length i s = .ok s1 ∧ ColoursPlanned ext cs s s1
  | [], i, s, _, _, _, _, _, _, _, hw =>
    ⟨s, rfl, by
      constructor <;>
        simp [attachmentList, colourRefList, resolveRefList, packedSlotCount,
          plannedColourCount, overwrite_nil]
      exact hw⟩
  | t :: cs, i, s, hcol, hatt, hviews, hcref, hrref, hwin, hassert, hwidx => by
    have hcol0 : d.mColour[i]? = some (some t) := by simpa using hcol 0 (by simp)
    have hread : readAt d.mColour i = .ok (some t) := by simp [readAt, hcol0]
    have hcol1 : ∀ j, j < cs.length → d.mColour[i + 1 + j]? = some cs[j]? := by
      intro j hj
      have := hcol (j + 1) (by simpa using hj)
      rw [show i + 1 + j = i + (j + 1) by omega, this]
      simp
    have hwin1 : ∀ x ∈ cs, x.renderWindowSpecific = true → x.asWindow.isSome = true :=
      fun x hx => hwin x (List.mem_cons_of_mem _ hx)
    rw [packedSlotCount_cons] at hatt hviews
    rw [plannedColourCount_cons] at hcref hrref
    rw [windowSlotCount_cons] at hassert
    by_cases hf : t.format = ext.PF_UNKNOWN
    · -- the entry is skipped
      have hs0 : slotsOfColour ext t = 0 := by simp [slotsOfColour, hf]
      have hw0 : windowSlotsOfColour ext t = 0 := by simp [windowSlotsOfColour, hf]
      rw [hs0] at hatt hviews
      rw [hw0] at hassert
      simp only [hf, if_true, Nat.zero_add] at hcref hrref hatt hviews hassert
      obtain ⟨s1, h1, p⟩ := setupFboColours_ok ext d cs (i + 1)
        { s with hasRenderWindow := s.hasRenderWindow || t.renderWindowSpecific }
        hcol1 hatt hviews hcref hrref hwin1 hassert hwidx
      refine ⟨s1, ?_, ?_⟩
      · simp only [List.length_cons, setupFboColours, hread, deref, bind, Except.bind, hf,
          if_true]
        exact h1
      · constructor
        · simpa [attachmentList, hf] using p.attachments
        · simpa [packedSlotCount_cons, hs0] using p.attachmentIdx
        · simpa [colourRefList, hf] using p.colourAttachRefs
        · simpa [resolveRefList, hf] using p.resolveAttachRefs
        · simpa [plannedColourCount_cons, hf] using p.numColourAttachments
        · exact p.imageViewsLength
        · simpa [Bool.or_assoc] using p.hasRenderWindow
        · simpa [resolveRefList, hf] using p.usesResolveAttachments
        · exact p.depthAttachRef
        · exact p.refCount
        · exact p.mNumImageViews
        · exact p.mFramebuffers
        · exact p.mRenderPass
        · exact p.windowIdx
        · intro h
          rw [windowSlotCount_cons, hw0, Nat.zero_add] at h
          exact p.windowViews h
    · -- the entry is planned
      have hs := slotsOfColour_planned ext t hf
      have hwp := windowSlotsOfColour_planned ext t hf
      rw [hs] at hatt hviews
      rw [hwp] at hassert
      simp only [hf, if_false] at hcref hrref
      have hatt' : s.attachmentIdx + (colourSlots ext t).length ≤ s.attachments.length := by
        omega
      have hviews' : s.attachmentIdx + (colourSlots ext t).length ≤
          s.fboDesc.mImageViews.length := by omega
      obtain ⟨s2, hs2⟩ : ∃ s2, s2 = recordWindowAttachment t
          { s with hasRenderWindow := s.hasRenderWindow || t.renderWindowSpecific } :=
        ⟨_, rfl⟩
      have e2 : s2.attachmentIdx = s.attachmentIdx ∧ s2.attachments = s.attachments ∧
          s2.fboDesc = s.fboDesc ∧ s2.colourAttachRefs = s.colourAttachRefs ∧
          s2.resolveAttachRefs = s.resolveAttachRefs ∧
          s2.numColourAttachments = s.numColourAttachments ∧
          s2.hasRenderWindow = (s.hasRenderWindow || t.renderWindowSpecific) ∧
          s2.usesResolveAttachments = s.usesResolveAttachments ∧
          s2.depthAttachRef = s.depthAttachRef ∧
          (t.renderWindowSpecific = true →
            s2.windowAttachmentIdx < s.attachmentIdx + (colourSlots ext t).length) ∧
          (t.renderWindowSpecific = false → s2.windowAttachmentIdx = s.windowAttachmentIdx) := by
        subst hs2
        by_cases hr : t.renderWindowSpecific = true
        · by_cases hm : t.msaaTextureName = 0 <;>
            simp [recordWindowAttachment, hr, hm, colourSlots]
        · simp [recordWindowAttachment, hr]
      obtain ⟨a1, a2, a3, a4, a5, a6, a7, a8, a9, a10, a11⟩ := e2
      obtain ⟨s3, h3, b⟩ := setupColourAttachment_ok ext d i s2.numColourAttachments t s2 hcol0
        (by rw [a1, a2]; exact hatt') (by rw [a1, a3]; exact hviews')
        (by rw [a4, a6]; omega) (by rw [a5, a6]; omega)
        (hwin t (List.mem_cons_self _ _))
        (by
          intro hal
          rcases hassert hal with h | h
          · left; omega
          · by_cases hz : windowSlotsPlanned t = 0
            · left; exact hz
            · right; rw [a3]; exact ⟨by omega, h.2⟩)
      obtain ⟨b1, b2, b3, b4, b5, b6, b7, b8, b9, b10, b11, b12, b13, b14, b15⟩ := b
      have hreadr : readAt s3.resolveAttachRefs s3.numColourAttachments =
          .ok (some (resolveReference t s.attachmentIdx)) := by
        rw [b4, b6, a1]
        have : s2.numColourAttachments < s2.resolveAttachRefs.length := by rw [a5, a6]; omega
        simp [readAt, this]
      obtain ⟨s4, hs4⟩ : ∃ s4 : SetupLocals, s4 =
          { s3 with usesResolveAttachments :=
                      if (resolveReference t s.attachmentIdx).attachment ≠ VK_ATTACHMENT_UNUSED
                      then true else s3.usesResolveAttachments,
                    numColourAttachments := s3.numColourAttachments + 1 } := ⟨_, rfl⟩
      have hloop : setupFboColours ext d (cs.length + 1) i s =
          setupFboColours ext d cs.length (i + 1) s4 := by
        rw [setupFboColours]
        simp only [hread, deref, bind, Except.bind, hf, if_false, ← hs2, h3, hreadr, hs4]
      have c1 : s4.attachmentIdx = s.attachmentIdx + (colourSlots ext t).length := by
        rw [hs4]; simp only; rw [b2, a1]
      have c2 : s4.attachments = overwrite s.attachments s.attachmentIdx (colourSlots ext t) := by
        rw [hs4]; simp only; rw [b1, a1, a2]
      have c3 : s4.colourAttachRefs = overwrite s.colourAttachRefs s.numColourAttachments
          [some ⟨s.attachmentIdx, .COLOR_ATTACHMENT_OPTIMAL⟩] := by
        rw [hs4]; simp only; rw [b3, a1, a4, a6]
        exact set_eq_overwrite _ _ _ (by omega)
      have c4 : s4.resolveAttachRefs = overwrite s.resolveAttachRefs s.numColourAttachments
          [some (resolveReference t s.attachmentIdx)] := by
        rw [hs4]; simp only; rw [b4, a1, a5, a6]
        exact set_eq_overwrite _ _ _ (by omega)
      have c5 : s4.numColourAttachments = s.numColourAttachments + 1 := by
        rw [hs4]; simp only; rw [b6, a6]
      have c6 : s4.fboDesc.mImageViews.length = s.fboDesc.mImageViews.length := by
        rw [hs4]; simp only; rw [b5, a3]
      have c7 : s4.fboDesc.mWindowImageViews ≠ [] → s4.windowAttachmentIdx < s4.attachmentIdx := by
        intro hne
        rw [c1]
        rw [hs4] at hne ⊢; simp only at hne ⊢
        rw [b8]
        by_cases hr : t.renderWindowSpecific = true
        · exact a10 hr
        · have hr' : t.renderWindowSpecific = false := by simpa using hr
          have hz : windowSlotsPlanned t = 0 := by simp [windowSlotsPlanned, hr']
          rw [b15 hz, a3] at hne
          rw [a11 hr']
          have := hwidx hne
          omega
      have c8 : windowSlotsPlanned t = 0 →
          s4.fboDesc.mWindowImageViews = s.fboDesc.mWindowImageViews := by
        intro hz; rw [hs4]; simp only; rw [b15 hz, a3]
      have hlenA : (overwrite s.attachments s.attachmentIdx (colourSlots ext t)).length =
          s.attachments.length := length_overwrite _ _ _ hatt'
      obtain ⟨s1, h1, p⟩ := setupFboColours_ok ext d cs (i + 1) s4 hcol1
        (by rw [c1, c2, hlenA]; omega) (by rw [c1, c6]; omega)
        (by rw [c5, c3, length_overwrite _ _ _ (by simpa using by omega)]; omega)
        (by rw [c5, c4, length_overwrite _ _ _ (by simpa using by omega)]; omega)
        hwin1
        (by
          intro hal
          rcases hassert hal with h | h
          · left; omega
          · by_cases hz : windowSlotsPlanned t = 0
            · right; rw [c8 hz]; exact ⟨by omega, h.2⟩
            · left; omega)
        c7
      refine ⟨s1, by rw [List.length_cons, hloop]; exact h1, ?_⟩
      constructor
      · rw [p.attachments, c1, c2, overwrite_overwrite _ _ _ _ hatt']
        simp [attachmentList, hf]
      · rw [p.attachmentIdx, c1, packedSlotCount_cons, hs]; omega
      · rw [p.colourAttachRefs, c5, c3, c1]
        have := overwrite_overwrite s.colourAttachRefs s.numColourAttachments
          [some ⟨s.attachmentIdx, .COLOR_ATTACHMENT_OPTIMAL⟩]
          ((colourRefList ext (s.attachmentIdx + (colourSlots ext t).length) cs).map some)
          (by simpa using by omega)
        simp only [List.length_singleton] at this
        rw [this]
        simp [colourRefList, hf]
      · rw [p.resolveAttachRefs, c5, c4, c1]
        have := overwrite_overwrite s.resolveAttachRefs s.numColourAttachments
          [some (resolveReference t s.attachmentIdx)]
          ((resolveRefList ext (s.attachmentIdx + (colourSlots ext t).length) cs).map some)
          (by simpa using by omega)
        simp only [List.length_singleton] at this
        rw [this]
        simp [resolveRefList, hf]
      · rw [p.numColourAttachments, c5, plannedColourCount_cons]; simp [hf]; omega
      · rw [p.imageViewsLength, c6]
      · rw [p.hasRenderWindow, hs4]; simp only; rw [b7, a7]
        simp [Bool.or_assoc]
      · rw [p.usesResolveAttachments, c1, hs4]; simp only; rw [b9, a8]
        by_cases hu : (resolveReference t s.attachmentIdx).attachment = VK_ATTACHMENT_UNUSED
        · simp [resolveRefList, hf, hu]
        · simp [resolveRefList, hf, hu]
      · rw [p.depthAttachRef, hs4]; simp only; rw [b10, a9]
      · rw [p.refCount, hs4]; simp only; rw [b11, a3]
      · rw [p.mNumImageViews, hs4]; simp only; rw [b12, a3]
      · rw [p.mFramebuffers, hs4]; simp only; rw [b13, a3]
      · rw [p.mRenderPass, hs4]; simp only; rw [b14, a3]
      · exact p.windowIdx
      · intro h
        rw [windowSlotCount_cons, hwp] at h
        rw [p.windowViews (by omega), c8 (by omega)]

theorem packedSlotCount_le (ext : Externals) (cs : List VulkanTextureGpu) :
    packedSlotCount ext cs ≤ 2 * cs.length := by
  induction cs with
  | nil => simp [packedSlotCount]
  | cons t cs ih =>
    rw [packedSlotCount_cons, List.length_cons]
    have : slotsOfColour ext t ≤ 2 := by
      unfold slotsOfColour; split <;> [omega; (split <;> omega)]
    omega

theorem plannedColourCount_le (ext : Externals) (cs : List VulkanTextureGpu) :
    plannedColourCount ext cs ≤ cs.length := by
  unfold plannedColourCount
  exact List.length_filter_le _ _

theorem overwrite_append_replicate {α : Type} (ys : List α) (n : Nat) (x y : α) :
    overwrite (ys ++ List.replicate (n - ys.length) x) ys.length [y] =
      (ys ++ [y]) ++ List.replicate (n - (ys ++ [y]).length) x := by
  unfold overwrite
  rw [List.take_left, List.drop_append_eq_append_drop]
  have h1 : ys.length + [y].length - ys.length = 1 := by simp
  rw [List.drop_eq_nil_of_le (by simp), h1, List.drop_replicate]
  simp only [List.nil_append, List.length_append, List.length_singleton]
  rw [Nat.sub_sub]

theorem setupFboPlan_ok (ext : Externals) (d : VulkanRenderPassDescriptor)
    (cs : List VulkanTextureGpu) (fboDesc : VulkanFrameBufferDescValue) (dev : VulkanDevice)
    (hcol : HasColours d cs) (hplan : Plannable ext cs)
    (hviews : fboDesc.mImageViews.length = ext.OGRE_MAX_MULTIPLE_RENDER_TARGETS * 2 + 2)
    (hwin : fboDesc.mWindowImageViews = []) :
    ∃ s, setupFboPlan ext d fboDesc dev = .ok s ∧ FboPlanned ext d cs fboDesc s := by
  obtain ⟨hn, hc⟩ := hcol
  obtain ⟨hmax, hcast, hassert⟩ := hplan
  have hp := packedSlotCount_le ext cs
  have hq := plannedColourCount_le ext cs
  obtain ⟨s, h1, p⟩ := setupFboColours_ok ext d cs 0 (SetupLocals.init ext fboDesc dev)
    (by intro j hj; simpa using hc j hj)
    (by simp [SetupLocals.init]; omega) (by simp [SetupLocals.init, hviews]; omega)
    (by simp [SetupLocals.init]; omega) (by simp [SetupLocals.init]; omega)
    hcast
    (by
      intro hal
      by_cases hz : windowSlotCount ext cs = 0
      · left; exact hz
      · right; exact ⟨hassert hal, by simp [SetupLocals.init, hwin]⟩)
    (by simp [SetupLocals.init, hwin])
  have q1 := p.attachments
  have q2 := p.attachmentIdx
  have q3 := p.colourAttachRefs
  have q4 := p.resolveAttachRefs
  simp only [SetupLocals.init, Nat.zero_add, overwrite_replicate_zero, List.length_map,
    length_colourRefList, length_resolveRefList, length_attachmentList] at q1 q2 q3 q4
  have q5 := p.imageViewsLength
  simp only [SetupLocals.init] at q5
  cases hdepth : d.mDepth with
  | none =>
    refine ⟨s, ?_, ?_⟩
    · simp only [setupFboPlan, hn, h1, bind, Except.bind, hdepth, Option.isSome_none]
      rfl
    · constructor
      · simp [q1, depthSlots, hdepth, length_attachmentList]
      · simp [q2, depthSlots, hdepth]
      · exact q3
      · exact q4
      · simpa [SetupLocals.init] using p.numColourAttachments
      · simpa [SetupLocals.init, hdepth] using p.depthAttachRef
      · simpa [SetupLocals.init] using p.hasRenderWindow
      · simpa [SetupLocals.init] using p.usesResolveAttachments
      · exact q5
      · exact p.refCount
      · exact p.mNumImageViews
      · exact p.mFramebuffers
      · exact p.mRenderPass
      · exact p.windowIdx
      · exact p.windowViews
  | some depth =>
    have ha : s.attachmentIdx < s.attachments.length := by
      rw [q2, q1]; simp [length_attachmentList]; omega
    have hv : s.attachmentIdx < s.fboDesc.mImageViews.length := by
      rw [q2, q5, hviews]; omega
    refine ⟨{ s with
        attachments := s.attachments.set s.attachmentIdx (depthAttachmentDescription ext depth),
        fboDesc := { s.fboDesc with
          mImageViews := s.fboDesc.mImageViews.set s.attachmentIdx s.device.fresh },
        device := (createView s.device 0 0
          (if depth.msaaTextureName ≠ 0 then depth.msaaTextureName
           else depth.finalTextureName)).2,
        depthAttachRef := some ⟨s.attachmentIdx, .DEPTH_STENCIL_ATTACHMENT_OPTIMAL⟩,
        attachmentIdx := s.attachmentIdx + 1 }, ?_, ?_⟩
    · simp only [setupFboPlan, hn, h1, bind, Except.bind, hdepth, Option.isSome_some,
        if_true, setupDepthAttachment, deref, createView, writeAt, ha, hv]
    · constructor
      · simp only
        rw [set_eq_overwrite _ _ _ ha, q1, q2, ← length_attachmentList ext cs]
        simp only [depthSlots, hdepth]
        exact overwrite_append_replicate _ _ _ _
      · simp [q2, depthSlots, hdepth]
      · exact q3
      · exact q4
      · simpa [SetupLocals.init] using p.numColourAttachments
      · simp [q2, hdepth]
      · simpa [SetupLocals.init] using p.hasRenderWindow
      · simpa [SetupLocals.init] using p.usesResolveAttachments
      · simp [q5]
      · exact p.refCount
      · exact p.mNumImageViews
      · exact p.mFramebuffers
      · exact p.mRenderPass
      · intro hne; have := p.windowIdx hne; simp only; omega
      · exact p.windowViews

theorem createFramebuffers_ok (info : VkFramebufferCreateInfo) (widx : Nat) :
    ∀ (r i : Nat) (fbo : VulkanFrameBufferDescValue) (dev : VulkanDevice),
    i + r ≤ fbo.mFramebuffers.length →
    (fbo.mWindowImageViews ≠ [] →
      i + r ≤ fbo.mWindowImageViews.length ∧ widx < fbo.mImageViews.length) →
    ∃ fbo1 dev1, createFramebuffers info widx r i fbo dev = .ok (fbo1, dev1) ∧
      fbo1.mNumImageViews = fbo.mNumImageViews ∧ fbo1.mRenderPass = fbo.mRenderPass ∧
      fbo1.refCount = fbo.refCount ∧ fbo1.mWindowImageViews = fbo.mWindowImageViews ∧
      fbo1.mFramebuffers.length = fbo.mFramebuffers.length ∧
      fbo1.mImageViews.length = fbo.mImageViews.length ∧
      ∃ extra, dev1.calls = dev.calls ++ extra
  | 0, i, fbo, dev, _, _ => ⟨fbo, dev, rfl, rfl, rfl, rfl, rfl, rfl, rfl, [], by simp⟩
  | r + 1, i, fbo, dev, hfb, hwin => by
    have hi : i < fbo.mFramebuffers.length := by omega
    by_cases hw : fbo.mWindowImageViews = []
    · obtain ⟨fbo1, dev1, h1, h2, h3, h4, h5, h6, h7, extra, h8⟩ :=
        createFramebuffers_ok info widx r (i + 1)
          { fbo with mImageViews := fbo.mImageViews,
                     mFramebuffers := fbo.mFramebuffers.set i dev.fresh }
          { handleCounter := dev.handleCounter + 1,
            calls := dev.calls ++
              [VkCall.vkCreateFramebuffer { info with pAttachments := fbo.mImageViews }
                dev.fresh] }
          (by simp; omega) (by intro h; exact absurd hw h)
      refine ⟨fbo1, dev1, ?_, h2, h3, h4, h5, by simpa using h6, h7,
        ⟨_, by rw [h8, List.append_assoc]⟩⟩
      rw [createFramebuffers]
      simp only [hw, ne_eq, not_true_eq_false, if_false, bind, Except.bind, writeAt, hi,
        if_true]
      rw [hw] at h1
      exact h1
    · obtain ⟨hwl, hwi⟩ := hwin hw
      have hiw : i < fbo.mWindowImageViews.length := by omega
      have hread : readAt fbo.mWindowImageViews i = .ok fbo.mWindowImageViews[i] := by
        simp [readAt, List.getElem?_eq_getElem hiw]
      obtain ⟨fbo1, dev1, h1, h2, h3, h4, h5, h6, h7, extra, h8⟩ :=
        createFramebuffers_ok info widx r (i + 1)
          { fbo with mImageViews :=
                       (fbo.mImageViews.set widx fbo.mWindowImageViews[i]).set widx 0,
                     mFramebuffers := fbo.mFramebuffers.set i dev.fresh }
          { handleCounter := dev.handleCounter + 1,
            calls := dev.calls ++
              [VkCall.vkCreateFramebuffer
                { info with pAttachments := fbo.mImageViews.set widx fbo.mWindowImageViews[i] }
                dev.fresh] }
          (by simp; omega) (by intro _; simp; omega)
      refine ⟨fbo1, dev1, ?_, h2, h3, h4, h5, by simpa using h6, by simpa using h7,
        ⟨_, by rw [h8, List.append_assoc]⟩⟩
      rw [createFramebuffers]
      simp only [hw, ne_eq, not_false_eq_true, if_true, bind, Except.bind, writeAt, hi,
        hwi, hread, List.length_set]
      exact h1

theorem setupFbo_ok (ext : Externals) (d : VulkanRenderPassDescriptor)
    (cs : List VulkanTextureGpu) (fboDesc : VulkanFrameBufferDescValue) (dev : VulkanDevice)
    (hcol : HasColours d cs) (hplan : Plannable ext cs)
    (hviews : fboDesc.mImageViews.length = ext.OGRE_MAX_MULTIPLE_RENDER_TARGETS * 2 + 2)
    (hwin : fboDesc.mWindowImageViews = []) (hfresh : fboDesc.mRenderPass = 0) :
    ∃ s fbo1 dev1, setupFboPlan ext d fboDesc dev = .ok s ∧ FboPlanned ext d cs fboDesc s ∧
      setupFbo ext d fboDesc dev = .ok (fbo1, dev1) ∧
      fbo1.mNumImageViews = s.attachmentIdx ∧
      fbo1.mRenderPass = s.device.fresh ∧
      fbo1.refCount = fboDesc.refCount ∧
      fbo1.mFramebuffers.length = max s.fboDesc.mWindowImageViews.length 1 ∧
      fbo1.mImageViews.length = fboDesc.mImageViews.length ∧
      VkCall.vkCreateRenderPass
        { attachmentCount := s.attachmentIdx, pAttachments := s.attachments,
          subpassCount := 1, pSubpasses := subpassOf d s } s.device.fresh ∈ dev1.calls := by
  obtain ⟨s, h1, p⟩ := setupFboPlan_ok ext d cs fboDesc dev hcol hplan hviews hwin
  have hidx : s.attachmentIdx ≤ ext.OGRE_MAX_MULTIPLE_RENDER_TARGETS * 2 + 2 := by
    have := congrArg List.length p.attachments
    have h2 := p.attachmentIdx
    have h3 := packedSlotCount_le ext cs
    have h4 := hplan.1
    have h5 : (depthSlots ext d).length ≤ 1 := by
      unfold depthSlots; split <;> simp
    omega
  obtain ⟨fbo1, dev1, c1, c2, c3, c4, _, c6, c7, extra, c8⟩ :=
    createFramebuffers_ok
      { renderPass := s.device.fresh, attachmentCount := s.attachmentIdx,
        pAttachments := s.fboDesc.mImageViews, width := d.mTargetWidth,
        height := d.mTargetHeight, layers := 1 }
      s.windowAttachmentIdx (max s.fboDesc.mWindowImageViews.length 1) 0
      { s.fboDesc with
          mNumImageViews := s.attachmentIdx, mRenderPass := s.device.fresh,
          mFramebuffers :=
            s.fboDesc.mFramebuffers.take (max s.fboDesc.mWindowImageViews.length 1) ++
              List.replicate (max s.fboDesc.mWindowImageViews.length 1 -
                s.fboDesc.mFramebuffers.length) 0 }
      { handleCounter := s.device.handleCounter + 1,
        calls := s.device.calls ++
          [VkCall.vkCreateRenderPass
            { attachmentCount := s.attachmentIdx, pAttachments := s.attachments,
              subpassCount := 1, pSubpasses := subpassOf d s } s.device.fresh] }
      (by simp; omega)
      (by
        intro hne
        simp only at hne ⊢
        have h2 := p.windowIdx hne
        have h3 := p.imageViewsLength
        have : 0 < s.fboDesc.mWindowImageViews.length := List.length_pos.mpr hne
        refine ⟨by omega, by omega⟩)
  refine ⟨s, fbo1, dev1, h1, p, ?_, c2, c3, by rw [c4]; exact p.refCount, ?_, ?_, ?_⟩
  · unfold setupFbo
    simp only [hfresh, ne_eq, not_true_eq_false, if_false, h1, bind, Except.bind]
    exact c1
  · rw [c6]; simp; omega
  · rw [c7]; exact p.imageViewsLength
  · rw [c8]; simp

theorem packedSlotCount_append (ext : Externals) (l l' : List VulkanTextureGpu) :
    packedSlotCount ext (l ++ l') = packedSlotCount ext l + packedSlotCount ext l' := by
  simp [packedSlotCount]

theorem attachmentList_append (ext : Externals) (l l' : List VulkanTextureGpu) :
    attachmentList ext (l ++ l') = attachmentList ext l ++ attachmentList ext l' := by
  induction l with
  | nil => rfl
  | cons t l ih =>
    by_cases h : t.format = ext.PF_UNKNOWN <;> simp [attachmentList, h, ih]

theorem colourRefList_append (ext : Externals) (l l' : List VulkanTextureGpu) :
    ∀ a, colourRefList ext a (l ++ l') =
      colourRefList ext a l ++ colourRefList ext (a + packedSlotCount ext l) l' := by
  induction l with
  | nil => intro a; simp [colourRefList, packedSlotCount]
  | cons t l ih =>
    intro a
    by_cases h : t.format = ext.PF_UNKNOWN
    · simp [colourRefList, h, ih, packedSlotCount_cons, slotsOfColour]
    · simp [colourRefList, h, ih, packedSlotCount_cons, slotsOfColour_planned ext t h,
        Nat.add_assoc]

theorem resolveRefList_append (ext : Externals) (l l' : List VulkanTextureGpu) :
    ∀ a, resolveRefList ext a (l ++ l') =
      resolveRefList ext a l ++ resolveRefList ext (a + packedSlotCount ext l) l' := by
  induction l with
  | nil => intro a; simp [resolveRefList, packedSlotCount]
  | cons t l ih =>
    intro a
    by_cases h : t.format = ext.PF_UNKNOWN
    · simp [resolveRefList, h, ih, packedSlotCount_cons, slotsOfColour]
    · simp [resolveRefList, h, ih, packedSlotCount_cons, slotsOfColour_planned ext t h,
        Nat.add_assoc]

theorem split_at_index (cs : List VulkanTextureGpu) (i : Nat) (hi : i < cs.length) :
    cs = cs.take i ++ cs[i] :: cs.drop (i + 1) := by
  rw [← List.drop_eq_getElem_cons hi, List.take_append_drop]

theorem getElem?_append_cons_length {α : Type} (l r : List α) (x : α) (n : Nat)
    (h : l.length = n) : (l ++ x :: r)[n]? = some x := by
  subst h
  rw [List.getElem?_append_right (Nat.le_refl _), Nat.sub_self]
  simp

theorem getElem?_append_cons_cons_length {α : Type} (l r : List α) (x y : α) (n : Nat)
    (h : l.length = n) : (l ++ x :: y :: r)[n + 1]? = some y := by
  subst h
  rw [List.getElem?_append_right (Nat.le_succ _)]
  have : l.length + 1 - l.length = 1 := by omega
  rw [this]
  simp

/-- Where the slots and references of a planned colour entry are found in the
locals that `setupFbo` planned. -/
theorem FboPlanned.colour_entry {ext : Externals} {d : VulkanRenderPassDescriptor}
    {cs : List VulkanTextureGpu} {fboDesc : VulkanFrameBufferDescValue} {s : SetupLocals}
    (p : FboPlanned ext d cs fboDesc s) (i : Nat) (hi : i < cs.length)
    (hf : cs[i].format ≠ ext.PF_UNKNOWN) :
    s.colourAttachRefs[referenceIndex ext cs i]? =
      some (some ⟨packedIndex ext cs i, .COLOR_ATTACHMENT_OPTIMAL⟩) ∧
    s.resolveAttachRefs[referenceIndex ext cs i]? =
      some (some (resolveReference cs[i] (packedIndex ext cs i))) ∧
    s.attachments[packedIndex ext cs i]? = some (colourAttachmentDescription ext cs[i] false) ∧
    (cs[i].msaaTextureName ≠ 0 →
      s.attachments[packedIndex ext cs i + 1]? =
        some (colourAttachmentDescription ext cs[i] true)) := by
  have hsplit := split_at_index cs i hi
  have hc : colourRefList ext 0 cs = colourRefList ext 0 (cs.take i) ++
      (⟨packedIndex ext cs i, .COLOR_ATTACHMENT_OPTIMAL⟩ ::
        colourRefList ext (packedIndex ext cs i + (colourSlots ext cs[i]).length)
          (cs.drop (i + 1))) := by
    conv_lhs => rw [hsplit]
    rw [colourRefList_append]
    simp [colourRefList, hf, packedIndex]
  have hr : resolveRefList ext 0 cs = resolveRefList ext 0 (cs.take i) ++
      (resolveReference cs[i] (packedIndex ext cs i) ::
        resolveRefList ext (packedIndex ext cs i + (colourSlots ext cs[i]).length)
          (cs.drop (i + 1))) := by
    conv_lhs => rw [hsplit]
    rw [resolveRefList_append]
    simp [resolveRefList, hf, packedIndex]
  have ha : attachmentList ext cs = attachmentList ext (cs.take i) ++
      (colourSlots ext cs[i] ++ attachmentList ext (cs.drop (i + 1))) := by
    conv_lhs => rw [hsplit]
    rw [attachmentList_append]
    simp [attachmentList, hf]
  have hlc : (colourRefList ext 0 (cs.take i)).length = referenceIndex ext cs i :=
    length_colourRefList ext _ 0
  have hlr : (resolveRefList ext 0 (cs.take i)).length = referenceIndex ext cs i :=
    length_resolveRefList ext _ 0
  have hla : (attachmentList ext (cs.take i)).length = packedIndex ext cs i :=
    length_attachmentList ext _
  refine ⟨?_, ?_, ?_, ?_⟩
  · rw [p.colourAttachRefs, hc, List.map_append, List.map_cons, List.append_assoc,
      List.cons_append]
    exact getElem?_append_cons_length _ _ _ _ (by rw [List.length_map, hlc])
  · rw [p.resolveAttachRefs, hr, List.map_append, List.map_cons, List.append_assoc,
      List.cons_append]
    exact getElem?_append_cons_length _ _ _ _ (by rw [List.length_map, hlr])
  · rw [p.attachments, ha, List.append_assoc, List.append_assoc]
    by_cases hm : cs[i].msaaTextureName = 0
    · simp only [colourSlots, hm, ne_eq, not_true_eq_false, if_false, List.cons_append,
        List.nil_append]
      exact getElem?_append_cons_length _ _ _ _ hla
    · simp only [colourSlots, hm, ne_eq, not_false_eq_true, if_true, List.cons_append,
        List.nil_append]
      exact getElem?_append_cons_length _ _ _ _ hla
  · intro hm
    rw [p.attachments, ha, List.append_assoc, List.append_assoc]
    simp only [colourSlots, hm, ne_eq, not_false_eq_true, if_true, List.cons_append,
      List.nil_append]
    exact getElem?_append_cons_cons_length _ _ _ _ _ hla

theorem packedSlotCount_take_succ (ext : Externals) (cs : List VulkanTextureGpu) (i : Nat)
    (hi : i < cs.length) :
    packedSlotCount ext (cs.take (i + 1)) =
      packedSlotCount ext (cs.take i) + slotsOfColour ext cs[i] := by
  rw [List.take_succ, List.getElem?_eq_getElem hi, packedSlotCount_append]
  simp [packedSlotCount]

theorem packedSlotCount_take_le (ext : Externals) (cs : List VulkanTextureGpu) (i j : Nat)
    (hij : i ≤ j) : packedSlotCount ext (cs.take i) ≤ packedSlotCount ext (cs.take j) := by
  have : cs.take i = (cs.take j).take i := by
    rw [List.take_take, Nat.min_eq_left hij]
  have h2 : cs.take j = (cs.take j).take i ++ (cs.take j).drop i :=
    (List.take_append_drop i _).symm
  rw [this]
  conv_rhs => rw [h2, packedSlotCount_append]
  omega

/-- The packed index of a planned entry lies strictly below that of every later
entry. -/
theorem packedIndex_lt (ext : Externals) (cs : List VulkanTextureGpu) (i j : Nat)
    (hij : i < j) (hi : i < cs.length) (hf : cs[i].format ≠ ext.PF_UNKNOWN) :
    packedIndex ext cs i < packedIndex ext cs j := by
  unfold packedIndex
  have h1 := packedSlotCount_take_succ ext cs i hi
  have h2 := packedSlotCount_take_le ext cs (i + 1) j hij
  have h3 : 1 ≤ slotsOfColour ext cs[i] := by
    unfold slotsOfColour
    rw [if_neg hf]
    split <;> omega
  omega

theorem referenceIndex_eq (ext : Externals) (cs : List VulkanTextureGpu) (i : Nat)
    (hi : i ≤ cs.length)
    (h : ∀ j (hj : j < cs.length), j < i → cs[j].format ≠ ext.PF_UNKNOWN) :
    referenceIndex ext cs i = i := by
  unfold referenceIndex plannedColourCount
  rw [List.filter_eq_self.mpr]
  · simp [hi]
  · intro t ht
    obtain ⟨j, hj, rfl⟩ := List.getElem_of_mem ht
    have hj' : j < i := by simpa using (List.length_take_le i cs |> Nat.lt_of_lt_of_le hj)
    have hjc : j < cs.length := by
      have := hj; simp at this; omega
    have := h j hjc hj'
    simpa [List.getElem_take] using this

theorem packedSlotCount_eq (ext : Externals) (cs : List VulkanTextureGpu) :
    packedSlotCount ext cs = plannedColourCount ext cs +
      (cs.filter (fun t => decide (t.format ≠ ext.PF_UNKNOWN) &&
        decide (t.msaaTextureName ≠ 0))).length := by
  induction cs with
  | nil => rfl
  | cons t cs ih =>
    rw [packedSlotCount_cons, plannedColourCount_cons, ih]
    by_cases hf : t.format = ext.PF_UNKNOWN
    · simp [slotsOfColour, hf]
    · by_cases hm : t.msaaTextureName = 0
      · simp [slotsOfColour, hf, hm]; omega
      · simp [slotsOfColour, hf, hm]; omega

/-- C4 (amended): the colour and resolve reference arrays built by `setupFbo`
are parallel to the list of planned colour entries: for a logical index `i`
whose format is not null/unknown, position `referenceIndex i` (the number of
planned entries before `i`) of `colourAttachRefs` names the packed slot of
entry `i`, and the same position of `resolveAttachRefs` names the slot after
it when the texture has an MSAA image and is marked unused otherwise; that
position is `i` itself when no earlier entry was skipped. -/
theorem attachment_refs_follow_planned_entries (ext : Externals)
    (d : VulkanRenderPassDescriptor) (colours : List VulkanTextureGpu)
    (fboDesc : VulkanFrameBufferDescValue) (dev : VulkanDevice)
    (hcol : HasColours d colours) (hplan : Plannable ext colours)
    (hviews : fboDesc.mImageViews.length = ext.OGRE_MAX_MULTIPLE_RENDER_TARGETS * 2 + 2)
    (hwin : fboDesc.mWindowImageViews = []) :
    ∃ s, setupFboPlan ext d fboDesc dev = .ok s ∧
      ∀ i (hi : i < colours.length), colours[i].format ≠ ext.PF_UNKNOWN →
        s.colourAttachRefs[referenceIndex ext colours i]? =
          some (some ⟨packedIndex ext colours i, .COLOR_ATTACHMENT_OPTIMAL⟩) ∧
        s.attachments[packedIndex ext colours i]? =
          some (colourAttachmentDescription ext colours[i] false) ∧
        (colours[i].msaaTextureName ≠ 0 →
          s.resolveAttachRefs[referenceIndex ext colours i]? =
            some (some ⟨packedIndex ext colours i + 1, .COLOR_ATTACHMENT_OPTIMAL⟩) ∧
          s.attachments[packedIndex ext colours i + 1]? =
            some (colourAttachmentDescription ext colours[i] true)) ∧
        (colours[i].msaaTextureName = 0 →
          s.resolveAttachRefs[referenceIndex ext colours i]? =
            some (some ⟨VK_ATTACHMENT_UNUSED, .UNDEFINED⟩)) ∧
        ((∀ j (hj : j < colours.length), j < i → colours[j].format ≠ ext.PF_UNKNOWN) →
          referenceIndex ext colours i = i) := by
  obtain ⟨s, h1, p⟩ := setupFboPlan_ok ext d colours fboDesc dev hcol hplan hviews hwin
  refine ⟨s, h1, ?_⟩
  intro i hi hf
  obtain ⟨e1, e2, e3, e4⟩ := p.colour_entry i hi hf
  refine ⟨e1, e3, ?_, ?_, ?_⟩
  · intro hm
    refine ⟨?_, e4 hm⟩
    rw [e2]; simp [resolveReference, hm]
  · intro hm
    rw [e2]; simp [resolveReference, hm]
  · intro h
    exact referenceIndex_eq ext colours i (Nat.le_of_lt hi) h

theorem hasColours_example (colours : List VulkanTextureGpu) (depth : Option VulkanTextureGpu) :
    HasColours (exampleDescriptor colours depth) colours := by
  refine ⟨rfl, ?_⟩
  intro i hi
  simp only [exampleDescriptor]
  rw [List.getElem?_append_left (by simpa using hi), List.getElem?_map,
    List.getElem?_eq_getElem hi]
  rfl

/-- The amended reference theorem applied to the three colour entries of
formats unknown, 5 and 6: entry 2 is referenced at position 1 and has packed
slot 1. -/
theorem attachment_refs_follow_planned_entries_witness :
    ∃ s, setupFboPlan exampleExternals
        (exampleDescriptor [exampleTexture 1 0 0, exampleTexture 2 5 0, exampleTexture 3 6 0] none)
        (VulkanFrameBufferDescValue.new exampleExternals) ⟨0, []⟩ = .ok s ∧
      s.colourAttachRefs[1]? = some (some ⟨1, .COLOR_ATTACHMENT_OPTIMAL⟩) := by
  obtain ⟨s, h1, h2⟩ := attachment_refs_follow_planned_entries exampleExternals
    (exampleDescriptor [exampleTexture 1 0 0, exampleTexture 2 5 0, exampleTexture 3 6 0] none)
    [exampleTexture 1 0 0, exampleTexture 2 5 0, exampleTexture 3 6 0]
    (VulkanFrameBufferDescValue.new exampleExternals) ⟨0, []⟩
    (hasColours_example _ _) (by unfold Plannable; decide) rfl rfl
  exact ⟨s, h1, (h2 2 (by decide) (by decide)).1⟩

/-- C5: on a fresh entry `setupFbo` packs the slots in logical-index order: a
colour entry of null/unknown format contributes no slot, every other colour
entry a primary slot immediately followed by a resolve slot exactly when the
texture has an MSAA image, and the depth slot (if there is a depth target)
comes last. The primary indices are strictly increasing in logical order, a
used resolve index is its primary index + 1, the depth reference is
`mNumImageViews - 1`, and `mNumImageViews` is the number of entries of
non-null format plus the number of those with an MSAA image plus one for the
depth target. -/
theorem setupFbo_packs_in_logical_order (ext : Externals)
    (d : VulkanRenderPassDescriptor) (colours : List VulkanTextureGpu)
    (fboDesc : VulkanFrameBufferDescValue) (dev : VulkanDevice)
    (hcol : HasColours d colours) (hplan : Plannable ext colours)
    (hviews : fboDesc.mImageViews.length = ext.OGRE_MAX_MULTIPLE_RENDER_TARGETS * 2 + 2)
    (hwin : fboDesc.mWindowImageViews = []) (hfresh : fboDesc.mRenderPass = 0) :
    ∃ s fbo1 dev1, setupFboPlan ext d fboDesc dev = .ok s ∧
      setupFbo ext d fboDesc dev = .ok (fbo1, dev1) ∧
      fbo1.mNumImageViews = s.attachmentIdx ∧
      fbo1.mNumImageViews =
        plannedColourCount ext colours +
        (colours.filter (fun t => decide (t.format ≠ ext.PF_UNKNOWN) &&
          decide (t.msaaTextureName ≠ 0))).length +
        (if d.mDepth.isSome then 1 else 0) ∧
      s.attachments.take fbo1.mNumImageViews = attachmentList ext colours ++ depthSlots ext d ∧
      (∀ i (hi : i < colours.length), colours[i].format ≠ ext.PF_UNKNOWN →
        s.colourAttachRefs[referenceIndex ext colours i]? =
          some (some ⟨packedIndex ext colours i, .COLOR_ATTACHMENT_OPTIMAL⟩) ∧
        s.attachments[packedIndex ext colours i]? =
          some (colourAttachmentDescription ext colours[i] false) ∧
        packedIndex ext colours i < fbo1.mNumImageViews ∧
        (colours[i].msaaTextureName ≠ 0 →
          s.resolveAttachRefs[referenceIndex ext colours i]? =
            some (some ⟨packedIndex ext colours i + 1, .COLOR_ATTACHMENT_OPTIMAL⟩) ∧
          s.attachments[packedIndex ext colours i + 1]? =
            some (colourAttachmentDescription ext colours[i] true)) ∧
        (colours[i].msaaTextureName = 0 →
          s.resolveAttachRefs[referenceIndex ext colours i]? =
            some (some ⟨VK_ATTACHMENT_UNUSED, .UNDEFINED⟩)) ∧
        (∀ j, i < j → packedIndex ext colours i < packedIndex ext colours j)) ∧
      (∀ depth, d.mDepth = some depth →
        s.depthAttachRef =
          some ⟨fbo1.mNumImageViews - 1, .DEPTH_STENCIL_ATTACHMENT_OPTIMAL⟩ ∧
        s.attachments[fbo1.mNumImageViews - 1]? = some (depthAttachmentDescription ext depth) ∧
        1 ≤ fbo1.mNumImageViews) := by
  obtain ⟨s, fbo1, dev1, h1, p, h2, h3, _⟩ :=
    setupFbo_ok ext d colours fboDesc dev hcol hplan hviews hwin hfresh
  have hidx := p.attachmentIdx
  have hatt := p.attachments
  refine ⟨s, fbo1, dev1, h1, h2, h3, ?_, ?_, ?_, ?_⟩
  · rw [h3, hidx, packedSlotCount_eq]
    cases hd : d.mDepth <;> simp [depthSlots, hd]
  · rw [h3, hidx, hatt, ← length_attachmentList, ← List.length_append, List.take_left]
  · intro i hi hf
    obtain ⟨e1, e2, e3, e4⟩ := p.colour_entry i hi hf
    refine ⟨e1, e3, ?_, ?_, ?_, ?_⟩
    · rw [h3, hidx]
      have a1 := packedIndex_lt ext colours i colours.length hi hi hf
      have a2 : packedIndex ext colours colours.length = packedSlotCount ext colours := by
        simp [packedIndex]
      omega
    · intro hm
      refine ⟨?_, e4 hm⟩
      rw [e2]; simp [resolveReference, hm]
    · intro hm
      rw [e2]; simp [resolveReference, hm]
    · intro j hij
      exact packedIndex_lt ext colours i j hij hi hf
  · intro depth hd
    have hds : depthSlots ext d = [depthAttachmentDescription ext depth] := by
      simp [depthSlots, hd]
    rw [h3, hidx, hds]
    refine ⟨?_, ?_, by simp⟩
    · rw [p.depthAttachRef, hd]; simp
    · rw [hatt, hds, List.append_assoc, List.singleton_append]
      exact getElem?_append_cons_length _ _ _ _ (by rw [length_attachmentList]; simp)

/-- The packing theorem applied to a multisampled, a skipped and a plain colour
target with a depth target: four slots. -/
theorem setupFbo_packs_in_logical_order_witness :
    ∃ s fbo1 dev1,
      setupFboPlan exampleExternals
        (exampleDescriptor [exampleTexture 1 5 77, exampleTexture 2 0 0, exampleTexture 3 6 0]
          (some (exampleTexture 4 9 0)))
        (VulkanFrameBufferDescValue.new exampleExternals) ⟨0, []⟩ = .ok s ∧
      setupFbo exampleExternals
        (exampleDescriptor [exampleTexture 1 5 77, exampleTexture 2 0 0, exampleTexture 3 6 0]
          (some (exampleTexture 4 9 0)))
        (VulkanFrameBufferDescValue.new exampleExternals) ⟨0, []⟩ = .ok (fbo1, dev1) ∧
      fbo1.mNumImageViews = 4 := by
  obtain ⟨s, fbo1, dev1, h1, h2, _, h4, _⟩ :=
    setupFbo_packs_in_logical_order exampleExternals
      (exampleDescriptor [exampleTexture 1 5 77, exampleTexture 2 0 0, exampleTexture 3 6 0]
        (some (exampleTexture 4 9 0)))
      [exampleTexture 1 5 77, exampleTexture 2 0 0, exampleTexture 3 6 0]
      (VulkanFrameBufferDescValue.new exampleExternals) ⟨0, []⟩
      (hasColours_example _ _) (by unfold Plannable; decide) rfl rfl rfl
  exact ⟨s, fbo1, dev1, h1, h2, h4⟩

/-- C6: for a single colour target of non-null format with an implicit MSAA
texture (no depth, not window-backed) `setupFbo` plans exactly two packed
slots: slot 0 is the primary (samples = the texture's FSAA level, load op
CLEAR), slot 1 the resolve (one sample, load op DONT_CARE); the colour
reference names slot 0, the resolve reference names slot 1 (not
`VK_ATTACHMENT_UNUSED`) with layout COLOR_ATTACHMENT_OPTIMAL, and the resolve
array is handed to the subpass of the render pass that is created. -/
theorem single_multisampled_target_plan (ext : Externals)
    (d : VulkanRenderPassDescriptor) (texture : VulkanTextureGpu)
    (fboDesc : VulkanFrameBufferDescValue) (dev : VulkanDevice)
    (hmax : 1 ≤ ext.OGRE_MAX_MULTIPLE_RENDER_TARGETS)
    (hcol : HasColours d [texture]) (hformat : texture.format ≠ ext.PF_UNKNOWN)
    (hmsaa : texture.msaaTextureName ≠ 0) (hwindow : texture.renderWindowSpecific = false)
    (hdepth : d.mDepth = none)
    (hviews : fboDesc.mImageViews.length = ext.OGRE_MAX_MULTIPLE_RENDER_TARGETS * 2 + 2)
    (hwin : fboDesc.mWindowImageViews = []) (hfresh : fboDesc.mRenderPass = 0) :
    ∃ s fbo1 dev1, setupFboPlan ext d fboDesc dev = .ok s ∧
      setupFbo ext d fboDesc dev = .ok (fbo1, dev1) ∧
      fbo1.mNumImageViews = 2 ∧ s.attachmentIdx = 2 ∧
      s.attachments.take 2 = [colourAttachmentDescription ext texture false,
        colourAttachmentDescription ext texture true] ∧
      (colourAttachmentDescription ext texture false).samples = texture.fsaa ∧
      (colourAttachmentDescription ext texture false).loadOp = .CLEAR ∧
      (colourAttachmentDescription ext texture true).samples = VK_SAMPLE_COUNT_1_BIT ∧
      (colourAttachmentDescription ext texture true).loadOp = .DONT_CARE ∧
      s.colourAttachRefs[0]? = some (some ⟨0, .COLOR_ATTACHMENT_OPTIMAL⟩) ∧
      s.resolveAttachRefs[0]? = some (some ⟨1, .COLOR_ATTACHMENT_OPTIMAL⟩) ∧
      1 ≠ VK_ATTACHMENT_UNUSED ∧
      (subpassOf d s).colorAttachmentCount = 1 ∧
      (subpassOf d s).pResolveAttachments = some s.resolveAttachRefs ∧
      VkCall.vkCreateRenderPass
        { attachmentCount := 2, pAttachments := s.attachments,
          subpassCount := 1, pSubpasses := subpassOf d s } fbo1.mRenderPass ∈ dev1.calls := by
  have hplan : Plannable ext [texture] := by
    refine ⟨by simpa using hmax, ?_, ?_⟩
    · intro t ht hr
      rw [List.mem_singleton] at ht; subst ht
      rw [hwindow] at hr; cases hr
    · intro _
      simp [windowSlotCount, windowSlotsOfColour, windowSlotsPlanned, hwindow]
  obtain ⟨s, fbo1, dev1, h1, p, h2, h3, h4, _, _, _, h8⟩ :=
    setupFbo_ok ext d [texture] fboDesc dev hcol hplan hviews hwin hfresh
  have hidx : s.attachmentIdx = 2 := by
    rw [p.attachmentIdx]
    simp [packedSlotCount, slotsOfColour, hformat, hmsaa, depthSlots, hdepth]
  have hres : s.resolveAttachRefs = some ⟨1, .COLOR_ATTACHMENT_OPTIMAL⟩ ::
      List.replicate (ext.OGRE_MAX_MULTIPLE_RENDER_TARGETS - 1) none := by
    rw [p.resolveAttachRefs]
    simp [resolveRefList, resolveReference, hformat, hmsaa, plannedColourCount]
  have hcolr : s.colourAttachRefs = some ⟨0, .COLOR_ATTACHMENT_OPTIMAL⟩ ::
      List.replicate (ext.OGRE_MAX_MULTIPLE_RENDER_TARGETS - 1) none := by
    rw [p.colourAttachRefs]
    simp [colourRefList, hformat, plannedColourCount]
  have huses : s.usesResolveAttachments = true := by
    rw [p.usesResolveAttachments]
    simp [resolveRefList, resolveReference, hformat, hmsaa, VK_ATTACHMENT_UNUSED]
  refine ⟨s, fbo1, dev1, h1, h2, by rw [h3, hidx], hidx, ?_, rfl, rfl, rfl, rfl, ?_, ?_,
    by decide, ?_, ?_, ?_⟩
  · rw [p.attachments]
    simp [attachmentList, colourSlots, hformat, hmsaa, depthSlots, hdepth]
  · rw [hcolr]; simp
  · rw [hres]; simp
  · simp [subpassOf, p.numColourAttachments, plannedColourCount, hformat]
  · simp [subpassOf, huses]
  · rw [h4, ← hidx]; exact h8

/-- The single-target theorem applied to a multisampled off-screen texture. -/
theorem single_multisampled_target_plan_witness :
    ∃ s fbo1 dev1,
      setupFboPlan exampleExternals (exampleDescriptor [exampleTexture 1 5 77] none)
        (VulkanFrameBufferDescValue.new exampleExternals) ⟨0, []⟩ = .ok s ∧
      setupFbo exampleExternals (exampleDescriptor [exampleTexture 1 5 77] none)
        (VulkanFrameBufferDescValue.new exampleExternals) ⟨0, []⟩ = .ok (fbo1, dev1) ∧
      fbo1.mNumImageViews = 2 := by
  obtain ⟨s, fbo1, dev1, h1, h2, h3, _⟩ :=
    single_multisampled_target_plan exampleExternals
      (exampleDescriptor [exampleTexture 1 5 77] none) (exampleTexture 1 5 77)
      (VulkanFrameBufferDescValue.new exampleExternals) ⟨0, []⟩
      (by decide) (hasColours_example _ _) (by decide) (by decide) rfl rfl rfl rfl rfl
  exact ⟨s, fbo1, dev1, h1, h2, h3⟩

theorem plain_colours_lists (ext : Externals) (colours : List VulkanTextureGpu)
    (hall : ∀ t ∈ colours, t.format ≠ ext.PF_UNKNOWN ∧ t.msaaTextureName = 0) :
    ∀ a, packedSlotCount ext colours = colours.length ∧
      plannedColourCount ext colours = colours.length ∧
      colourRefList ext a colours =
        (List.range colours.length).map (fun i => ⟨a + i, .COLOR_ATTACHMENT_OPTIMAL⟩) ∧
      resolveRefList ext a colours =
        List.replicate colours.length ⟨VK_ATTACHMENT_UNUSED, .UNDEFINED⟩ := by
  induction colours with
  | nil => intro a; simp [packedSlotCount, plannedColourCount, colourRefList, resolveRefList]
  | cons t cs ih =>
    intro a
    obtain ⟨hf, hm⟩ := hall t (List.mem_cons_self _ _)
    obtain ⟨i1, i2, i3, i4⟩ := ih (fun x hx => hall x (List.mem_cons_of_mem _ hx)) (a + 1)
    refine ⟨?_, ?_, ?_, ?_⟩
    · rw [packedSlotCount_cons, i1]; simp [slotsOfColour, hf, hm]; omega
    · rw [plannedColourCount_cons, i2]; simp [hf]; omega
    · have hlen : (colourSlots ext t).length = 1 := by simp [colourSlots, hm]
      simp only [colourRefList, hf, if_false, hlen, i3, List.length_cons,
        List.range_succ_eq_map, List.map_cons, List.map_map, Nat.add_zero]
      congr 1
      apply List.map_congr_left
      intro i _
      simp only [Function.comp, Nat.succ_eq_add_one]
      congr 1; omega
    · have hlen : (colourSlots ext t).length = 1 := by simp [colourSlots, hm]
      simp only [resolveRefList, hf, if_false, hlen, i4, List.length_cons,
        List.replicate_succ, resolveReference, hm, ne_eq, not_true_eq_false]

/-- C7: for colour targets that all have non-null formats and no implicit MSAA
texture, with no depth target and no window backing, `setupFbo` plans exactly
one packed slot per target and no resolve slot: `mNumImageViews` and the
subpass colour count are the number of targets, `colourAttachRefs[i]` names
slot `i`, every `resolveAttachRefs[i]` is marked `VK_ATTACHMENT_UNUSED`, and
no resolve array is handed to the subpass. -/
theorem plain_targets_plan (ext : Externals)
    (d : VulkanRenderPassDescriptor) (colours : List VulkanTextureGpu)
    (fboDesc : VulkanFrameBufferDescValue) (dev : VulkanDevice)
    (hmax : colours.length ≤ ext.OGRE_MAX_MULTIPLE_RENDER_TARGETS)
    (hcol : HasColours d colours)
    (hall : ∀ t ∈ colours, t.format ≠ ext.PF_UNKNOWN ∧ t.msaaTextureName = 0 ∧
      t.renderWindowSpecific = false)
    (hdepth : d.mDepth = none)
    (hviews : fboDesc.mImageViews.length = ext.OGRE_MAX_MULTIPLE_RENDER_TARGETS * 2 + 2)
    (hwin : fboDesc.mWindowImageViews = []) (hfresh : fboDesc.mRenderPass = 0) :
    ∃ s fbo1 dev1, setupFboPlan ext d fboDesc dev = .ok s ∧
      setupFbo ext d fboDesc dev = .ok (fbo1, dev1) ∧
      fbo1.mNumImageViews = colours.length ∧
      (subpassOf d s).colorAttachmentCount = colours.length ∧
      (subpassOf d s).pColorAttachments = s.colourAttachRefs ∧
      (subpassOf d s).pResolveAttachments = none ∧
      ∀ i (hi : i < colours.length),
        s.colourAttachRefs[i]? = some (some ⟨i, .COLOR_ATTACHMENT_OPTIMAL⟩) ∧
        s.resolveAttachRefs[i]? = some (some ⟨VK_ATTACHMENT_UNUSED, .UNDEFINED⟩) ∧
        s.attachments[i]? = some (colourAttachmentDescription ext colours[i] false) := by
  have hplain : ∀ t ∈ colours, t.format ≠ ext.PF_UNKNOWN ∧ t.msaaTextureName = 0 :=
    fun t ht => ⟨(hall t ht).1, (hall t ht).2.1⟩
  have hws : windowSlotCount ext colours = 0 := by
    unfold windowSlotCount
    apply List.sum_eq_zero
    intro x hx
    obtain ⟨t, ht, rfl⟩ := List.mem_map.mp hx
    simp [windowSlotsOfColour, windowSlotsPlanned, (hall t ht).2.2]
  have hplan : Plannable ext colours := by
    refine ⟨hmax, ?_, ?_⟩
    · intro t ht hr
      rw [(hall t ht).2.2] at hr; cases hr
    · intro _; omega
  obtain ⟨s, fbo1, dev1, h1, p, h2, h3, _⟩ :=
    setupFbo_ok ext d colours fboDesc dev hcol hplan hviews hwin hfresh
  obtain ⟨l1, l2, _, l4⟩ := plain_colours_lists ext colours hplain 0
  have hidx : s.attachmentIdx = colours.length := by
    rw [p.attachmentIdx, l1]; simp [depthSlots, hdepth]
  have huses : s.usesResolveAttachments = false := by
    rw [p.usesResolveAttachments, l4]
    simp
  refine ⟨s, fbo1, dev1, h1, h2, by rw [h3, hidx], ?_, rfl, ?_, ?_⟩
  · simp [subpassOf, p.numColourAttachments, l2]
  · simp [subpassOf, huses]
  · intro i hi
    have hf := (hall colours[i] (List.getElem_mem hi)).1
    have hm := (hall colours[i] (List.getElem_mem hi)).2.1
    obtain ⟨e1, e2, e3, _⟩ := p.colour_entry i hi hf
    have hri : referenceIndex ext colours i = i :=
      referenceIndex_eq ext colours i (Nat.le_of_lt hi)
        (fun j hj _ => (hall colours[j] (List.getElem_mem hj)).1)
    have hpi : packedIndex ext colours i = i := by
      unfold packedIndex
      rw [(plain_colours_lists ext (colours.take i)
        (fun t ht => hplain t (List.mem_of_mem_take ht)) 0).1]
      simp; omega
    rw [hri, hpi] at e1
    rw [hri] at e2
    rw [hpi] at e3
    refine ⟨e1, ?_, e3⟩
    rw [e2]; simp [resolveReference, hm]

/-- The plain-targets theorem applied to two off-screen colour targets of
formats 5 and 6. -/
theorem plain_targets_plan_witness :
    ∃ s fbo1 dev1,
      setupFboPlan exampleExternals
        (exampleDescriptor [exampleTexture 1 5 0, exampleTexture 2 6 0] none)
        (VulkanFrameBufferDescValue.new exampleExternals) ⟨0, []⟩ = .ok s ∧
      setupFbo exampleExternals
        (exampleDescriptor [exampleTexture 1 5 0, exampleTexture 2 6 0] none)
        (VulkanFrameBufferDescValue.new exampleExternals) ⟨0, []⟩ = .ok (fbo1, dev1) ∧
      fbo1.mNumImageViews = 2 ∧ (subpassOf
        (exampleDescriptor [exampleTexture 1 5 0, exampleTexture 2 6 0] none)
        s).colorAttachmentCount = 2 := by
  obtain ⟨s, fbo1, dev1, h1, h2, h3, h4, _⟩ :=
    plain_targets_plan exampleExternals
      (exampleDescriptor [exampleTexture 1 5 0, exampleTexture 2 6 0] none)
      [exampleTexture 1 5 0, exampleTexture 2 6 0]
      (VulkanFrameBufferDescValue.new exampleExternals) ⟨0, []⟩
      (by decide) (hasColours_example _ _) (by decide) rfl rfl rfl rfl
  exact ⟨s, fbo1, dev1, h1, h2, h3, h4⟩

/-! ### `willSwitchTo` -/

/-- C8: for two non-null descriptors and the warn flag off, `willSwitchTo`
returns `RenderPassDescriptor::All` exactly when the flush-registry handles
differ or one of the two is information-only, and returns 0 otherwise. -/
theorem willSwitchTo_all_iff (ext : Externals) (a b : VulkanRenderPassDescriptor)
    (hAll : ext.All ≠ 0) :
    (willSwitchTo ext a (some b) false = .ok ext.All ↔
      (a.mSharedFboFlushItor ≠ b.mSharedFboFlushItor ∨ a.mInformationOnly = true ∨
        b.mInformationOnly = true)) ∧
    (¬ (a.mSharedFboFlushItor ≠ b.mSharedFboFlushItor ∨ a.mInformationOnly = true ∨
        b.mInformationOnly = true) →
      willSwitchTo ext a (some b) false = .ok 0) ∧
    (a.mInformationOnly = false → b.mInformationOnly = false →
      a.mSharedFboFlushItor = b.mSharedFboFlushItor →
      willSwitchTo ext a (some b) false = .ok 0) ∧
    (b.mInformationOnly = true → willSwitchTo ext a (some b) false = .ok ext.All) := by
  have hval : willSwitchTo ext a (some b) false =
      .ok (if (decide (a.mSharedFboFlushItor ≠ b.mSharedFboFlushItor) ||
              a.mInformationOnly || b.mInformationOnly) = true then ext.All else 0) := by
    simp [willSwitchTo, bind, Except.bind, pure, Except.pure]
  rw [hval]
  refine ⟨?_, ?_, ?_, ?_⟩
  · constructor
    · intro h
      by_contra hc
      have hf : (decide (a.mSharedFboFlushItor ≠ b.mSharedFboFlushItor) ||
              a.mInformationOnly || b.mInformationOnly) = false := by
        simp only [not_or] at hc
        simp [hc.1, hc.2.1, hc.2.2]
      rw [hf] at h
      simp at h
      exact hAll h.symm
    · intro h
      have ht : (decide (a.mSharedFboFlushItor ≠ b.mSharedFboFlushItor) ||
              a.mInformationOnly || b.mInformationOnly) = true := by
        rcases h with h | h | h <;> simp [h]
      rw [ht]; simp
  · intro hc
    simp only [not_or] at hc
    simp [hc.1, hc.2.1, hc.2.2]
  · intro ha hb hab
    simp [ha, hb, hab]
  · intro hb
    simp [hb]

/-- The flush-mask theorem applied to two descriptors with the same flush
handle of which the second is information-only. -/
theorem willSwitchTo_all_iff_witness :
    willSwitchTo exampleExternals (exampleDescriptor [] none)
        (some { exampleDescriptor [] none with mInformationOnly := true }) false
      = .ok exampleExternals.All :=
  (willSwitchTo_all_iff exampleExternals (exampleDescriptor [] none)
    { exampleDescriptor [] none with mInformationOnly := true } (by decide)).2.2.2 rfl

/-- C9: with a null next descriptor `willSwitchTo` returns `All` when the warn
flag is off, but with the warn flag on it calls `checkWarnIfRtvWasFlushed`
through the null pointer. -/
theorem willSwitchTo_null (ext : Externals) (d : VulkanRenderPassDescriptor) :
    willSwitchTo ext d none false = .ok ext.All ∧
    willSwitchTo ext d none true = .error .nullDereference := by
  constructor <;> rfl

/-! ### Concrete evaluations -/

/-- C2: any two descriptors get equivalent keys, whatever their attachments;
a descriptor with one plain colour target and one with a multisampled colour
target of another format plan different layouts (1 slot against 2), and when
both are configured the second one shares the entry realized for the first
(one image view, no further device call). -/
theorem equivalent_keys_different_layouts :
    (∀ (ext : Externals) (d1 d2 : VulkanRenderPassDescriptor),
      (VulkanFrameBufferDescKey.ofDesc ext d1).equiv (VulkanFrameBufferDescKey.ofDesc ext d2)
        = true) ∧
    (setupFboPlan exampleExternals (exampleDescriptor [exampleTexture 1 5 0] none)
        (VulkanFrameBufferDescValue.new exampleExternals) ⟨0, []⟩).map
      (fun s => (s.attachmentIdx, (s.attachments.take 2).map (fun a => (a.format, a.samples))))
      = .ok (1, [(5, 1), (0, 0)]) ∧
    (setupFboPlan exampleExternals (exampleDescriptor [exampleTexture 2 6 77] none)
        (VulkanFrameBufferDescValue.new exampleExternals) ⟨0, []⟩).map
      (fun s => (s.attachmentIdx, (s.attachments.take 2).map (fun a => (a.format, a.samples))))
      = .ok (2, [(6, 4), (6, 1)]) ∧
    ∃ dA w1 dB w2,
      entriesModified exampleExternals (exampleDescriptor [exampleTexture 1 5 0] none)
        emptyWorld exampleExternals.All = .ok (dA, w1) ∧
      entriesModified exampleExternals (exampleDescriptor [exampleTexture 2 6 77] none)
        w1 exampleExternals.All = .ok (dB, w2) ∧
      dA.mSharedFboItor = dB.mSharedFboItor ∧
      (fboEntry w2 ⟨0⟩).map (fun v => (v.refCount, v.mNumImageViews)) = some (2, 1) ∧
      w2.device = w1.device := by
  refine ⟨?_, rfl, rfl, ?_⟩
  · intro ext d1 d2
    rw [VulkanFrameBufferDescKey.equiv_eq]
    simp [VulkanFrameBufferDescKey.ofDesc]
  · exact ⟨_, _, _, _, rfl, rfl, rfl, rfl, rfl⟩

/-- C3: with colour entry 0 of null/unknown format and entry 1 of format 5,
`setupFbo` gives entry 1 the packed slot 0 (the only slot), but
`setClearColour( 1, c )` writes clear-value slot 1 and leaves slot 0 alone.
(With no skipped entry the slot is the packed one: for entries 0 multisampled,
1 and 2 plain, clearing entry 2 writes slot 3.) -/
theorem setClearColour_after_skipped_entry :
    (setupFboPlan exampleExternals
        (exampleDescriptor [exampleTexture 1 0 0, exampleTexture 2 5 0] none)
        (VulkanFrameBufferDescValue.new exampleExternals) ⟨0, []⟩).map
      (fun s => (s.attachmentIdx, s.colourAttachRefs.take 2,
        (s.attachments.take 1).map (fun a => a.format)))
      = .ok (1, [some ⟨0, .COLOR_ATTACHMENT_OPTIMAL⟩, none], [5]) ∧
    (setClearColour exampleExternals
        (exampleDescriptor [exampleTexture 1 0 0, exampleTexture 2 5 0] none) 1 ⟨1, 2, 3, 4⟩).map
      (fun d => d.mClearValues)
      = .ok ((List.replicate 18 exampleClearValue).set 1
          { exampleClearValue with color := .float32 ⟨1, 2, 3, 4⟩ }) ∧
    (setClearColour exampleExternals
        (exampleDescriptor [exampleTexture 1 5 77, exampleTexture 2 5 0, exampleTexture 3 6 0]
          none) 2 ⟨1, 2, 3, 4⟩).map
      (fun d => d.mClearValues)
      = .ok ((List.replicate 18 exampleClearValue).set 3
          { exampleClearValue with color := .float32 ⟨1, 2, 3, 4⟩ }) :=
  ⟨rfl, rfl, rfl⟩

/-- C4 (counterexample): with colour entries of formats unknown, 5 and 6, the
packed slot of logical entry 1 is slot 0 (format 5), but `colourAttachRefs[1]`
names slot 1, which is the slot of logical entry 2 (format 6); the reference
to entry 1's slot is `colourAttachRefs[0]`. -/
theorem colour_refs_not_parallel_to_logical_list :
    ∃ s, setupFboPlan exampleExternals
        (exampleDescriptor [exampleTexture 1 0 0, exampleTexture 2 5 0, exampleTexture 3 6 0] none)
        (VulkanFrameBufferDescValue.new exampleExternals) ⟨0, []⟩ = .ok s ∧
      packedIndex exampleExternals
        [exampleTexture 1 0 0, exampleTexture 2 5 0, exampleTexture 3 6 0] 1 = 0 ∧
      s.colourAttachRefs[1]? = some (some ⟨1, .COLOR_ATTACHMENT_OPTIMAL⟩) ∧
      s.colourAttachRefs[0]? = some (some ⟨0, .COLOR_ATTACHMENT_OPTIMAL⟩) ∧
      s.colourAttachRefs[2]? = some none ∧
      (s.attachments.take 2).map (fun a => a.format) = [5, 6] :=
  ⟨_, rfl, rfl, rfl, rfl, rfl, rfl⟩

/-- C10: a descriptor with two colour entries of which entry 1 is window-backed
(entry 0 and the depth target are not) passes `entriesModified` without the
invalid-parameters error; with the same two textures in the other order the
error is raised. -/
theorem window_at_index_one_not_rejected :
    (exampleDescriptor [exampleTexture 1 5 0, exampleWindowTexture 2 6] none).mNumColourEntries
      = 2 ∧
    (exampleWindowTexture 2 6).renderWindowSpecific = true ∧
    (∃ r, entriesModified exampleExternals
        (exampleDescriptor [exampleTexture 1 5 0, exampleWindowTexture 2 6] none)
        emptyWorld exampleExternals.All = .ok r) ∧
    entriesModified exampleExternals
        (exampleDescriptor [exampleWindowTexture 2 6, exampleTexture 1 5 0] none)
        emptyWorld exampleExternals.All = .error .ERR_INVALIDPARAMS :=
  ⟨rfl, rfl, ⟨_, rfl⟩, rfl⟩

/-! ### Image views, device calls and framebuffers -/

theorem length_colourViews (ext : Externals) (t : VulkanTextureGpu) (h : Nat) :
    (colourViews t h).length = (colourSlots ext t).length := by
  by_cases hm : t.msaaTextureName = 0 <;> simp [colourViews, colourSlots, hm]

theorem setupColourAttachment_views (ext : Externals) (d : VulkanRenderPassDescriptor)
    (i v : Nat) (t : VulkanTextureGpu) (s : SetupLocals)
    (hcol : d.mColour[i]? = some (some t))
    (hatt : s.attachmentIdx + (colourSlots ext t).length ≤ s.attachments.length)
    (hviews : s.attachmentIdx + (colourSlots ext t).length ≤ s.fboDesc.mImageViews.length)
    (hcref : v < s.colourAttachRefs.length) (hrref : v < s.resolveAttachRefs.length)
    (hwin : t.renderWindowSpecific = true → t.asWindow.isSome = true)
    (hassert : ext.assertLow = true →
      windowSlotsPlanned t = 0 ∨
      (windowSlotsPlanned t ≤ 1 ∧ s.fboDesc.mWindowImageViews = [])) :
    ∃ s1, setupColourAttachment ext d i v false s = .ok s1 ∧
      s1.fboDesc.mImageViews =
        overwrite s.fboDesc.mImageViews s.attachmentIdx (colourViews t s.device.handleCounter) ∧
      s1.device.calls = s.device.calls ++ colourViewCalls t s.device.handleCounter ∧
      s1.device.handleCounter =
        s.device.handleCounter + (colourViewCalls t s.device.handleCounter).length ∧
      s1.fboDesc.mWindowImageViews = windowViewsAfter t s.fboDesc.mWindowImageViews := by
  have hread : readAt d.mColour i = .ok (some t) := by simp [readAt, hcol]
  obtain ⟨win, hwinv⟩ : ∃ win, t.renderWindowSpecific = true → t.asWindow = some win := by
    cases hw : t.asWindow with
    | none =>
      refine ⟨⟨[], 0, 0⟩, fun h => ?_⟩
      have := hwin h; rw [hw] at this; simp at this
    | some win => exact ⟨win, fun _ => rfl⟩
  have hassert1 : ext.assertLow = true → 1 ≤ windowSlotsPlanned t →
      windowSlotsPlanned t ≤ 1 ∧ s.fboDesc.mWindowImageViews = [] := by
    intro h1 h2
    rcases hassert h1 with h | h
    · omega
    · exact h
  by_cases hm : t.msaaTextureName = 0
  · -- no resolve slot
    have hlen : (colourSlots ext t).length = 1 := by simp [colourSlots, hm]
    rw [hlen] at hatt hviews
    have ha : s.attachmentIdx < s.attachments.length := by omega
    have hv : s.attachmentIdx < s.fboDesc.mImageViews.length := by omega
    by_cases hr : t.renderWindowSpecific = true
    · by_cases hms : t.multisample = true
      · simp [setupColourAttachment, setupColourAttachmentBody, hread, deref, bind,
            Except.bind, writeAt, hm, hr, hms, ha, hv, hcref, hrref, createView,
            colourViews, colourViewCalls, createsView, windowViewsAfter, windowSlotsPlanned,
            VulkanDevice.fresh, set_eq_overwrite _ _ _ hv]
      · have hms' : t.multisample = false := by simpa using hms
        by_cases hal : ext.assertLow = true
        · have hw := (hassert1 hal (by simp [windowSlotsPlanned, hr, hms', hm])).2
          simp [setupColourAttachment, setupColourAttachmentBody, hread, deref, bind,
            Except.bind, writeAt, hm, hr, hms', ha, hv, hcref, hrref, createView,
            colourViews, colourViewCalls, createsView, windowViewsAfter, windowSlotsPlanned,
            VulkanDevice.fresh, hwinv hr, hal, hw, set_eq_overwrite _ _ _ hv]
        · have hal' : ext.assertLow = false := by simpa using hal
          simp [setupColourAttachment, setupColourAttachmentBody, hread, deref, bind,
            Except.bind, writeAt, hm, hr, hms', ha, hv, hcref, hrref, createView,
            colourViews, colourViewCalls, createsView, windowViewsAfter, windowSlotsPlanned,
            VulkanDevice.fresh, hwinv hr, hal', set_eq_overwrite _ _ _ hv]
    · have hr' : t.renderWindowSpecific = false := by simpa using hr
      simp [setupColourAttachment, setupColourAttachmentBody, hread, deref, bind,
            Except.bind, writeAt, hm, hr', ha, hv, hcref, hrref, createView,
            colourViews, colourViewCalls, createsView, windowViewsAfter, windowSlotsPlanned,
            VulkanDevice.fresh, set_eq_overwrite _ _ _ hv]
  · -- primary slot followed by the resolve slot
    have hlen : (colourSlots ext t).length = 2 := by simp [colourSlots, hm]
    rw [hlen] at hatt hviews
    have ha : s.attachmentIdx < s.attachments.length := by omega
    have hv : s.attachmentIdx < s.fboDesc.mImageViews.length := by omega
    have ha1 : s.attachmentIdx + 1 < s.attachments.length := by omega
    have hv1 : s.attachmentIdx + 1 < s.fboDesc.mImageViews.length := by omega
    by_cases hr : t.renderWindowSpecific = true
    · by_cases hms : t.multisample = true
      · by_cases hal : ext.assertLow = true
        · have hw := (hassert1 hal (by simp [windowSlotsPlanned, hr, hms, hm])).2
          simp [setupColourAttachment, setupColourAttachmentBody, hread, deref, bind,
            Except.bind, writeAt, hm, hr, hms, ha, hv, ha1, hv1, hcref, hrref, createView,
            colourViews, colourViewCalls, createsView, windowViewsAfter, windowSlotsPlanned,
            VulkanDevice.fresh, hwinv hr, hal, hw, set_set_eq_overwrite _ _ _ _ hv1]
        · have hal' : ext.assertLow = false := by simpa using hal
          simp [setupColourAttachment, setupColourAttachmentBody, hread, deref, bind,
            Except.bind, writeAt, hm, hr, hms, ha, hv, ha1, hv1, hcref, hrref, createView,
            colourViews, colourViewCalls, createsView, windowViewsAfter, windowSlotsPlanned,
            VulkanDevice.fresh, hwinv hr, hal', set_set_eq_overwrite _ _ _ _ hv1]
      · have hms' : t.multisample = false := by simpa using hms
        by_cases hal : ext.assertLow = true
        · have hw := (hassert1 hal (by simp [windowSlotsPlanned, hr, hms', hm])).1
          simp [windowSlotsPlanned, hr, hms', hm] at hw
        · have hal' : ext.assertLow = false := by simpa using hal
          simp [setupColourAttachment, setupColourAttachmentBody, hread, deref, bind,
            Except.bind, writeAt, hm, hr, hms', ha, hv, ha1, hv1, hcref, hrref, createView,
            colourViews, colourViewCalls, createsView, windowViewsAfter, windowSlotsPlanned,
            VulkanDevice.fresh, hwinv hr, hal', set_set_eq_overwrite _ _ _ _ hv1]
    · have hr' : t.renderWindowSpecific = false := by simpa using hr
      simp [setupColourAttachment, setupColourAttachmentBody, hread, deref, bind,
            Except.bind, writeAt, hm, hr', ha, hv, ha1, hv1, hcref, hrref, createView,
            colourViews, colourViewCalls, createsView, windowViewsAfter, windowSlotsPlanned,
            VulkanDevice.fresh, set_set_eq_overwrite _ _ _ _ hv1]

theorem setupFboColours_views (ext : Externals) (d : VulkanRenderPassDescriptor) :
    ∀ (cs : List VulkanTextureGpu) (i : Nat) (s : SetupLocals),
    (∀ j, j < cs.length → d.mColour[i + j]? = some cs[j]?) →
    s.attachmentIdx + packedSlotCount ext cs ≤ s.attachments.length →
    s.attachmentIdx + packedSlotCount ext cs ≤ s.fboDesc.mImageViews.length →
    s.numColourAttachments + plannedColourCount ext cs ≤ s.colourAttachRefs.length →
    s.numColourAttachments + plannedColourCount ext cs ≤ s.resolveAttachRefs.length →
    (∀ t ∈ cs, t.renderWindowSpecific = true → t.asWindow.isSome = true) →
    (ext.assertLow = true → windowSlotCount ext cs = 0 ∨
      (windowSlotCount ext cs ≤ 1 ∧ s.fboDesc.mWindowImageViews = [])) →
    ∀ s1, setupFboColours ext d cs.length i s = .ok s1 → ColoursRealized ext cs s s1
  | [], i, s, _, _, _, _, _, _, _, s1, h => by
    simp only [List.length_nil, setupFboColours, Except.ok.injEq] at h
    subst h
    constructor <;> simp [viewList, viewCallList, plannedWindowViews, plannedWindowIdx,
      overwrite_nil]
  | t :: cs, i, s, hcol, hatt, hviews, hcref, hrref, hwin, hassert, s1, hok => by
    have hcol0 : d.mColour[i]? = some (some t) := by simpa using hcol 0 (by simp)
    have hread : readAt d.mColour i = .ok (some t) := by simp [readAt, hcol0]
    have hcol1 : ∀ j, j < cs.length → d.mColour[i + 1 + j]? = some cs[j]? := by
      intro j hj
      have := hcol (j + 1) (by simpa using hj)
      rw [show i + 1 + j = i + (j + 1) by omega, this]
      simp
    have hwin1 : ∀ x ∈ cs, x.renderWindowSpecific = true → x.asWindow.isSome = true :=
      fun x hx => hwin x (List.mem_cons_of_mem _ hx)
    rw [packedSlotCount_cons] at hatt hviews
    rw [plannedColourCount_cons] at hcref hrref
    rw [windowSlotCount_cons] at hassert
    by_cases hf : t.format = ext.PF_UNKNOWN
    · -- the entry is skipped
      have hs0 : slotsOfColour ext t = 0 := by simp [slotsOfColour, hf]
      have hw0 : windowSlotsOfColour ext t = 0 := by simp [windowSlotsOfColour, hf]
      rw [hs0] at hatt hviews
      rw [hw0] at hassert
      simp only [hf, if_true, Nat.zero_add] at hcref hrref hatt hviews hassert
      have hok1 : setupFboColours ext d cs.length (i + 1)
          { s with hasRenderWindow := s.hasRenderWindow || t.renderWindowSpecific } = .ok s1 := by
        simp only [List.length_cons, setupFboColours, hread, deref, bind, Except.bind, hf,
          if_true] at hok
        exact hok
      have p := setupFboColours_views ext d cs (i + 1)
        { s with hasRenderWindow := s.hasRenderWindow || t.renderWindowSpecific }
        hcol1 hatt hviews hcref hrref hwin1 hassert s1 hok1
      constructor
      · simpa [viewList, hf] using p.imageViews
      · simpa [viewCallList, hf] using p.calls
      · simpa [viewCallList, hf] using p.handleCounter
      · simpa [plannedWindowViews, hf] using p.windowViews
      · simpa [plannedWindowIdx, hf] using p.windowAttachmentIdx
    · -- the entry is planned
      have hs := slotsOfColour_planned ext t hf
      have hwp := windowSlotsOfColour_planned ext t hf
      rw [hs] at hatt hviews
      rw [hwp] at hassert
      simp only [hf, if_false] at hcref hrref
      have hatt' : s.attachmentIdx + (colourSlots ext t).length ≤ s.attachments.length := by
        omega
      have hviews' : s.attachmentIdx + (colourSlots ext t).length ≤
          s.fboDesc.mImageViews.length := by omega
      obtain ⟨s2, hs2⟩ : ∃ s2, s2 = recordWindowAttachment t
          { s with hasRenderWindow := s.hasRenderWindow || t.renderWindowSpecific } :=
        ⟨_, rfl⟩
      have e2 : s2.attachmentIdx = s.attachmentIdx ∧ s2.attachments = s.attachments ∧
          s2.fboDesc = s.fboDesc ∧ s2.colourAttachRefs = s.colourAttachRefs ∧
          s2.resolveAttachRefs = s.resolveAttachRefs ∧
          s2.numColourAttachments = s.numColourAttachments ∧
          s2.device = s.device ∧
          s2.windowAttachmentIdx =
            (if t.renderWindowSpecific = true then
              (if t.msaaTextureName ≠ 0 then s.attachmentIdx + 1 else s.attachmentIdx)
             else s.windowAttachmentIdx) := by
        subst hs2
        by_cases hr : t.renderWindowSpecific = true
        · by_cases hm : t.msaaTextureName = 0 <;>
            simp [recordWindowAttachment, hr, hm]
        · simp [recordWindowAttachment, hr]
      obtain ⟨a1, a2, a3, a4, a5, a6, a7, a8⟩ := e2
      have hassert2 : ext.assertLow = true → windowSlotsPlanned t = 0 ∨
          (windowSlotsPlanned t ≤ 1 ∧ s2.fboDesc.mWindowImageViews = []) := by
        intro hal
        rcases hassert hal with h | h
        · left; omega
        · by_cases hz : windowSlotsPlanned t = 0
          · left; exact hz
          · right; rw [a3]; exact ⟨by omega, h.2⟩
      obtain ⟨s3, h3, b⟩ := setupColourAttachment_ok ext d i s2.numColourAttachments t s2 hcol0
        (by rw [a1, a2]; exact hatt') (by rw [a1, a3]; exact hviews')
        (by rw [a4, a6]; omega) (by rw [a5, a6]; omega)
        (hwin t (List.mem_cons_self _ _)) hassert2
      obtain ⟨s3', h3', v1, v2, v3, v4⟩ :=
        setupColourAttachment_views ext d i s2.numColourAttachments t s2 hcol0
        (by rw [a1, a2]; exact hatt') (by rw [a1, a3]; exact hviews')
        (by rw [a4, a6]; omega) (by rw [a5, a6]; omega)
        (hwin t (List.mem_cons_self _ _)) hassert2
      have hs3 : s3 = s3' := by
        rw [h3] at h3'
        exact Except.ok.inj h3'
      subst hs3
      obtain ⟨b1, b2, b3, b4, b5, b6, b7, b8, b9, b10, b11, b12, b13, b14, b15⟩ := b
      have hreadr : readAt s3.resolveAttachRefs s3.numColourAttachments =
          .ok (some (resolveReference t s.attachmentIdx)) := by
        rw [b4, b6, a1]
        have : s2.numColourAttachments < s2.resolveAttachRefs.length := by rw [a5, a6]; omega
        simp [readAt, this]
      obtain ⟨s4, hs4⟩ : ∃ s4 : SetupLocals, s4 =
          { s3 with usesResolveAttachments :=
                      if (resolveReference t s.attachmentIdx).attachment ≠ VK_ATTACHMENT_UNUSED
                      then true else s3.usesResolveAttachments,
                    numColourAttachments := s3.numColourAttachments + 1 } := ⟨_, rfl⟩
      have hloop : setupFboColours ext d (cs.length + 1) i s =
          setupFboColours ext d cs.length (i + 1) s4 := by
        rw [setupFboColours]
        simp only [hread, deref, bind, Except.bind, hf, if_false, ← hs2, h3, hreadr, hs4]
      have c1 : s4.attachmentIdx = s.attachmentIdx + (colourSlots ext t).length := by
        rw [hs4]; simp only; rw [b2, a1]
      have c2 : s4.attachments = overwrite s.attachments s.attachmentIdx (colourSlots ext t) := by
        rw [hs4]; simp only; rw [b1, a1, a2]
      have c3 : s4.colourAttachRefs = overwrite s.colourAttachRefs s.numColourAttachments
          [some ⟨s.attachmentIdx, .COLOR_ATTACHMENT_OPTIMAL⟩] := by
        rw [hs4]; simp only; rw [b3, a1, a4, a6]
        exact set_eq_overwrite _ _ _ (by omega)
      have c4 : s4.resolveAttachRefs = overwrite s.resolveAttachRefs s.numColourAttachments
          [some (resolveReference t s.attachmentIdx)] := by
        rw [hs4]; simp only; rw [b4, a1, a5, a6]
        exact set_eq_overwrite _ _ _ (by omega)
      have c5 : s4.numColourAttachments = s.numColourAttachments + 1 := by
        rw [hs4]; simp only; rw [b6, a6]
      have c6 : s4.fboDesc.mImageViews.length = s.fboDesc.mImageViews.length := by
        rw [hs4]; simp only; rw [b5, a3]
      have c8 : s4.fboDesc.mWindowImageViews = windowViewsAfter t s.fboDesc.mWindowImageViews := by
        rw [hs4]; simp only; rw [v4, a3]
      have c9 : s4.fboDesc.mImageViews =
          overwrite s.fboDesc.mImageViews s.attachmentIdx
            (colourViews t s.device.handleCounter) := by
        rw [hs4]; simp only; rw [v1, a1, a3, a7]
      have c10 : s4.device.calls = s.device.calls ++ colourViewCalls t s.device.handleCounter := by
        rw [hs4]; simp only; rw [v2, a7]
      have c11 : s4.device.handleCounter =
          s.device.handleCounter + (colourViewCalls t s.device.handleCounter).length := by
        rw [hs4]; simp only; rw [v3, a7]
      have c12 : s4.windowAttachmentIdx =
          (if t.renderWindowSpecific = true then
            (if t.msaaTextureName ≠ 0 then s.attachmentIdx + 1 else s.attachmentIdx)
           else s.windowAttachmentIdx) := by
        rw [hs4]; simp only; rw [b8, a8]
      have hlenA : (overwrite s.attachments s.attachmentIdx (colourSlots ext t)).length =
          s.attachments.length := length_overwrite _ _ _ hatt'
      have hok4 : setupFboColours ext d cs.length (i + 1) s4 = .ok s1 := by
        rw [List.length_cons, hloop] at hok; exact hok
      have p := setupFboColours_views ext d cs (i + 1) s4 hcol1
        (by rw [c1, c2, hlenA]; omega) (by rw [c1, c6]; omega)
        (by rw [c5, c3, length_overwrite _ _ _ (by simpa using by omega)]; omega)
        (by rw [c5, c4, length_overwrite _ _ _ (by simpa using by omega)]; omega)
        hwin1
        (by
          intro hal
          rcases hassert hal with h | h
          · left; omega
          · by_cases hz : windowSlotsPlanned t = 0
            · right; rw [c8]; simp only [windowViewsAfter, hz, if_true]; exact ⟨by omega, h.2⟩
            · left; omega)
        s1 hok4
      have hlv := length_colourViews ext t s.device.handleCounter
      constructor
      · rw [p.imageViews, c1, c9, c11, ← hlv, overwrite_overwrite _ _ _ _ (by rw [hlv]; exact hviews')]
        simp [viewList, hf]
      · rw [p.calls, c10, c11]
        simp [viewCallList, hf]
      · rw [p.handleCounter, c11]
        simp [viewCallList, hf]; omega
      · rw [p.windowViews, c8]
        simp [plannedWindowViews, hf]
      · rw [p.windowAttachmentIdx, c1, c12]
        simp [plannedWindowIdx, hf]

theorem length_viewList (ext : Externals) (cs : List VulkanTextureGpu) :
    ∀ h, (viewList ext h cs).length = packedSlotCount ext cs := by
  induction cs with
  | nil => intro h; rfl
  | cons t cs ih =>
    intro h
    rw [packedSlotCount_cons]
    by_cases hf : t.format = ext.PF_UNKNOWN
    · simp [viewList, hf, ih, slotsOfColour]
    · simp [viewList, hf, ih, slotsOfColour_planned ext t hf, length_colourViews ext]

theorem setupFboPlan_views (ext : Externals) (d : VulkanRenderPassDescriptor)
    (cs : List VulkanTextureGpu) (fboDesc : VulkanFrameBufferDescValue) (dev : VulkanDevice)
    (hcol : HasColours d cs) (hplan : Plannable ext cs)
    (hviews : fboDesc.mImageViews.length = ext.OGRE_MAX_MULTIPLE_RENDER_TARGETS * 2 + 2)
    (hwin : fboDesc.mWindowImageViews = []) :
    ∃ s, setupFboPlan ext d fboDesc dev = .ok s ∧ FboRealized ext d cs fboDesc dev s := by
  obtain ⟨hn, hc⟩ := hcol
  obtain ⟨hmax, hcast, hassert⟩ := hplan
  have hp := packedSlotCount_le ext cs
  have hq := plannedColourCount_le ext cs
  have hassert0 : ext.assertLow = true → windowSlotCount ext cs = 0 ∨
      (windowSlotCount ext cs ≤ 1 ∧
        (SetupLocals.init ext fboDesc dev).fboDesc.mWindowImageViews = []) := by
    intro hal
    by_cases hz : windowSlotCount ext cs = 0
    · left; exact hz
    · right; exact ⟨hassert hal, by simp [SetupLocals.init, hwin]⟩
  obtain ⟨s, h1, p⟩ := setupFboColours_ok ext d cs 0 (SetupLocals.init ext fboDesc dev)
    (by intro j hj; simpa using hc j hj)
    (by simp [SetupLocals.init]; omega) (by simp [SetupLocals.init, hviews]; omega)
    (by simp [SetupLocals.init]; omega) (by simp [SetupLocals.init]; omega)
    hcast hassert0 (by simp [SetupLocals.init, hwin])
  have r := setupFboColours_views ext d cs 0 (SetupLocals.init ext fboDesc dev)
    (by intro j hj; simpa using hc j hj)
    (by simp [SetupLocals.init]; omega) (by simp [SetupLocals.init, hviews]; omega)
    (by simp [SetupLocals.init]; omega) (by simp [SetupLocals.init]; omega)
    hcast hassert0 s h1
  have q1 := p.attachments
  have q2 := p.attachmentIdx
  simp only [SetupLocals.init, Nat.zero_add, overwrite_replicate_zero,
    length_attachmentList] at q1 q2
  have q5 := p.imageViewsLength
  have r1 := r.imageViews
  have r2 := r.calls
  have r3 := r.handleCounter
  have r4 := r.windowViews
  have r5 := r.windowAttachmentIdx
  simp only [SetupLocals.init] at q5 r1 r2 r3 r4 r5
  cases hdepth : d.mDepth with
  | none =>
    refine ⟨s, ?_, ?_⟩
    · simp only [setupFboPlan, hn, h1, bind, Except.bind, hdepth, Option.isSome_none]
      rfl
    · constructor
      · simp [r1, depthViews, hdepth]
      · simp [r2, depthViewCalls, hdepth]
      · simp [r3, depthViews, hdepth]
      · exact r4
      · exact r5
  | some depth =>
    have ha : s.attachmentIdx < s.attachments.length := by
      rw [q2, q1]; simp [length_attachmentList]; omega
    have hv : s.attachmentIdx < s.fboDesc.mImageViews.length := by
      rw [q2, q5, hviews]; omega
    refine ⟨{ s with
        attachments := s.attachments.set s.attachmentIdx (depthAttachmentDescription ext depth),
        fboDesc := { s.fboDesc with
          mImageViews := s.fboDesc.mImageViews.set s.attachmentIdx s.device.fresh },
        device := (createView s.device 0 0
          (if depth.msaaTextureName ≠ 0 then depth.msaaTextureName
           else depth.finalTextureName)).2,
        depthAttachRef := some ⟨s.attachmentIdx, .DEPTH_STENCIL_ATTACHMENT_OPTIMAL⟩,
        attachmentIdx := s.attachmentIdx + 1 }, ?_, ?_⟩
    · simp only [setupFboPlan, hn, h1, bind, Except.bind, hdepth, Option.isSome_some,
        if_true, setupDepthAttachment, deref, createView, writeAt, ha, hv]
    · constructor
      · simp only
        rw [set_eq_overwrite _ _ _ hv, q2, r1]
        have := overwrite_overwrite fboDesc.mImageViews 0 (viewList ext dev.handleCounter cs)
          [s.device.fresh] (by rw [length_viewList, hviews]; omega)
        rw [length_viewList, Nat.zero_add] at this
        rw [this]
        simp [depthViews, hdepth, VulkanDevice.fresh, r3]
      · simp [createView, r2, depthViewCalls, hdepth, VulkanDevice.fresh, r3]
      · simp [createView, r3, depthViews, hdepth]
      · exact r4
      · exact r5

theorem framebufferCalls_set (info : VkFramebufferCreateInfo) (widx : Nat)
    (views wviews : List VkHandle) (x : VkHandle) (hw : wviews ≠ []) :
    ∀ r i h, framebufferCalls info widx (views.set widx x) wviews r i h =
      framebufferCalls info widx views wviews r i h
  | 0, _, _ => rfl
  | r + 1, i, h => by
    simp only [framebufferCalls, hw, if_false, List.set_set]
    rw [framebufferCalls_set info widx views wviews x hw r (i + 1) (h + 1)]

theorem length_framebufferCalls (info : VkFramebufferCreateInfo) (widx : Nat)
    (views wviews : List VkHandle) :
    ∀ r i h, (framebufferCalls info widx views wviews r i h).length = r
  | 0, _, _ => rfl
  | r + 1, i, h => by
    simp [framebufferCalls, length_framebufferCalls info widx views wviews r (i + 1) (h + 1)]

theorem getElem?_framebufferCalls (info : VkFramebufferCreateInfo) (widx : Nat)
    (views wviews : List VkHandle) :
    ∀ r i h k, k < r → (framebufferCalls info widx views wviews r i h)[k]? =
      some (VkCall.vkCreateFramebuffer
        { info with
          pAttachments :=
            if wviews = [] then views else views.set widx (wviews[i + k]?.getD 0) }
        (h + 1 + k))
  | 0, _, _, _, hk => by omega
  | r + 1, i, h, 0, _ => by simp [framebufferCalls]
  | r + 1, i, h, k + 1, hk => by
    simp only [framebufferCalls, List.getElem?_cons_succ]
    rw [getElem?_framebufferCalls info widx views wviews r (i + 1) (h + 1) k (by omega)]
    rw [show i + 1 + k = i + (k + 1) by omega, show h + 1 + 1 + k = h + 1 + (k + 1) by omega]

theorem createFramebuffers_calls (info : VkFramebufferCreateInfo) (widx : Nat) :
    ∀ (r i : Nat) (fbo : VulkanFrameBufferDescValue) (dev : VulkanDevice),
    i + r ≤ fbo.mFramebuffers.length →
    (fbo.mWindowImageViews ≠ [] →
      i + r ≤ fbo.mWindowImageViews.length ∧ widx < fbo.mImageViews.length) →
    createFramebuffers info widx r i fbo dev = .ok
      ({ fbo with
          mImageViews :=
            if r = 0 ∨ fbo.mWindowImageViews = [] then fbo.mImageViews
            else fbo.mImageViews.set widx 0,
          mFramebuffers :=
            overwrite fbo.mFramebuffers i (List.range' (dev.handleCounter + 1) r) },
       { handleCounter := dev.handleCounter + r,
         calls := dev.calls ++
           framebufferCalls info widx fbo.mImageViews fbo.mWindowImageViews r i
             dev.handleCounter })
  | 0, i, fbo, dev, _, _ => by
    simp [createFramebuffers, framebufferCalls, overwrite_nil]
  | r + 1, i, fbo, dev, hfb, hwin => by
    have hi : i < fbo.mFramebuffers.length := by omega
    have hfbs : overwrite (fbo.mFramebuffers.set i dev.fresh) (i + 1)
        (List.range' (dev.handleCounter + 1 + 1) r) =
        overwrite fbo.mFramebuffers i (List.range' (dev.handleCounter + 1) (r + 1)) := by
      rw [set_eq_overwrite _ _ _ hi]
      have := overwrite_overwrite fbo.mFramebuffers i [dev.fresh]
        (List.range' (dev.handleCounter + 1 + 1) r) (by simpa using by omega)
      simp only [List.length_singleton] at this
      rw [this]
      simp [List.range', VulkanDevice.fresh]
    by_cases hw : fbo.mWindowImageViews = []
    · have ih := createFramebuffers_calls info widx r (i + 1)
          { fbo with mImageViews := fbo.mImageViews,
                     mFramebuffers := fbo.mFramebuffers.set i dev.fresh }
          { handleCounter := dev.handleCounter + 1,
            calls := dev.calls ++
              [VkCall.vkCreateFramebuffer { info with pAttachments := fbo.mImageViews }
                dev.fresh] }
          (by simp; omega) (by intro h; exact absurd hw h)
      rw [createFramebuffers]
      simp only [hw, ne_eq, not_true_eq_false, if_false, bind, Except.bind, writeAt, hi,
        if_true]
      rw [hw] at ih
      simp only [hfbs] at ih
      rw [ih]
      simp [hw, framebufferCalls, VulkanDevice.fresh, Nat.add_assoc, Nat.add_comm 1 r]
    · obtain ⟨hwl, hwi⟩ := hwin hw
      have hiw : i < fbo.mWindowImageViews.length := by omega
      have hread : readAt fbo.mWindowImageViews i = .ok fbo.mWindowImageViews[i] := by
        simp [readAt, List.getElem?_eq_getElem hiw]
      have ih := createFramebuffers_calls info widx r (i + 1)
          { fbo with mImageViews :=
                       (fbo.mImageViews.set widx fbo.mWindowImageViews[i]).set widx 0,
                     mFramebuffers := fbo.mFramebuffers.set i dev.fresh }
          { handleCounter := dev.handleCounter + 1,
            calls := dev.calls ++
              [VkCall.vkCreateFramebuffer
                { info with pAttachments := fbo.mImageViews.set widx fbo.mWindowImageViews[i] }
                dev.fresh] }
          (by simp; omega) (by intro _; simp; omega)
      rw [createFramebuffers]
      simp only [hw, ne_eq, not_false_eq_true, if_true, bind, Except.bind, writeAt, hi,
        hwi, hread, List.length_set]
      simp only [hfbs] at ih
      rw [ih]
      simp [hw, framebufferCalls, VulkanDevice.fresh, Nat.add_assoc, Nat.add_comm 1 r,
        framebufferCalls_set info widx fbo.mImageViews _ 0 hw, List.getElem?_eq_getElem hiw]

theorem overwrite_all {α : Type} (xs ys : List α) (h : ys.length = xs.length) :
    overwrite xs 0 ys = ys := by
  simp [overwrite, h]

theorem setupFbo_realized (ext : Externals) (d : VulkanRenderPassDescriptor)
    (cs : List VulkanTextureGpu) (fboDesc : VulkanFrameBufferDescValue) (dev : VulkanDevice)
    (hcol : HasColours d cs) (hplan : Plannable ext cs)
    (hviews : fboDesc.mImageViews.length = ext.OGRE_MAX_MULTIPLE_RENDER_TARGETS * 2 + 2)
    (hwin : fboDesc.mWindowImageViews = []) (hfresh : fboDesc.mRenderPass = 0) :
    ∃ s, setupFboPlan ext d fboDesc dev = .ok s ∧ FboPlanned ext d cs fboDesc s ∧
      FboRealized ext d cs fboDesc dev s ∧
      setupFbo ext d fboDesc dev = .ok (realizedFbo s, realizedDevice d s) := by
  obtain ⟨s, h1, p⟩ := setupFboPlan_ok ext d cs fboDesc dev hcol hplan hviews hwin
  obtain ⟨s', h1', r⟩ := setupFboPlan_views ext d cs fboDesc dev hcol hplan hviews hwin
  have hs : s' = s := by
    rw [h1] at h1'
    exact (Except.ok.inj h1').symm
  rw [hs] at r
  refine ⟨s, h1, p, r, ?_⟩
  have hidx : s.attachmentIdx ≤ ext.OGRE_MAX_MULTIPLE_RENDER_TARGETS * 2 + 2 := by
    have := congrArg List.length p.attachments
    have h2 := p.attachmentIdx
    have h3 := packedSlotCount_le ext cs
    have h4 := hplan.1
    have h5 : (depthSlots ext d).length ≤ 1 := by
      unfold depthSlots; split <;> simp
    omega
  have c := createFramebuffers_calls
      { renderPass := s.device.fresh, attachmentCount := s.attachmentIdx,
        pAttachments := s.fboDesc.mImageViews, width := d.mTargetWidth,
        height := d.mTargetHeight, layers := 1 }
      s.windowAttachmentIdx (max s.fboDesc.mWindowImageViews.length 1) 0
      { s.fboDesc with
          mNumImageViews := s.attachmentIdx, mRenderPass := s.device.fresh,
          mFramebuffers :=
            s.fboDesc.mFramebuffers.take (max s.fboDesc.mWindowImageViews.length 1) ++
              List.replicate (max s.fboDesc.mWindowImageViews.length 1 -
                s.fboDesc.mFramebuffers.length) 0 }
      { handleCounter := s.device.handleCounter + 1,
        calls := s.device.calls ++
          [VkCall.vkCreateRenderPass
            { attachmentCount := s.attachmentIdx, pAttachments := s.attachments,
              subpassCount := 1, pSubpasses := subpassOf d s } s.device.fresh] }
      (by simp; omega)
      (by
        intro hne
        simp only at hne ⊢
        have h2 := p.windowIdx hne
        have h3 := p.imageViewsLength
        have : 0 < s.fboDesc.mWindowImageViews.length := List.length_pos.mpr hne
        refine ⟨by omega, by omega⟩)
  have hne : max s.fboDesc.mWindowImageViews.length 1 ≠ 0 := by omega
  unfold setupFbo
  simp only [hfresh, ne_eq, not_true_eq_false, if_false, h1, bind, Except.bind]
  rw [c]
  rw [overwrite_all _ _ (by simp; omega)]
  simp [realizedFbo, realizedDevice, renderPassCreateInfoOf, fbCreateInfoOf,
    VulkanDevice.fresh, hne]

/-! ### Layouts, the window slot and the framebuffers -/

/-- C22: `VulkanFrameBufferDescKey::operator<` is a strict weak ordering: it is
irreflexive, asymmetric and transitive, and incomparability (neither key less
than the other) is transitive. -/
theorem key_less_is_strict_weak_ordering :
    (∀ a : VulkanFrameBufferDescKey, a.lt a = false) ∧
    (∀ a b : VulkanFrameBufferDescKey, a.lt b = true → b.lt a = false) ∧
    (∀ a b c : VulkanFrameBufferDescKey, a.lt b = true → b.lt c = true → a.lt c = true) ∧
    (∀ a b c : VulkanFrameBufferDescKey, a.equiv b = true → b.equiv c = true →
      a.equiv c = true) := by
  refine ⟨?_, ?_, ?_, ?_⟩
  · intro a
    simp [VulkanFrameBufferDescKey.lt]
  · intro a b
    simp only [VulkanFrameBufferDescKey.lt]
    split_ifs <;> simp <;> omega
  · intro a b c
    simp only [VulkanFrameBufferDescKey.lt]
    split_ifs <;> simp <;> omega
  · intro a b c
    simp only [VulkanFrameBufferDescKey.equiv, VulkanFrameBufferDescKey.lt]
    split_ifs <;> simp <;> omega

/-- C11 (as the source has it): in the plan of a descriptor with one off-screen
multisampled colour target the resolve slot (packed index 1) starts in layout
UNDEFINED, not COLOR_ATTACHMENT_OPTIMAL, although it is not window-backed; only
its final layout is COLOR_ATTACHMENT_OPTIMAL. -/
theorem resolve_slot_initial_layout_undefined :
    (setupFboPlan exampleExternals (exampleDescriptor [exampleTexture 1 5 40] none)
        (VulkanFrameBufferDescValue.new exampleExternals) ⟨0, []⟩).map
      (fun s => (s.attachmentIdx,
        (s.attachments.take 2).map (fun a => (a.initialLayout, a.finalLayout))))
      = .ok (2, [(.COLOR_ATTACHMENT_OPTIMAL, .COLOR_ATTACHMENT_OPTIMAL),
                 (.UNDEFINED, .COLOR_ATTACHMENT_OPTIMAL)]) ∧
    (exampleTexture 1 5 40).renderWindowSpecific = false :=
  ⟨rfl, rfl⟩

/-- C11 (amended): in the plan `setupFbo` makes, the primary slot of every
planned colour target that is not a window-backed non-multisampled one starts
and finishes in COLOR_ATTACHMENT_OPTIMAL, and the resolve slot of every planned
colour target that is not window-backed starts in UNDEFINED and finishes in
COLOR_ATTACHMENT_OPTIMAL. -/
theorem other_slots_layouts (ext : Externals)
    (d : VulkanRenderPassDescriptor) (colours : List VulkanTextureGpu)
    (fboDesc : VulkanFrameBufferDescValue) (dev : VulkanDevice)
    (hcol : HasColours d colours) (hplan : Plannable ext colours)
    (hviews : fboDesc.mImageViews.length = ext.OGRE_MAX_MULTIPLE_RENDER_TARGETS * 2 + 2)
    (hwin : fboDesc.mWindowImageViews = []) :
    ∃ s, setupFboPlan ext d fboDesc dev = .ok s ∧
      ∀ i (hi : i < colours.length), colours[i].format ≠ ext.PF_UNKNOWN →
        (¬ (colours[i].renderWindowSpecific = true ∧ colours[i].multisample = false) →
          (s.attachments[packedIndex ext colours i]?).map
              (fun a => (a.initialLayout, a.finalLayout))
            = some (.COLOR_ATTACHMENT_OPTIMAL, .COLOR_ATTACHMENT_OPTIMAL)) ∧
        (colours[i].msaaTextureName ≠ 0 → colours[i].renderWindowSpecific = false →
          (s.attachments[packedIndex ext colours i + 1]?).map
              (fun a => (a.initialLayout, a.finalLayout))
            = some (.UNDEFINED, .COLOR_ATTACHMENT_OPTIMAL)) := by
  obtain ⟨s, h1, p⟩ := setupFboPlan_ok ext d colours fboDesc dev hcol hplan hviews hwin
  refine ⟨s, h1, ?_⟩
  intro i hi hf
  obtain ⟨_, _, e3, e4⟩ := p.colour_entry i hi hf
  constructor
  · intro hnw
    rw [e3]
    cases hr : colours[i].renderWindowSpecific <;> cases hm : colours[i].multisample <;>
      simp_all [colourAttachmentDescription]
  · intro hm hr
    rw [e4 hm]
    simp [colourAttachmentDescription, hr]

theorem other_slots_layouts_witness :
    ∃ s, setupFboPlan exampleExternals (exampleDescriptor [exampleTexture 1 5 40] none)
        (VulkanFrameBufferDescValue.new exampleExternals) ⟨0, []⟩ = .ok s ∧
      (s.attachments[1]?).map (fun a => (a.initialLayout, a.finalLayout))
        = some (.UNDEFINED, .COLOR_ATTACHMENT_OPTIMAL) := by
  obtain ⟨s, h1, h2⟩ :=
    other_slots_layouts exampleExternals (exampleDescriptor [exampleTexture 1 5 40] none)
      [exampleTexture 1 5 40] (VulkanFrameBufferDescValue.new exampleExternals) ⟨0, []⟩
      (hasColours_example _ _) (by unfold Plannable; decide) rfl rfl
  exact ⟨s, h1, (h2 0 (by decide) (by decide)).2 (by decide) rfl⟩

/-- C12: one activation of `setupColourAttachment` for the primary slot of a
window-backed, non-multisampled colour target succeeds and plans initial layout
UNDEFINED and final layout PRESENT_SRC, writes a null template image view into
the slot and records the window's swap-chain image views in the entry; the
record planned for a window-backed resolve slot has final layout PRESENT_SRC
too. -/
theorem window_slot_plan (ext : Externals) (d : VulkanRenderPassDescriptor)
    (idx vkIdx : Nat) (texture : VulkanTextureGpu) (textureVulkan : VulkanTextureGpuWindow)
    (s : SetupLocals)
    (hcol : d.mColour[idx]? = some (some texture))
    (hwindow : texture.renderWindowSpecific = true)
    (hcast : texture.asWindow = some textureVulkan)
    (hatt : s.attachmentIdx < s.attachments.length)
    (hviews : s.attachmentIdx < s.fboDesc.mImageViews.length)
    (hcref : vkIdx < s.colourAttachRefs.length)
    (hrref : vkIdx < s.resolveAttachRefs.length)
    (hassert : ext.assertLow = true → s.fboDesc.mWindowImageViews = []) :
    (texture.multisample = false →
      ∃ s1, setupColourAttachmentBody ext d idx vkIdx false s = .ok s1 ∧
        (s1.attachments[s.attachmentIdx]?).map (fun a => (a.initialLayout, a.finalLayout))
          = some (.UNDEFINED, .PRESENT_SRC_KHR) ∧
        s1.fboDesc.mImageViews[s.attachmentIdx]? = some 0 ∧
        s1.fboDesc.mWindowImageViews = textureVulkan.swapchainImageViews ∧
        s1.attachmentIdx = s.attachmentIdx + 1) ∧
    (texture.msaaTextureName ≠ 0 →
      ∃ s1, setupColourAttachmentBody ext d idx vkIdx true s = .ok s1 ∧
        (s1.attachments[s.attachmentIdx]?).map (fun a => a.finalLayout)
          = some .PRESENT_SRC_KHR ∧
        s1.fboDesc.mImageViews[s.attachmentIdx]? = some 0 ∧
        s1.fboDesc.mWindowImageViews = textureVulkan.swapchainImageViews ∧
        s1.attachmentIdx = s.attachmentIdx + 1) := by
  have hread : readAt d.mColour idx = .ok (some texture) := by simp [readAt, hcol]
  by_cases hal : ext.assertLow = true
  · have hw := hassert hal
    constructor
    · intro hms
      simp [setupColourAttachmentBody, hread, deref, bind, Except.bind, writeAt, hwindow, hms,
        hatt, hviews, hcref, hcast, hal, hw, colourAttachmentDescription]
    · intro hm
      simp [setupColourAttachmentBody, hread, deref, bind, Except.bind, writeAt, hwindow, hm,
        hatt, hviews, hrref, hcast, hal, hw, colourAttachmentDescription]
  · have hal' : ext.assertLow = false := by simpa using hal
    constructor
    · intro hms
      simp [setupColourAttachmentBody, hread, deref, bind, Except.bind, writeAt, hwindow, hms,
        hatt, hviews, hcref, hcast, hal', colourAttachmentDescription]
    · intro hm
      simp [setupColourAttachmentBody, hread, deref, bind, Except.bind, writeAt, hwindow, hm,
        hatt, hviews, hrref, hcast, hal', colourAttachmentDescription]

theorem window_slot_plan_witness :
    ∃ s1, setupColourAttachmentBody exampleExternals
        (exampleDescriptor [exampleWindowTexture 1 5] none) 0 0 false
        (SetupLocals.init exampleExternals (VulkanFrameBufferDescValue.new exampleExternals)
          ⟨0, []⟩) = .ok s1 ∧
      (s1.attachments[0]?).map (fun a => (a.initialLayout, a.finalLayout))
        = some (.UNDEFINED, .PRESENT_SRC_KHR) ∧
      s1.fboDesc.mImageViews[0]? = some 0 ∧
      s1.fboDesc.mWindowImageViews = [71, 72, 73] := by
  obtain ⟨s1, h1, h2, h3, h4, _⟩ :=
    (window_slot_plan exampleExternals (exampleDescriptor [exampleWindowTexture 1 5] none) 0 0
      (exampleWindowTexture 1 5) ⟨[71, 72, 73], 0, 9⟩
      (SetupLocals.init exampleExternals (VulkanFrameBufferDescValue.new exampleExternals)
        ⟨0, []⟩)
      rfl rfl rfl (by decide) (by decide) (by decide) (by decide) (fun _ => rfl)).1 rfl
  exact ⟨s1, h1, h2, h3, h4⟩

/-- C13: for a descriptor whose single colour target is window-backed with a
non-null format, and whose multisample flag agrees with having an MSAA image,
the window slot index `setupFbo` records is 0 when the target has no MSAA image
and 1 (the resolve slot) when it has one; the template image view at that
index is null, and every other packed slot holds a created, non-null view. -/
theorem window_slot_index_is_null_slot (ext : Externals)
    (d : VulkanRenderPassDescriptor) (texture : VulkanTextureGpu)
    (fboDesc : VulkanFrameBufferDescValue) (dev : VulkanDevice)
    (hmax : 1 ≤ ext.OGRE_MAX_MULTIPLE_RENDER_TARGETS)
    (hcol : HasColours d [texture]) (hformat : texture.format ≠ ext.PF_UNKNOWN)
    (hwindow : texture.renderWindowSpecific = true)
    (hcast : texture.asWindow.isSome = true)
    (hmulti : texture.multisample = decide (texture.msaaTextureName ≠ 0))
    (hviews : fboDesc.mImageViews.length = ext.OGRE_MAX_MULTIPLE_RENDER_TARGETS * 2 + 2)
    (hwin : fboDesc.mWindowImageViews = []) :
    ∃ s, setupFboPlan ext d fboDesc dev = .ok s ∧
      s.windowAttachmentIdx = (if texture.msaaTextureName ≠ 0 then 1 else 0) ∧
      s.windowAttachmentIdx < s.attachmentIdx ∧
      s.fboDesc.mImageViews[s.windowAttachmentIdx]? = some 0 ∧
      ∀ j, j < s.attachmentIdx → j ≠ s.windowAttachmentIdx →
        ∃ view, s.fboDesc.mImageViews[j]? = some view ∧ view ≠ 0 := by
  have hplan : Plannable ext [texture] := by
    refine ⟨by simpa using hmax, ?_, ?_⟩
    · intro t ht _
      rw [List.mem_singleton] at ht; subst ht
      exact hcast
    · intro _
      by_cases hm : texture.msaaTextureName = 0 <;>
        simp [windowSlotCount, windowSlotsOfColour, windowSlotsPlanned, hwindow, hformat,
          hmulti, hm]
  obtain ⟨s, h1, p⟩ := setupFboPlan_ok ext d [texture] fboDesc dev hcol hplan hviews hwin
  obtain ⟨s', h1', r⟩ := setupFboPlan_views ext d [texture] fboDesc dev hcol hplan hviews hwin
  have hs : s' = s := by
    rw [h1] at h1'
    exact (Except.ok.inj h1').symm
  rw [hs] at r
  refine ⟨s, h1, ?_⟩
  have hidx := p.attachmentIdx
  have hv := r.imageViews
  have hw := r.windowAttachmentIdx
  have hlen : 2 + 1 ≤ fboDesc.mImageViews.length := by omega
  by_cases hm : texture.msaaTextureName = 0
  · have hms : texture.multisample = false := by simp [hmulti, hm]
    cases hdepth : d.mDepth with
    | none =>
      simp [packedSlotCount, slotsOfColour, hformat, hm, depthSlots, hdepth, viewList,
        viewCallList, colourViews, colourViewCalls, createsView, hwindow, hms, depthViews,
        plannedWindowIdx, colourSlots] at hidx hv hw
      rw [hidx, hw, hv]
      refine ⟨by simp [hm], by simp, by simp [overwrite], ?_⟩
      intro j hj hne
      omega
    | some depth =>
      simp [packedSlotCount, slotsOfColour, hformat, hm, depthSlots, hdepth, viewList,
        viewCallList, colourViews, colourViewCalls, createsView, hwindow, hms, depthViews,
        plannedWindowIdx, colourSlots] at hidx hv hw
      rw [hidx, hw, hv]
      refine ⟨by simp [hm], by simp, by simp [overwrite], ?_⟩
      intro j hj hne
      have hj1 : j = 1 := by omega
      subst hj1
      exact ⟨dev.handleCounter + 1, by simp [overwrite], Nat.succ_ne_zero _⟩
  · have hms : texture.multisample = true := by simp [hmulti, hm]
    cases hdepth : d.mDepth with
    | none =>
      simp [packedSlotCount, slotsOfColour, hformat, hm, depthSlots, hdepth, viewList,
        viewCallList, colourViews, colourViewCalls, createsView, hwindow, hms, depthViews,
        plannedWindowIdx, colourSlots] at hidx hv hw
      rw [hidx, hw, hv]
      refine ⟨by simp [hm], by simp, by simp [overwrite], ?_⟩
      intro j hj hne
      have hj0 : j = 0 := by omega
      subst hj0
      exact ⟨dev.handleCounter + 1, by simp [overwrite], Nat.succ_ne_zero _⟩
    | some depth =>
      simp [packedSlotCount, slotsOfColour, hformat, hm, depthSlots, hdepth, viewList,
        viewCallList, colourViews, colourViewCalls, createsView, hwindow, hms, depthViews,
        plannedWindowIdx, colourSlots] at hidx hv hw
      rw [hidx, hw, hv]
      refine ⟨by simp [hm], by simp, by simp [overwrite], ?_⟩
      intro j hj hne
      have hj0 : j = 0 ∨ j = 2 := by omega
      rcases hj0 with hj0 | hj0
      · subst hj0
        exact ⟨dev.handleCounter + 1, by simp [overwrite], Nat.succ_ne_zero _⟩
      · subst hj0
        exact ⟨dev.handleCounter + 1 + 1, by simp [overwrite], Nat.succ_ne_zero _⟩

theorem window_slot_index_is_null_slot_witness :
    ∃ s, setupFboPlan exampleExternals
        (exampleDescriptor [exampleWindowTexture 1 5] (some (exampleTexture 4 9 0)))
        (VulkanFrameBufferDescValue.new exampleExternals) ⟨0, []⟩ = .ok s ∧
      s.windowAttachmentIdx = 0 ∧ s.fboDesc.mImageViews[s.windowAttachmentIdx]? = some 0 := by
  obtain ⟨s, h1, h2, _, h4, _⟩ :=
    window_slot_index_is_null_slot exampleExternals
      (exampleDescriptor [exampleWindowTexture 1 5] (some (exampleTexture 4 9 0)))
      (exampleWindowTexture 1 5) (VulkanFrameBufferDescValue.new exampleExternals) ⟨0, []⟩
      (by decide) (hasColours_example _ _) (by decide) rfl rfl rfl rfl rfl
  exact ⟨s, h1, h2, h4⟩

theorem viewCallList_kind (ext : Externals) (cs : List VulkanTextureGpu) :
    ∀ h, ∀ c ∈ viewCallList ext h cs,
      c.isCreateRenderPass = false ∧ c.isCreateFramebuffer = false := by
  induction cs with
  | nil => intro h c hc; simp [viewCallList] at hc
  | cons t cs ih =>
    intro h c hc
    by_cases hf : t.format = ext.PF_UNKNOWN
    · simp only [viewCallList, hf, if_true] at hc
      exact ih h c hc
    · simp only [viewCallList, hf, if_false, List.mem_append] at hc
      rcases hc with hc | hc
      · simp only [colourViewCalls, List.mem_append] at hc
        rcases hc with hc | hc
        · split at hc
          · rw [List.mem_singleton] at hc; subst hc; exact ⟨rfl, rfl⟩
          · simp at hc
        · split at hc
          · rw [List.mem_singleton] at hc; subst hc; exact ⟨rfl, rfl⟩
          · simp at hc
      · exact ih _ c hc

theorem depthViewCalls_kind (d : VulkanRenderPassDescriptor) (h : Nat) :
    ∀ c ∈ depthViewCalls d h, c.isCreateRenderPass = false ∧ c.isCreateFramebuffer = false := by
  intro c hc
  unfold depthViewCalls at hc
  split at hc
  · rw [List.mem_singleton] at hc; subst hc; exact ⟨rfl, rfl⟩
  · simp at hc

theorem framebufferCalls_kind (info : VkFramebufferCreateInfo) (widx : Nat)
    (views wviews : List VkHandle) :
    ∀ r i h, ∀ c ∈ framebufferCalls info widx views wviews r i h,
      c.isCreateRenderPass = false ∧ c.isCreateFramebuffer = true
  | 0, _, _, c, hc => by simp [framebufferCalls] at hc
  | r + 1, i, h, c, hc => by
    simp only [framebufferCalls, List.mem_cons] at hc
    rcases hc with hc | hc
    · subst hc; exact ⟨rfl, rfl⟩
    · exact framebufferCalls_kind info widx views wviews r (i + 1) (h + 1) c hc

/-- C14: for a fresh entry `setupFbo` succeeds and, after the `_createView`
calls of its planning part, makes exactly one `vkCreateRenderPass` call and
exactly max(number of swap-chain image views, 1) `vkCreateFramebuffer` calls
(exactly one when no window-backed target contributed views); framebuffer `i`
is created from the template image views with only the window slot replaced by
swap-chain view `i` and its handle is stored as `mFramebuffers[i]`; afterwards
the window slot of the template is null and every other slot is unchanged. -/
theorem setupFbo_creates_pass_and_framebuffers (ext : Externals)
    (d : VulkanRenderPassDescriptor) (colours : List VulkanTextureGpu)
    (fboDesc : VulkanFrameBufferDescValue) (dev : VulkanDevice)
    (hcol : HasColours d colours) (hplan : Plannable ext colours)
    (hviews : fboDesc.mImageViews.length = ext.OGRE_MAX_MULTIPLE_RENDER_TARGETS * 2 + 2)
    (hwin : fboDesc.mWindowImageViews = []) (hfresh : fboDesc.mRenderPass = 0) :
    ∃ s fbo1 dev1 extra, setupFboPlan ext d fboDesc dev = .ok s ∧
      setupFbo ext d fboDesc dev = .ok (fbo1, dev1) ∧
      dev1.calls = dev.calls ++ extra ∧
      extra.filter VkCall.isCreateRenderPass =
        [VkCall.vkCreateRenderPass (renderPassCreateInfoOf d s) fbo1.mRenderPass] ∧
      (extra.filter VkCall.isCreateFramebuffer).length =
        max s.fboDesc.mWindowImageViews.length 1 ∧
      fbo1.mFramebuffers.length = max s.fboDesc.mWindowImageViews.length 1 ∧
      fbo1.mWindowImageViews = s.fboDesc.mWindowImageViews ∧
      (s.fboDesc.mWindowImageViews = [] →
        extra.filter VkCall.isCreateFramebuffer =
          [VkCall.vkCreateFramebuffer (fbCreateInfoOf d s) (s.device.handleCounter + 2)] ∧
        fbo1.mFramebuffers = [s.device.handleCounter + 2] ∧
        fbo1.mImageViews = s.fboDesc.mImageViews) ∧
      (∀ i (hi : i < s.fboDesc.mWindowImageViews.length),
        (extra.filter VkCall.isCreateFramebuffer)[i]? =
          some (VkCall.vkCreateFramebuffer
            { fbCreateInfoOf d s with
              pAttachments :=
                s.fboDesc.mImageViews.set s.windowAttachmentIdx s.fboDesc.mWindowImageViews[i] }
            (s.device.handleCounter + 2 + i)) ∧
        fbo1.mFramebuffers[i]? = some (s.device.handleCounter + 2 + i)) ∧
      (s.fboDesc.mWindowImageViews ≠ [] →
        s.windowAttachmentIdx < s.fboDesc.mImageViews.length ∧
        fbo1.mImageViews[s.windowAttachmentIdx]? = some 0 ∧
        ∀ j, j ≠ s.windowAttachmentIdx → fbo1.mImageViews[j]? = s.fboDesc.mImageViews[j]?) := by
  obtain ⟨s, h1, p, r, h2⟩ := setupFbo_realized ext d colours fboDesc dev hcol hplan hviews hwin hfresh
  have k1 := viewCallList_kind ext colours dev.handleCounter
  have k2 := depthViewCalls_kind d
    (dev.handleCounter + (viewCallList ext dev.handleCounter colours).length)
  have k3 := framebufferCalls_kind (fbCreateInfoOf d s) s.windowAttachmentIdx
    s.fboDesc.mImageViews s.fboDesc.mWindowImageViews
    (max s.fboDesc.mWindowImageViews.length 1) 0 (s.device.handleCounter + 1)
  have f1 : (viewCallList ext dev.handleCounter colours).filter VkCall.isCreateRenderPass = [] :=
    List.filter_eq_nil_iff.mpr (fun c hc => by simp [(k1 c hc).1])
  have f2 : (viewCallList ext dev.handleCounter colours).filter VkCall.isCreateFramebuffer = [] :=
    List.filter_eq_nil_iff.mpr (fun c hc => by simp [(k1 c hc).2])
  have f3 : (depthViewCalls d
      (dev.handleCounter + (viewCallList ext dev.handleCounter colours).length)).filter
        VkCall.isCreateRenderPass = [] :=
    List.filter_eq_nil_iff.mpr (fun c hc => by simp [(k2 c hc).1])
  have f4 : (depthViewCalls d
      (dev.handleCounter + (viewCallList ext dev.handleCounter colours).length)).filter
        VkCall.isCreateFramebuffer = [] :=
    List.filter_eq_nil_iff.mpr (fun c hc => by simp [(k2 c hc).2])
  have f5 : (framebufferCalls (fbCreateInfoOf d s) s.windowAttachmentIdx
      s.fboDesc.mImageViews s.fboDesc.mWindowImageViews
      (max s.fboDesc.mWindowImageViews.length 1) 0 (s.device.handleCounter + 1)).filter
        VkCall.isCreateRenderPass = [] :=
    List.filter_eq_nil_iff.mpr (fun c hc => by simp [(k3 c hc).1])
  have f6 : (framebufferCalls (fbCreateInfoOf d s) s.windowAttachmentIdx
      s.fboDesc.mImageViews s.fboDesc.mWindowImageViews
      (max s.fboDesc.mWindowImageViews.length 1) 0 (s.device.handleCounter + 1)).filter
        VkCall.isCreateFramebuffer =
      framebufferCalls (fbCreateInfoOf d s) s.windowAttachmentIdx
      s.fboDesc.mImageViews s.fboDesc.mWindowImageViews
      (max s.fboDesc.mWindowImageViews.length 1) 0 (s.device.handleCounter + 1) :=
    List.filter_eq_self.mpr (fun c hc => (k3 c hc).2)
  refine ⟨s, realizedFbo s, realizedDevice d s,
    (viewCallList ext dev.handleCounter colours ++ depthViewCalls d
      (dev.handleCounter + (viewCallList ext dev.handleCounter colours).length)) ++
    VkCall.vkCreateRenderPass (renderPassCreateInfoOf d s) (s.device.handleCounter + 1) ::
      framebufferCalls (fbCreateInfoOf d s) s.windowAttachmentIdx s.fboDesc.mImageViews
        s.fboDesc.mWindowImageViews (max s.fboDesc.mWindowImageViews.length 1) 0
        (s.device.handleCounter + 1), h1, h2, ?_, ?_, ?_, ?_, rfl, ?_, ?_, ?_⟩
  · simp only [realizedDevice, r.calls, List.append_assoc]
  · simp only [List.filter_append, f1, f3, List.filter_cons, VkCall.isCreateRenderPass, f5,
      if_true, List.nil_append, realizedFbo]
  · simp only [List.filter_append, f2, f4, List.filter_cons, VkCall.isCreateFramebuffer, f6,
      List.nil_append, length_framebufferCalls]
    simp [length_framebufferCalls]
  · simp [realizedFbo]
  · intro hw
    simp only [List.filter_append, f2, f4, List.filter_cons, VkCall.isCreateFramebuffer, f6,
      List.nil_append]
    simp [hw, framebufferCalls, realizedFbo, List.range', fbCreateInfoOf]
  · intro i hi
    have hne : s.fboDesc.mWindowImageViews ≠ [] := List.length_pos.mp (by omega)
    have hmax : max s.fboDesc.mWindowImageViews.length 1 = s.fboDesc.mWindowImageViews.length := by
      omega
    constructor
    · simp only [List.filter_append, f2, f4, List.filter_cons, VkCall.isCreateFramebuffer, f6,
        List.nil_append]
      simp only [Bool.false_eq_true, if_false]
      rw [getElem?_framebufferCalls _ _ _ _ _ _ _ i (by omega)]
      simp [hne, List.getElem?_eq_getElem hi, Nat.add_assoc]
    · simp only [realizedFbo, hmax]
      rw [List.getElem?_eq_getElem (by simpa using hi)]
      simp [List.getElem_range', Nat.add_assoc]
  · intro hne
    have hwl := p.windowIdx hne
    have hidx : s.attachmentIdx ≤ ext.OGRE_MAX_MULTIPLE_RENDER_TARGETS * 2 + 2 := by
      have h2 := p.attachmentIdx
      have h3 := packedSlotCount_le ext colours
      have h4 := hplan.1
      have h5 : (depthSlots ext d).length ≤ 1 := by
        unfold depthSlots; split <;> simp
      omega
    have hlt : s.windowAttachmentIdx < s.fboDesc.mImageViews.length := by
      rw [p.imageViewsLength, hviews]; omega
    refine ⟨hlt, ?_, ?_⟩
    · simp [realizedFbo, hne, hlt]
    · intro j hj
      simp [realizedFbo, hne, List.getElem?_set_ne (Ne.symm hj)]

theorem setupFbo_creates_pass_and_framebuffers_witness :
    ∃ s fbo1 dev1 extra,
      setupFboPlan exampleExternals (exampleDescriptor [exampleWindowTexture 1 5] none)
        (VulkanFrameBufferDescValue.new exampleExternals) ⟨0, []⟩ = .ok s ∧
      setupFbo exampleExternals (exampleDescriptor [exampleWindowTexture 1 5] none)
        (VulkanFrameBufferDescValue.new exampleExternals) ⟨0, []⟩ = .ok (fbo1, dev1) ∧
      dev1.calls = [] ++ extra ∧
      (extra.filter VkCall.isCreateFramebuffer).length =
        max s.fboDesc.mWindowImageViews.length 1 := by
  obtain ⟨s, fbo1, dev1, extra, h1, h2, h3, _, h5, _⟩ :=
    setupFbo_creates_pass_and_framebuffers exampleExternals
      (exampleDescriptor [exampleWindowTexture 1 5] none) [exampleWindowTexture 1 5]
      (VulkanFrameBufferDescValue.new exampleExternals) ⟨0, []⟩
      (hasColours_example _ _) (by unfold Plannable; decide) rfl rfl rfl
  exact ⟨s, fbo1, dev1, extra, h1, h2, h3, h5⟩

/-! ### `destroyFbo` -/

theorem destroyImageViews_trace : ∀ (r i : Nat) (views : List VkHandle) (dev : VulkanDevice),
    i + r ≤ views.length →
    destroyImageViews r i views dev = .ok
      (overwrite views i (List.replicate r 0),
       { dev with
         calls := dev.calls ++
           (((views.drop i).take r).filter (fun view => decide (view ≠ 0))).map
             VkCall.vkDestroyImageView })
  | 0, i, views, dev, _ => by simp [destroyImageViews, overwrite_nil]
  | r + 1, i, views, dev, h => by
    have hi : i < views.length := by omega
    have hread : readAt views i = .ok views[i] := by
      simp [readAt, List.getElem?_eq_getElem hi]
    have hdrop : (views.drop i).take (r + 1) = views[i] :: (views.drop (i + 1)).take r := by
      rw [List.drop_eq_getElem_cons hi, List.take_succ_cons]
    have hover : overwrite (views.set i 0) (i + 1) (List.replicate r 0) =
        overwrite views i (List.replicate (r + 1) 0) := by
      rw [set_eq_overwrite _ _ _ hi]
      have := overwrite_overwrite views i [0] (List.replicate r 0) (by simpa using by omega)
      simp only [List.length_singleton] at this
      rw [this]
      rfl
    unfold destroyImageViews
    simp only [hread, bind, Except.bind]
    by_cases hv : views[i] ≠ 0
    · rw [if_pos hv]
      simp only [writeAt, hi, if_true]
      rw [destroyImageViews_trace r (i + 1) (views.set i 0) _ (by simp; omega), hover, hdrop]
      simp [hv, List.drop_set_of_lt]
    · rw [if_neg hv]
      have hz : views[i] = 0 := by simpa using hv
      have hself : views.set i 0 = views := by
        apply List.ext_getElem (by simp)
        intro n h1 h2
        by_cases hn : i = n
        · subst hn; simp [hz]
        · simp [List.getElem_set_ne hn]
      rw [destroyImageViews_trace r (i + 1) views _ (by omega), ← hover, hself, hdrop]
      simp [hz]

/-- C15: for an entry whose first `mNumImageViews` view slots exist,
`destroyFbo` succeeds and emits, in this order, one `vkDestroyFramebuffer` per
framebuffer, one `vkDestroyImageView` per non-null view among the first
`mNumImageViews` slots (null slots are skipped), and `vkDestroyRenderPass`;
afterwards the entry has no framebuffers, `mNumImageViews` is 0, those view
slots are null and `mRenderPass` is 0. -/
theorem destroyFbo_call_order (dev : VulkanDevice) (fboDesc : VulkanFrameBufferDescValue)
    (h : fboDesc.mNumImageViews ≤ fboDesc.mImageViews.length) :
    ∃ fboDesc1 dev1, destroyFbo dev fboDesc = .ok (fboDesc1, dev1) ∧
      dev1.calls = dev.calls ++
        (fboDesc.mFramebuffers.map VkCall.vkDestroyFramebuffer ++
          (((fboDesc.mImageViews.take fboDesc.mNumImageViews).filter
              (fun view => decide (view ≠ 0))).map VkCall.vkDestroyImageView ++
            [VkCall.vkDestroyRenderPass fboDesc.mRenderPass])) ∧
      fboDesc1.mFramebuffers = [] ∧ fboDesc1.mNumImageViews = 0 ∧ fboDesc1.mRenderPass = 0 ∧
      (∀ j, j < fboDesc.mNumImageViews → fboDesc1.mImageViews[j]? = some 0) ∧
      (∀ j, fboDesc.mNumImageViews ≤ j → fboDesc1.mImageViews[j]? = fboDesc.mImageViews[j]?) := by
  have ht := destroyImageViews_trace fboDesc.mNumImageViews 0 fboDesc.mImageViews
    { dev with calls := dev.calls ++ fboDesc.mFramebuffers.map VkCall.vkDestroyFramebuffer }
    (by omega)
  refine ⟨{ fboDesc with
      mFramebuffers := [], mNumImageViews := 0, mRenderPass := 0,
      mImageViews := overwrite fboDesc.mImageViews 0 (List.replicate fboDesc.mNumImageViews 0) },
    { dev with
      calls := dev.calls ++ fboDesc.mFramebuffers.map VkCall.vkDestroyFramebuffer ++
        (((fboDesc.mImageViews.drop 0).take fboDesc.mNumImageViews).filter
          (fun view => decide (view ≠ 0))).map VkCall.vkDestroyImageView ++
        [VkCall.vkDestroyRenderPass fboDesc.mRenderPass] }, ?_, ?_, ?_, ?_, ?_, ?_, ?_⟩
  · unfold destroyFbo
    simp only [bind, Except.bind, ht]
  · simp
  · rfl
  · rfl
  · rfl
  · intro j hj
    simp only [overwrite, List.take_zero, List.nil_append, List.length_replicate, Nat.zero_add]
    rw [List.getElem?_append_left (by simpa using hj)]
    simp [hj]
  · intro j hj
    simp only [overwrite, List.take_zero, List.nil_append, List.length_replicate, Nat.zero_add]
    rw [List.getElem?_append_right (by simpa using hj)]
    simp only [List.length_replicate, List.getElem?_drop]
    congr 1
    omega

theorem destroyFbo_call_order_witness :
    ∃ fboDesc1 dev1,
      destroyFbo ⟨9, []⟩ ⟨1, 3, [4, 0, 5, 0], [], [7, 8], 6⟩ = .ok (fboDesc1, dev1) ∧
      dev1.calls = [] ++
        ([VkCall.vkDestroyFramebuffer 7, VkCall.vkDestroyFramebuffer 8] ++
          ([VkCall.vkDestroyImageView 4, VkCall.vkDestroyImageView 5] ++
            [VkCall.vkDestroyRenderPass 6])) := by
  obtain ⟨fboDesc1, dev1, h1, h2, _⟩ :=
    destroyFbo_call_order ⟨9, []⟩ ⟨1, 3, [4, 0, 5, 0], [], [7, 8], 6⟩ (by decide)
  exact ⟨fboDesc1, dev1, h1, h2⟩

/-! ### `entriesModified` on a fresh key -/

theorem fboEntry_mapModify (w : World) (k k1 : VulkanFrameBufferDescKey)
    (f : VulkanFrameBufferDescValue → VulkanFrameBufferDescValue) (dev : VulkanDevice) :
    fboEntry
      { w with
        mFrameBufferDescMap := mapModify VulkanFrameBufferDescKey.equiv w.mFrameBufferDescMap k f,
        device := dev } k1 =
      (fboEntry w k1).map (fun v => if k1 = k then f v else v) := by
  simp only [fboEntry, equiv_fun_eq, mapFind_modify]
  cases h : mapFind (fun a b => decide (a = b)) w.mFrameBufferDescMap k1 with
  | none => rfl
  | some n =>
    have hk := mapFind_key _ _ _ h
    by_cases hkk : k1 = k
    · simp [hk, hkk]
    · simp [hk, hkk]

theorem firstColourTarget_eq (d : VulkanRenderPassDescriptor) :
    ∀ (r i : Nat) (acc : Option VulkanTextureGpu), i + r ≤ d.mColour.length →
    firstColourTarget d r i acc =
      .ok (if acc.isSome then acc else ((d.mColour.drop i).take r).findSome? id)
  | 0, i, acc, _ => by
    cases acc <;> simp [firstColourTarget]
  | r + 1, i, acc, h => by
    have hi : i < d.mColour.length := by omega
    cases acc with
    | some t => simp [firstColourTarget]
    | none =>
      have hread : readAt d.mColour i = .ok d.mColour[i] := by
        simp [readAt, List.getElem?_eq_getElem hi]
      have hdrop : (d.mColour.drop i).take (r + 1) =
          d.mColour[i] :: (d.mColour.drop (i + 1)).take r := by
        rw [List.drop_eq_getElem_cons hi, List.take_succ_cons]
      simp only [firstColourTarget, Option.isSome_none, Bool.false_eq_true, if_false, hread,
        bind, Except.bind]
      rw [firstColourTarget_eq d r (i + 1) _ (by omega), hdrop]
      cases hc : d.mColour[i] with
      | none => simp
      | some t => simp

theorem hasColours_length {d : VulkanRenderPassDescriptor} {cs : List VulkanTextureGpu}
    (h : HasColours d cs) : cs.length ≤ d.mColour.length := by
  by_contra hlt
  have hpos : 0 < cs.length := by omega
  have := h.2 (cs.length - 1) (by omega)
  have hnone : d.mColour[cs.length - 1]? = none := List.getElem?_eq_none (by omega)
  rw [hnone] at this
  cases this

theorem hasColours_take {d : VulkanRenderPassDescriptor} {cs : List VulkanTextureGpu}
    (h : HasColours d cs) : d.mColour.take d.mNumColourEntries = cs.map some := by
  have hlen := hasColours_length h
  apply List.ext_getElem?
  intro i
  by_cases hi : i < cs.length
  · rw [List.getElem?_take_of_lt (by rw [h.1]; exact hi), h.2 i hi, List.getElem?_map,
      List.getElem?_eq_getElem hi]
    rfl
  · rw [List.getElem?_eq_none (by simp [h.1]; omega),
      List.getElem?_eq_none (by simp; omega)]

theorem targetTexture_hasColours {d : VulkanRenderPassDescriptor} {cs : List VulkanTextureGpu}
    (h : HasColours d cs) :
    targetTexture d = (match cs.head? with
      | some texture => some texture
      | none => d.mDepth) := by
  unfold targetTexture
  rw [hasColours_take h]
  cases cs with
  | nil => rfl
  | cons t cs => simp

theorem checkRenderWindowStatus_eq (ext : Externals) (d : VulkanRenderPassDescriptor)
    (w : World)
    (h0 : 0 < d.mNumColourEntries → ∃ t, d.mColour[0]? = some (some t)) :
    checkRenderWindowStatus ext d w =
      if windowWithMrt d = true then .error .ERR_INVALIDPARAMS
      else calculateSharedKey ext d w := by
  unfold checkRenderWindowStatus windowWithMrt
  by_cases hn : 0 < d.mNumColourEntries
  · obtain ⟨t, ht⟩ := h0 hn
    have hread : readAt d.mColour 0 = .ok (some t) := by simp [readAt, ht]
    cases hdepth : d.mDepth with
    | none =>
      by_cases h1 : d.mNumColourEntries > 1 <;>
        cases hr : t.renderWindowSpecific <;>
        simp [hn, hread, deref, bind, Except.bind, ht, hr, h1]
    | some depth =>
      by_cases h1 : d.mNumColourEntries > 1 <;>
        cases hr : t.renderWindowSpecific <;> cases hr2 : depth.renderWindowSpecific <;>
        simp [hn, hread, deref, bind, Except.bind, ht, hr, hr2, h1]
  · have hz : d.mNumColourEntries = 0 := by omega
    simp [hz, bind, Except.bind]

theorem hasColours_first {d : VulkanRenderPassDescriptor} {cs : List VulkanTextureGpu}
    (h : HasColours d cs) : 0 < d.mNumColourEntries → ∃ t, d.mColour[0]? = some (some t) := by
  intro hn
  rw [h.1] at hn
  have := h.2 0 hn
  rw [List.getElem?_eq_getElem hn] at this
  exact ⟨_, this⟩

theorem entriesModified_fresh (ext : Externals) (d : VulkanRenderPassDescriptor)
    (cs : List VulkanTextureGpu) (w : World) (entryTypes : Nat)
    (hcol : HasColours d cs) (hplan : Plannable ext cs)
    (h1 : d.mSharedFboItor = none) (h2 : d.mSharedFboFlushItor = none)
    (hwin : windowWithMrt d = false)
    (hkey : fboEntry w (VulkanFrameBufferDescKey.ofDesc ext d) = none)
    (hall : entryTypes &&& ext.All ≠ 0) :
    ∃ s w1,
      setupFboPlan ext (configuredDescriptor ext d)
        { VulkanFrameBufferDescValue.new ext with refCount := 1 } w.device = .ok s ∧
      FboPlanned ext (configuredDescriptor ext d) cs
        { VulkanFrameBufferDescValue.new ext with refCount := 1 } s ∧
      FboRealized ext (configuredDescriptor ext d) cs
        { VulkanFrameBufferDescValue.new ext with refCount := 1 } w.device s ∧
      entriesModified ext d w entryTypes = .ok (configuredDescriptor ext d, w1) ∧
      fboEntry w1 (VulkanFrameBufferDescKey.ofDesc ext d) = some (realizedFbo s) ∧
      w1.device = realizedDevice (configuredDescriptor ext d) s ∧
      ∀ g, flushRefCount w1 g = flushRefCount w g +
        if g = ext.flushKey
          { d with mSharedFboItor := some (VulkanFrameBufferDescKey.ofDesc ext d) } then 1
        else 0 := by
  have hlen := hasColours_length hcol
  have hcol2 : HasColours (configuredDescriptor ext d) cs := hcol
  obtain ⟨s, p1, p2, p3, p4⟩ := setupFbo_realized ext (configuredDescriptor ext d) cs
    { VulkanFrameBufferDescValue.new ext with refCount := 1 } w.device hcol2 hplan
    (by simp [VulkanFrameBufferDescValue.new]) rfl rfl
  obtain ⟨wA, a1, a2, a3, a4⟩ := calculateSharedKey_free ext d w h1 h2
  rw [hkey] at a2
  have a2' : fboEntry wA (VulkanFrameBufferDescKey.ofDesc ext d) =
      some { VulkanFrameBufferDescValue.new ext with refCount := 1 } := by
    rw [a2]; rfl
  have hfind : ∃ k, mapFind VulkanFrameBufferDescKey.equiv wA.mFrameBufferDescMap
      (VulkanFrameBufferDescKey.ofDesc ext d) =
      some (k, { VulkanFrameBufferDescValue.new ext with refCount := 1 }) := by
    unfold fboEntry at a2'
    cases hm : mapFind VulkanFrameBufferDescKey.equiv wA.mFrameBufferDescMap
      (VulkanFrameBufferDescKey.ofDesc ext d) with
    | none => rw [hm] at a2'; cases a2'
    | some n =>
      rw [hm] at a2'
      simp only [Option.map_some', Option.some.injEq] at a2'
      exact ⟨n.1, by rw [← a2']⟩
  obtain ⟨k, hfind⟩ := hfind
  have hfirst : firstColourTarget (acquiredDescriptor ext d) d.mNumColourEntries 0 none =
      .ok ((d.mColour.take d.mNumColourEntries).findSome? id) := by
    rw [firstColourTarget_eq _ _ _ _ (by
      show 0 + d.mNumColourEntries ≤ d.mColour.length
      rw [hcol.1]; omega)]
    simp [acquiredDescriptor]
  refine ⟨s, { wA with
      mFrameBufferDescMap :=
        mapModify VulkanFrameBufferDescKey.equiv wA.mFrameBufferDescMap
          (VulkanFrameBufferDescKey.ofDesc ext d) (fun _ => realizedFbo s),
      device := realizedDevice (configuredDescriptor ext d) s }, p1, p2, p3, ?_, ?_, rfl, ?_⟩
  · unfold entriesModified
    rw [checkRenderWindowStatus_eq ext d w (hasColours_first hcol), hwin]
    simp only [Bool.false_eq_true, if_false, a1, bind, Except.bind]
    have hfirst' := hfirst
    simp only [acquiredDescriptor] at hfirst'
    simp only [hfirst', hall, ne_eq, not_false_eq_true, if_true]
    have hd2 : (match (if ((d.mColour.take d.mNumColourEntries).findSome? id).isSome = true
          then (d.mColour.take d.mNumColourEntries).findSome? id else d.mDepth) with
        | some texture =>
          ({ d with mSharedFboItor := some (VulkanFrameBufferDescKey.ofDesc ext d),
                    mSharedFboFlushItor := some (ext.flushKey
                      { d with mSharedFboItor := some (VulkanFrameBufferDescKey.ofDesc ext d) }),
                    mTargetWidth := texture.width, mTargetHeight := texture.height } :
            VulkanRenderPassDescriptor)
        | none =>
          { d with mSharedFboItor := some (VulkanFrameBufferDescKey.ofDesc ext d),
                   mSharedFboFlushItor := some (ext.flushKey
                     { d with mSharedFboItor := some (VulkanFrameBufferDescKey.ofDesc ext d) }),
                   mTargetWidth := 0, mTargetHeight := 0 }) = configuredDescriptor ext d := by
      unfold configuredDescriptor targetTexture acquiredDescriptor
      cases hc : (d.mColour.take d.mNumColourEntries).findSome? id with
      | some t => simp
      | none => cases hdep : d.mDepth <;> simp
    simp only [hd2]
    have hit : (configuredDescriptor ext d).mSharedFboItor =
      some (VulkanFrameBufferDescKey.ofDesc ext d) := rfl
    simp only [hit, hfind]
    rw [a3] at *
    simp only [p4]
  · rw [fboEntry_mapModify, a2']
    simp
  · intro g
    rw [← a4 g]
    exact flushRefCount_congr _ _ rfl g

/-! ### Clear depth and stencil -/

theorem fboEntry_some_find (w : World) (k : VulkanFrameBufferDescKey)
    (v : VulkanFrameBufferDescValue) (h : fboEntry w k = some v) :
    ∃ k1, mapFind VulkanFrameBufferDescKey.equiv w.mFrameBufferDescMap k = some (k1, v) := by
  unfold fboEntry at h
  cases hm : mapFind VulkanFrameBufferDescKey.equiv w.mFrameBufferDescMap k with
  | none => rw [hm] at h; cases h
  | some n =>
    rw [hm] at h
    simp only [Option.map_some', Option.some.injEq] at h
    exact ⟨n.1, by rw [← h]⟩

theorem lastImageViewIdx_succ (n : Nat) (h : n + 1 < 4294967296) :
    lastImageViewIdx (n + 1) = n := by
  unfold lastImageViewIdx
  omega

/-- C16: for a free descriptor with a depth target that `entriesModified`
configures on a registry without its key (so `setupFbo` realizes the entry from
this descriptor), the entry's `mNumImageViews - 1` is the attachment index of
the depth reference, the last packed slot; `setClearDepth` changes only the
depth field of the clear value at that slot, to `d` when reverse depth is
disabled and to `1 - d` when it is enabled, and `setClearStencil` changes only
its stencil field. With no depth target or no acquired entry both calls leave
the descriptor as it is. -/
theorem clear_depth_stencil_write_depth_slot (ext : Externals)
    (d : VulkanRenderPassDescriptor) (cs : List VulkanTextureGpu) (w : World)
    (depth : VulkanTextureGpu) (clearDepth : Int) (clearStencil : Nat)
    (hcol : HasColours d cs) (hplan : Plannable ext cs)
    (h1 : d.mSharedFboItor = none) (h2 : d.mSharedFboFlushItor = none)
    (hwin : windowWithMrt d = false)
    (hkey : fboEntry w (VulkanFrameBufferDescKey.ofDesc ext d) = none)
    (hall : ext.All ≠ 0) (hdepth : d.mDepth = some depth)
    (hclear : d.mClearValues.length = ext.OGRE_MAX_MULTIPLE_RENDER_TARGETS * 2 + 2)
    (h32 : ext.OGRE_MAX_MULTIPLE_RENDER_TARGETS * 2 + 2 < 4294967296) :
    (∃ s d1 w1 entry old,
      entriesModified ext d w ext.All = .ok (d1, w1) ∧
      setupFboPlan ext d1 { VulkanFrameBufferDescValue.new ext with refCount := 1 } w.device
        = .ok s ∧
      d1.mSharedFboItor = some (VulkanFrameBufferDescKey.ofDesc ext d) ∧
      fboEntry w1 (VulkanFrameBufferDescKey.ofDesc ext d) = some entry ∧
      entry.mNumImageViews = packedSlotCount ext cs + 1 ∧
      s.depthAttachRef =
        some ⟨entry.mNumImageViews - 1, .DEPTH_STENCIL_ATTACHMENT_OPTIMAL⟩ ∧
      d1.mClearValues[entry.mNumImageViews - 1]? = some old ∧
      setClearDepth ext d1 w1 clearDepth =
        .ok { d1 with
              mClearValues := d1.mClearValues.set (entry.mNumImageViews - 1)
                { old with
                  depth := if ext.isReverseDepthBufferEnabled then 1 - clearDepth
                           else clearDepth } } ∧
      setClearStencil d1 w1 clearStencil =
        .ok { d1 with
              mClearValues := d1.mClearValues.set (entry.mNumImageViews - 1)
                { old with stencil := clearStencil } }) ∧
    (∀ (d0 : VulkanRenderPassDescriptor) (w0 : World),
      d0.mDepth = none ∨ d0.mSharedFboItor = none →
      setClearDepth ext d0 w0 clearDepth = .ok d0 ∧
      setClearStencil d0 w0 clearStencil = .ok d0) := by
  constructor
  · obtain ⟨s, w1, p1, p2, _, p4, p5, _, _⟩ :=
      entriesModified_fresh ext d cs w ext.All hcol hplan h1 h2 hwin hkey
        (by simpa using hall)
    have hd1 : (configuredDescriptor ext d).mDepth = some depth := hdepth
    have hidx : s.attachmentIdx = packedSlotCount ext cs + 1 := by
      rw [p2.attachmentIdx]; simp [depthSlots, hd1]
    have hpk := packedSlotCount_le ext cs
    have hmax := hplan.1
    have hlt : packedSlotCount ext cs < d.mClearValues.length := by rw [hclear]; omega
    obtain ⟨k1, hfind⟩ := fboEntry_some_find _ _ _ p5
    have hlast : lastImageViewIdx (realizedFbo s).mNumImageViews = packedSlotCount ext cs := by
      show lastImageViewIdx s.attachmentIdx = _
      rw [hidx]
      exact lastImageViewIdx_succ _ (by omega)
    have hread : readAt d.mClearValues (packedSlotCount ext cs) =
        .ok (d.mClearValues[packedSlotCount ext cs]) := by
      simp [readAt, List.getElem?_eq_getElem hlt]
    have hnum : (realizedFbo s).mNumImageViews - 1 = packedSlotCount ext cs := by
      show s.attachmentIdx - 1 = _
      rw [hidx]; rfl
    have hitor : (configuredDescriptor ext d).mSharedFboItor =
        some (VulkanFrameBufferDescKey.ofDesc ext d) := rfl
    have hcv : (configuredDescriptor ext d).mClearValues = d.mClearValues := rfl
    refine ⟨s, configuredDescriptor ext d, w1, realizedFbo s,
      d.mClearValues[packedSlotCount ext cs], p4, p1, rfl, p5, hidx, ?_, ?_, ?_, ?_⟩
    · rw [p2.depthAttachRef, hd1, hnum]; rfl
    · rw [hnum, hcv]; exact List.getElem?_eq_getElem hlt
    · unfold setClearDepth setDepthStencilClearValue
      simp only [hd1, hitor, hfind, hlast, hread, bind, Except.bind, writeAt, hcv, hlt, if_true,
        hnum]
      cases ext.isReverseDepthBufferEnabled <;> rfl
    · unfold setClearStencil setDepthStencilClearValue
      simp only [hd1, hitor, hfind, hlast, hread, bind, Except.bind, writeAt, hcv, hlt, if_true,
        hnum]
  · intro d0 w0 h
    unfold setClearDepth setClearStencil setDepthStencilClearValue
    rcases h with h | h
    · simp [h]
    · cases hd : d0.mDepth <;> simp [h]

theorem clear_depth_stencil_write_depth_slot_witness :
    ∃ d1 w1 entry, ∃ old : VkClearValue,
      entriesModified exampleExternals
        (exampleDescriptor [exampleTexture 1 5 77] (some (exampleTexture 4 9 0)))
        emptyWorld exampleExternals.All = .ok (d1, w1) ∧
      fboEntry w1 ⟨0⟩ = some entry ∧ entry.mNumImageViews = 3 ∧
      setClearDepth exampleExternals d1 w1 7 =
        .ok { d1 with
              mClearValues := d1.mClearValues.set (entry.mNumImageViews - 1)
                { old with depth := 7 } } := by
  obtain ⟨⟨_, d1, w1, entry, old, h1, _, _, h4, h5, _, _, h8, _⟩, _⟩ :=
    clear_depth_stencil_write_depth_slot exampleExternals
      (exampleDescriptor [exampleTexture 1 5 77] (some (exampleTexture 4 9 0)))
      [exampleTexture 1 5 77] emptyWorld (exampleTexture 4 9 0) 7 3
      (hasColours_example _ _) (by unfold Plannable; decide) rfl rfl rfl rfl (by decide) rfl rfl
      (by decide)
  exact ⟨d1, w1, entry, old, h1, h4, h5, h8⟩

/-! ### The target size -/

theorem firstColourTarget_of_ok (d : VulkanRenderPassDescriptor) :
    ∀ (r i : Nat) (acc x : Option VulkanTextureGpu),
    firstColourTarget d r i acc = .ok x →
    x = (if acc.isSome then acc else ((d.mColour.drop i).take r).findSome? id)
  | 0, i, acc, x, h => by
    simp only [firstColourTarget, Except.ok.injEq] at h
    subst h
    cases acc <;> simp
  | r + 1, i, acc, x, h => by
    cases acc with
    | some t =>
      simp only [firstColourTarget, Option.isSome_some, if_true, Except.ok.injEq] at h
      subst h; simp
    | none =>
      simp only [firstColourTarget, Option.isSome_none, Bool.false_eq_true, if_false,
        bind, Except.bind, readAt] at h
      cases hc : d.mColour[i]? with
      | none => rw [hc] at h; cases h
      | some c =>
        rw [hc] at h
        have hi : i < d.mColour.length := by
          by_contra hlt
          rw [List.getElem?_eq_none (by omega)] at hc
          cases hc
        have hci : d.mColour[i] = c := by
          rw [List.getElem?_eq_getElem hi] at hc
          exact Option.some.inj hc
        have hdrop : (d.mColour.drop i).take (r + 1) =
            c :: (d.mColour.drop (i + 1)).take r := by
          rw [List.drop_eq_getElem_cons hi, List.take_succ_cons, hci]
        have ih := firstColourTarget_of_ok d r (i + 1) c x h
        rw [ih, hdrop]
        cases c <;> simp

theorem releaseFboShared_config (d d1 : VulkanRenderPassDescriptor) (w w1 : World)
    (h : releaseFboShared d w = .ok (d1, w1)) :
    d1 = { d with mSharedFboItor := d1.mSharedFboItor } := by
  unfold releaseFboShared at h
  split at h
  · cases h; rfl
  · split at h
    · cases h
    · simp only [bind, Except.bind] at h
      split at h
      · split at h
        · cases h
        · cases h; rfl
      · cases h; rfl

theorem releaseFboFlush_config (d d1 : VulkanRenderPassDescriptor) (w w1 : World)
    (h : releaseFboFlush d w = .ok (d1, w1)) :
    d1 = { d with mSharedFboFlushItor := d1.mSharedFboFlushItor } := by
  unfold releaseFboFlush at h
  split at h
  · cases h; rfl
  · split at h
    · cases h
    · simp only at h
      split at h
      · cases h; rfl
      · cases h; rfl

theorem releaseFbo_config (d d1 : VulkanRenderPassDescriptor) (w w1 : World)
    (h : releaseFbo d w = .ok (d1, w1)) :
    d1 = { d with mSharedFboItor := d1.mSharedFboItor,
                  mSharedFboFlushItor := d1.mSharedFboFlushItor } := by
  unfold releaseFbo at h
  simp only [bind, Except.bind] at h
  split at h
  · cases h
  · rename_i r hr
    obtain ⟨d2, w2⟩ := r
    have e1 := releaseFboShared_config d d2 w w2 hr
    have e2 := releaseFboFlush_config d2 d1 w2 w1 h
    rw [e2, e1]

theorem calculateSharedFlushOnlyKey_config (ext : Externals)
    (d d1 : VulkanRenderPassDescriptor) (w w1 : World)
    (h : calculateSharedFlushOnlyKey ext d w = .ok (d1, w1)) :
    d1 = { d with mSharedFboFlushItor := d1.mSharedFboFlushItor } := by
  obtain ⟨w2, h2, _⟩ := calculateSharedFlushOnlyKey_ok ext d w
  rw [h2] at h
  cases h
  rfl

theorem calculateSharedKey_config (ext : Externals) (d d1 : VulkanRenderPassDescriptor)
    (w w1 : World) (h : calculateSharedKey ext d w = .ok (d1, w1)) :
    d1 = { d with mSharedFboItor := d1.mSharedFboItor,
                  mSharedFboFlushItor := d1.mSharedFboFlushItor } := by
  unfold calculateSharedKey at h
  simp only [bind, Except.bind] at h
  split at h
  · cases h
  · split at h
    · cases h
    · rename_i r hr
      obtain ⟨d2, w2⟩ := r
      have e1 := releaseFbo_config _ _ _ _ hr
      have e2 := calculateSharedFlushOnlyKey_config _ _ _ _ _ h
      rw [e2]
      simp only
      rw [e1]

theorem checkRenderWindowStatus_config (ext : Externals) (d d1 : VulkanRenderPassDescriptor)
    (w w1 : World) (h : checkRenderWindowStatus ext d w = .ok (d1, w1)) :
    d1 = { d with mSharedFboItor := d1.mSharedFboItor,
                  mSharedFboFlushItor := d1.mSharedFboFlushItor } := by
  unfold checkRenderWindowStatus at h
  simp only [bind, Except.bind] at h
  repeat' split at h
  all_goals first | (cases h; done) | exact calculateSharedKey_config ext d d1 w w1 h

/-- C17: after `entriesModified` succeeds, the target width and height are
those of the first non-null colour target among the first `mNumColourEntries`
entries; if there is none, those of the depth target; if there is no depth
target either, both are 0. -/
theorem entriesModified_target_size (ext : Externals) (d d1 : VulkanRenderPassDescriptor)
    (w w1 : World) (entryTypes : Nat)
    (h : entriesModified ext d w entryTypes = .ok (d1, w1)) :
    (∀ texture, (d.mColour.take d.mNumColourEntries).findSome? id = some texture →
      d1.mTargetWidth = texture.width ∧ d1.mTargetHeight = texture.height) ∧
    ((d.mColour.take d.mNumColourEntries).findSome? id = none →
      (∀ depth, d.mDepth = some depth →
        d1.mTargetWidth = depth.width ∧ d1.mTargetHeight = depth.height) ∧
      (d.mDepth = none → d1.mTargetWidth = 0 ∧ d1.mTargetHeight = 0)) := by
  unfold entriesModified at h
  simp only [bind, Except.bind] at h
  split at h
  · cases h
  · rename_i r hr
    obtain ⟨dA, wA⟩ := r
    have eA := checkRenderWindowStatus_config ext d dA w wA hr
    have hn : dA.mNumColourEntries = d.mNumColourEntries := by rw [eA]
    have hc : dA.mColour = d.mColour := by rw [eA]
    have hdp : dA.mDepth = d.mDepth := by rw [eA]
    simp only at h
    split at h
    · cases h
    · rename_i anyColour hany
      have hx := firstColourTarget_of_ok dA _ _ _ _ hany
      simp only [Option.isSome_none, Bool.false_eq_true, if_false, List.drop_zero, hn, hc] at hx
      have hd1 : d1.mTargetWidth =
            ((if anyColour.isSome then anyColour else dA.mDepth).map
              (fun texture => texture.width)).getD 0 ∧
          d1.mTargetHeight =
            ((if anyColour.isSome then anyColour else dA.mDepth).map
              (fun texture => texture.height)).getD 0 := by
        split at h
        · split at h
          · cases h
          · split at h
            · cases h
            · split at h
              · cases h
              · cases h
                cases hq : (if anyColour.isSome then anyColour else dA.mDepth) <;> simp [hq]
        · cases h
          cases hq : (if anyColour.isSome then anyColour else dA.mDepth) <;> simp [hq]
      rw [hx, hdp] at hd1
      refine ⟨?_, ?_⟩
      · intro texture ht
        simpa [ht] using hd1
      · intro hnone
        refine ⟨?_, ?_⟩
        · intro depth hdepth
          simpa [hnone, hdepth] using hd1
        · intro hdepth
          simpa [hnone, hdepth] using hd1

theorem entriesModified_target_size_witness :
    ∃ d1 w1,
      entriesModified exampleExternals
        (exampleDescriptor [exampleTexture 1 5 77] (some (exampleTexture 4 9 0)))
        emptyWorld 0 = .ok (d1, w1) ∧
      d1.mTargetWidth = 640 ∧ d1.mTargetHeight = 480 := by
  refine ⟨_, _, rfl, ?_⟩
  exact (entriesModified_target_size exampleExternals
    (exampleDescriptor [exampleTexture 1 5 77] (some (exampleTexture 4 9 0))) _
    emptyWorld _ 0 rfl).1 (exampleTexture 1 5 77) rfl

/-! ### Configure, release, configure again -/

theorem destroyImageViews_handleCounter :
    ∀ (r i : Nat) (views views1 : List VkHandle) (dev dev1 : VulkanDevice),
    destroyImageViews r i views dev = .ok (views1, dev1) →
    dev1.handleCounter = dev.handleCounter
  | 0, i, views, views1, dev, dev1, h => by
    simp only [destroyImageViews, Except.ok.injEq, Prod.mk.injEq] at h
    rw [← h.2]
  | r + 1, i, views, views1, dev, dev1, h => by
    unfold destroyImageViews at h
    simp only [bind, Except.bind] at h
    split at h
    · cases h
    · split at h
      · split at h
        · cases h
        · have := destroyImageViews_handleCounter r _ _ _ _ _ h
          simpa using this
      · exact destroyImageViews_handleCounter r _ _ _ _ _ h

theorem destroyFbo_handleCounter (dev dev1 : VulkanDevice)
    (v v1 : VulkanFrameBufferDescValue) (h : destroyFbo dev v = .ok (v1, dev1)) :
    dev1.handleCounter = dev.handleCounter := by
  unfold destroyFbo at h
  simp only [bind, Except.bind] at h
  split at h
  · cases h
  · rename_i r hr
    obtain ⟨views, dev2⟩ := r
    have := destroyImageViews_handleCounter _ _ _ _ _ _ hr
    cases h
    exact this

theorem releaseFbo_handleCounter (d d1 : VulkanRenderPassDescriptor) (w w1 : World)
    (h : releaseFbo d w = .ok (d1, w1)) :
    w1.device.handleCounter = w.device.handleCounter := by
  unfold releaseFbo at h
  simp only [bind, Except.bind] at h
  split at h
  · cases h
  · rename_i r hr
    obtain ⟨d2, w2⟩ := r
    have e1 : w2.device.handleCounter = w.device.handleCounter := by
      unfold releaseFboShared at hr
      split at hr
      · cases hr; rfl
      · split at hr
        · cases hr
        · simp only [bind, Except.bind] at hr
          split at hr
          · split at hr
            · cases hr
            · rename_i r2 hr2
              have := destroyFbo_handleCounter _ _ _ _ hr2
              cases hr
              exact this
          · cases hr; rfl
    have e2 : w1.device = w2.device := by
      simp only at h
      unfold releaseFboFlush at h
      split at h
      · cases h; rfl
      · split at h
        · cases h
        · simp only at h
          split at h
          · cases h; rfl
          · cases h; rfl
    rw [e2, e1]

theorem realizedFbo_views_le (ext : Externals) (d : VulkanRenderPassDescriptor)
    (cs : List VulkanTextureGpu) (fboDesc : VulkanFrameBufferDescValue) (s : SetupLocals)
    (p : FboPlanned ext d cs fboDesc s) (hplan : Plannable ext cs)
    (hviews : fboDesc.mImageViews.length = ext.OGRE_MAX_MULTIPLE_RENDER_TARGETS * 2 + 2) :
    (realizedFbo s).mNumImageViews ≤ (realizedFbo s).mImageViews.length := by
  have h2 := p.attachmentIdx
  have h3 := packedSlotCount_le ext cs
  have h4 := hplan.1
  have h5 : (depthSlots ext d).length ≤ 1 := by
    unfold depthSlots; split <;> simp
  have h6 := p.imageViewsLength
  simp only [realizedFbo]
  split <;> simp <;> omega

/-- C18: a free descriptor with a valid configuration that `entriesModified`
(with All) configures on an empty registry, that `releaseFbo` then releases
(the FBO entry is erased, every flush-only count is zero again), and whose
identical configuration is configured again, gets a fresh entry of refCount 1
for which `setupFbo` ran in full: a new render pass and new framebuffers are
created (handles above all those of the first realization), and the packed
slot count, the attachment records, the colour, resolve and depth references
and the framebuffer count are those of the first realization. -/
theorem configure_release_configure (ext : Externals)
    (d : VulkanRenderPassDescriptor) (cs : List VulkanTextureGpu) (w : World)
    (hcol : HasColours d cs) (hplan : Plannable ext cs)
    (h1 : d.mSharedFboItor = none) (h2 : d.mSharedFboFlushItor = none)
    (hwin : windowWithMrt d = false)
    (hfbo : w.mFrameBufferDescMap = []) (hflush : w.mFlushOnlyDescMap = [])
    (hall : ext.All ≠ 0) :
    ∃ s1 d1 w1 d2 w2 s3 d3 w3 entry1 entry3,
      entriesModified ext d w ext.All = .ok (d1, w1) ∧
      releaseFbo d1 w1 = .ok (d2, w2) ∧
      entriesModified ext d w2 ext.All = .ok (d3, w3) ∧
      setupFboPlan ext d1 { VulkanFrameBufferDescValue.new ext with refCount := 1 } w.device
        = .ok s1 ∧
      setupFboPlan ext d3 { VulkanFrameBufferDescValue.new ext with refCount := 1 } w2.device
        = .ok s3 ∧
      fboEntry w1 (VulkanFrameBufferDescKey.ofDesc ext d) = some entry1 ∧
      fboEntry w2 (VulkanFrameBufferDescKey.ofDesc ext d) = none ∧
      (∀ g, flushRefCount w2 g = 0) ∧
      d2.mSharedFboItor = none ∧ d2.mSharedFboFlushItor = none ∧
      destroyFboCount w2.device = destroyFboCount w1.device + 1 ∧
      fboEntry w3 (VulkanFrameBufferDescKey.ofDesc ext d) = some entry3 ∧
      entry3.refCount = 1 ∧
      entry3.mRenderPass ≠ 0 ∧ entry1.mRenderPass < entry3.mRenderPass ∧
      (∀ fb1 ∈ entry1.mFramebuffers, ∀ fb3 ∈ entry3.mFramebuffers, fb1 < fb3) ∧
      VkCall.vkCreateRenderPass (renderPassCreateInfoOf d3 s3) entry3.mRenderPass
        ∈ w3.device.calls ∧
      entry3.mNumImageViews = entry1.mNumImageViews ∧
      entry3.mFramebuffers.length = entry1.mFramebuffers.length ∧
      s3.attachmentIdx = s1.attachmentIdx ∧
      s3.attachments = s1.attachments ∧
      s3.colourAttachRefs = s1.colourAttachRefs ∧
      s3.resolveAttachRefs = s1.resolveAttachRefs ∧
      s3.depthAttachRef = s1.depthAttachRef ∧
      s3.numColourAttachments = s1.numColourAttachments ∧
      s3.usesResolveAttachments = s1.usesResolveAttachments := by
  have hall2 : ext.All &&& ext.All ≠ 0 := by simpa using hall
  have hkey : fboEntry w (VulkanFrameBufferDescKey.ofDesc ext d) = none := by
    simp [fboEntry, mapFind, hfbo]
  have hf0 : ∀ g, flushRefCount w g = 0 := by
    intro g; simp [flushRefCount, mapFind, hflush]
  obtain ⟨s1, w1, a1, a2, a3, a4, a5, a6, a7⟩ :=
    entriesModified_fresh ext d cs w ext.All hcol hplan h1 h2 hwin hkey hall2
  have hrc1 : (realizedFbo s1).refCount = 1 := by
    show s1.fboDesc.refCount = 1
    rw [a2.refCount]
  obtain ⟨w2, b1, b2, _, _, b5⟩ := releaseFbo_ok (configuredDescriptor ext d) w1
    (VulkanFrameBufferDescKey.ofDesc ext d) (realizedFbo s1)
    (ext.flushKey { d with mSharedFboItor := some (VulkanFrameBufferDescKey.ofDesc ext d) })
    rfl a5 (by omega)
    (realizedFbo_views_le ext _ cs _ s1 a2 hplan (by simp [VulkanFrameBufferDescValue.new]))
    rfl (by rw [a7, hf0]; simp)
  obtain ⟨b2a, b2b⟩ := b2 hrc1
  have hc2 := releaseFbo_handleCounter _ _ _ _ b1
  obtain ⟨s3, w3, c1, c2, c3, c4, c5, c6, _⟩ :=
    entriesModified_fresh ext d cs w2 ext.All hcol hplan h1 h2 hwin b2a hall2
  have hwv : s3.fboDesc.mWindowImageViews = s1.fboDesc.mWindowImageViews := by
    rw [c3.windowViews, a3.windowViews]
  have hh1 : w1.device.handleCounter =
      s1.device.handleCounter + 1 + max s1.fboDesc.mWindowImageViews.length 1 := by
    rw [a6]; rfl
  have hh3 : w2.device.handleCounter ≤ s3.device.handleCounter := by
    rw [c3.handleCounter]; omega
  refine ⟨s1, configuredDescriptor ext d, w1, _, w2, s3, configuredDescriptor ext d, w3,
    realizedFbo s1, realizedFbo s3, a4, b1, c4, a1, c1, a5, b2a, ?_, rfl, rfl, ?_, c5, ?_,
    ?_, ?_, ?_, ?_, ?_, ?_, ?_, ?_, ?_, ?_, ?_, ?_, ?_⟩
  · intro g
    rw [b5, a7, hf0]
    split <;> simp
  · exact b2b
  · show s3.fboDesc.refCount = 1
    rw [c2.refCount]
  · exact Nat.succ_ne_zero _
  · show s1.device.handleCounter + 1 < s3.device.handleCounter + 1
    omega
  · intro fb1 hfb1 fb3 hfb3
    simp only [realizedFbo, List.mem_range'_1] at hfb1 hfb3
    generalize max s1.fboDesc.mWindowImageViews.length 1 = n1 at hfb1 hh1
    generalize max s3.fboDesc.mWindowImageViews.length 1 = n3 at hfb3
    have hlt : @LT.lt Nat _ fb1 fb3 := by omega
    exact hlt
  · rw [c6]
    simp [realizedDevice, realizedFbo]
  · show s3.attachmentIdx = s1.attachmentIdx
    rw [c2.attachmentIdx, a2.attachmentIdx]
  · simp only [realizedFbo, List.length_range', hwv]
  · rw [c2.attachmentIdx, a2.attachmentIdx]
  · rw [c2.attachments, a2.attachments]
  · rw [c2.colourAttachRefs, a2.colourAttachRefs]
  · rw [c2.resolveAttachRefs, a2.resolveAttachRefs]
  · rw [c2.depthAttachRef, a2.depthAttachRef]
  · rw [c2.numColourAttachments, a2.numColourAttachments]
  · rw [c2.usesResolveAttachments, a2.usesResolveAttachments]

theorem configure_release_configure_witness :
    ∃ d1 w1 d2 w2 d3 w3 entry3,
      entriesModified exampleExternals
        (exampleDescriptor [exampleTexture 1 5 77, exampleTexture 2 6 0]
          (some (exampleTexture 4 9 0)))
        emptyWorld exampleExternals.All = .ok (d1, w1) ∧
      releaseFbo d1 w1 = .ok (d2, w2) ∧
      entriesModified exampleExternals
        (exampleDescriptor [exampleTexture 1 5 77, exampleTexture 2 6 0]
          (some (exampleTexture 4 9 0)))
        w2 exampleExternals.All = .ok (d3, w3) ∧
      fboEntry w3 ⟨0⟩ = some entry3 ∧ entry3.refCount = 1 := by
  obtain ⟨_, d1, w1, d2, w2, _, d3, w3, _, entry3, h1, h2, h3, _, _, _, _, _, _, _, _, h12,
      h13, _⟩ :=
    configure_release_configure exampleExternals
      (exampleDescriptor [exampleTexture 1 5 77, exampleTexture 2 6 0]
        (some (exampleTexture 4 9 0)))
      [exampleTexture 1 5 77, exampleTexture 2 6 0] emptyWorld
      (hasColours_example _ _) (by unfold Plannable; decide) rfl rfl rfl rfl rfl (by decide)
  exact ⟨d1, w1, d2, w2, d3, w3, entry3, h1, h2, h3, h12, h13⟩

/-! ### Pass commands -/

/-- The pass `performLoadActions` begins when its reads succeed: if the entry
has window swap-chain views and `mColour[0]` is a window texture, the
framebuffer at that texture's current swap-chain image index is used and the
wait on its image-acquired semaphore (when non-null) is registered before the
begin-render-pass command; if the entry has no window views, framebuffer 0 is
used and no wait is registered. The render area is (0, 0) with extent
(`mTargetWidth`, `mTargetHeight`) and the whole clear-value array is passed. -/
theorem performLoadActions_of_window_colour (d : VulkanRenderPassDescriptor) (w : World)
    (q : VulkanQueue) (itor : VulkanFrameBufferDescKey) (entry : VulkanFrameBufferDescValue)
    (hinfo : d.mInformationOnly = false)
    (hitor : d.mSharedFboItor = some itor) (hentry : fboEntry w itor = some entry) :
    (∀ colour textureVulkan framebuffer,
      entry.mWindowImageViews ≠ [] →
      d.mColour[0]? = some (some colour) → colour.asWindow = some textureVulkan →
      entry.mFramebuffers[textureVulkan.currentImageIdx]? = some framebuffer →
      performLoadActions d w q = .ok
        { q with
          calls := q.calls ++
            ((if textureVulkan.imageAcquiredSemaphore ≠ 0 then
                [QueueCall.addWindowToWaitFor textureVulkan.imageAcquiredSemaphore]
              else []) ++
             [QueueCall.vkCmdBeginRenderPass q.mCurrentCmdBuffer
                { renderPass := entry.mRenderPass, framebuffer := framebuffer,
                  renderAreaOffsetX := 0, renderAreaOffsetY := 0,
                  renderAreaWidth := d.mTargetWidth, renderAreaHeight := d.mTargetHeight,
                  clearValueCount := d.mClearValues.length,
                  pClearValues := d.mClearValues }]) }) ∧
    (∀ framebuffer,
      entry.mWindowImageViews = [] → entry.mFramebuffers[0]? = some framebuffer →
      performLoadActions d w q = .ok
        { q with
          calls := q.calls ++
            [QueueCall.vkCmdBeginRenderPass q.mCurrentCmdBuffer
              { renderPass := entry.mRenderPass, framebuffer := framebuffer,
                renderAreaOffsetX := 0, renderAreaOffsetY := 0,
                renderAreaWidth := d.mTargetWidth, renderAreaHeight := d.mTargetHeight,
                clearValueCount := d.mClearValues.length,
                pClearValues := d.mClearValues }] }) := by
  obtain ⟨k1, hfind⟩ := fboEntry_some_find w itor entry hentry
  constructor
  · intro colour textureVulkan framebuffer hw hc hcast hfb
    have hread : readAt d.mColour 0 = .ok (some colour) := by simp [readAt, hc]
    have hreadf : readAt entry.mFramebuffers textureVulkan.currentImageIdx = .ok framebuffer := by
      simp [readAt, hfb]
    unfold performLoadActions
    by_cases hs : textureVulkan.imageAcquiredSemaphore = 0
    · simp [hinfo, hitor, hfind, hw, hread, deref, hcast, bind, Except.bind, hreadf, hs]
    · simp [hinfo, hitor, hfind, hw, hread, deref, hcast, bind, Except.bind, hreadf, hs]
  · intro framebuffer hw hfb
    have hreadf : readAt entry.mFramebuffers 0 = .ok framebuffer := by
      simp [readAt, hfb]
    unfold performLoadActions
    simp [hinfo, hitor, hfind, hw, bind, Except.bind, hreadf]

/-- C19 (as the source has it): `performLoadActions` tests only whether the
entry has window swap-chain views and then casts `mColour[0]` to the window
texture class, without the `isRenderWindowSpecific` test that
`setupColourAttachment` makes before its cast. (a) A descriptor with one
window colour target realizes the entry (three swap-chain views, three
framebuffers); a descriptor with one off-screen colour target configured next
has an equivalent key and shares that entry. It is not information-only and its
entry has window views, yet its `performLoadActions` reads window data that its
`mColour[0]` does not have: no framebuffer is selected, no wait is registered
and no pass begins. On the same registry the window descriptor registers the
wait on semaphore 9 and begins the pass with framebuffer 0 of the entry.
(b) A descriptor with colour targets [off-screen, window] passes
`checkRenderWindowStatus`, realizes an entry with the window's three views, and
its `performLoadActions` fails on `mColour[0]` in the same way. -/
theorem performLoadActions_casts_unchecked_first_colour :
    (∃ dA wA dB wB,
      entriesModified exampleExternals (exampleDescriptor [exampleWindowTexture 1 5] none)
        emptyWorld exampleExternals.All = .ok (dA, wA) ∧
      entriesModified exampleExternals (exampleDescriptor [exampleTexture 2 5 0] none)
        wA exampleExternals.All = .ok (dB, wB) ∧
      dB.mInformationOnly = false ∧
      dB.mColour[0]? = some (some (exampleTexture 2 5 0)) ∧
      dA.mSharedFboItor = some ⟨0⟩ ∧ dB.mSharedFboItor = some ⟨0⟩ ∧
      (fboEntry wB ⟨0⟩).map
          (fun v => (v.refCount, v.mRenderPass, v.mWindowImageViews, v.mFramebuffers))
        = some (2, 1, [71, 72, 73], [2, 3, 4]) ∧
      performLoadActions dB wB ⟨50, .other 0, []⟩ = .error .nullDereference ∧
      performLoadActions dA wB ⟨50, .other 0, []⟩ = .ok
        { mCurrentCmdBuffer := 50, encoderState := .other 0,
          calls :=
            [QueueCall.addWindowToWaitFor 9,
             QueueCall.vkCmdBeginRenderPass 50
               { renderPass := 1, framebuffer := 2,
                 renderAreaOffsetX := 0, renderAreaOffsetY := 0,
                 renderAreaWidth := 640, renderAreaHeight := 480,
                 clearValueCount := 18,
                 pClearValues := List.replicate 18 exampleClearValue }] }) ∧
    (∃ d w,
      entriesModified exampleExternals
        (exampleDescriptor [exampleTexture 1 5 0, exampleWindowTexture 2 5] none)
        emptyWorld exampleExternals.All = .ok (d, w) ∧
      d.mInformationOnly = false ∧ d.mSharedFboItor = some ⟨0⟩ ∧
      (fboEntry w ⟨0⟩).map (fun v => (v.refCount, v.mWindowImageViews, v.mFramebuffers.length))
        = some (1, [71, 72, 73], 3) ∧
      performLoadActions d w ⟨50, .other 0, []⟩ = .error .nullDereference) :=
  ⟨⟨_, _, _, _, rfl, rfl, rfl, rfl, rfl, rfl, rfl, rfl, rfl⟩, ⟨_, _, rfl, rfl, rfl, rfl, rfl⟩⟩

/-- C20: `performLoadActions` on an information-only descriptor asks nothing of
the queue and returns it unchanged; `performStoreActions` returns the queue
unchanged when the descriptor is information-only or when the queue's encoder
state is not `EncoderGraphicsOpen`, and otherwise records exactly one
end-render-pass command followed by `endAllEncoders( false )`. -/
theorem information_only_and_store_actions (d : VulkanRenderPassDescriptor) (w : World)
    (q : VulkanQueue) :
    (d.mInformationOnly = true → performLoadActions d w q = .ok q) ∧
    (d.mInformationOnly = true ∨ q.encoderState ≠ .EncoderGraphicsOpen →
      performStoreActions d q = q) ∧
    (d.mInformationOnly = false → q.encoderState = .EncoderGraphicsOpen →
      performStoreActions d q =
        { q with
          calls := q.calls ++
            [QueueCall.vkCmdEndRenderPass q.mCurrentCmdBuffer,
             QueueCall.endAllEncoders false] }) := by
  refine ⟨?_, ?_, ?_⟩
  · intro h
    simp [performLoadActions, h]
  · intro h
    unfold performStoreActions
    rcases h with h | h
    · simp [h]
    · simp [h]
  · intro h1 h2
    simp [performStoreActions, h1, h2]

theorem information_only_and_store_actions_witness :
    performStoreActions (exampleDescriptor [] none) ⟨50, .EncoderGraphicsOpen, []⟩ =
      { mCurrentCmdBuffer := 50, encoderState := .EncoderGraphicsOpen,
        calls := [] ++ [QueueCall.vkCmdEndRenderPass 50, QueueCall.endAllEncoders false] } :=
  (information_only_and_store_actions (exampleDescriptor [] none) emptyWorld
    ⟨50, .EncoderGraphicsOpen, []⟩).2.2 rfl rfl

/-! ### Swap-chain notification and the triplanar factory -/

/-- C21: `notifySwapchainDestroyed( window )` runs `releaseFbo` exactly when
the descriptor has at least one colour entry, colour entry 0 is window-backed
and colour entry 0 is the window's texture; then, for a descriptor that holds
both handles, both handles become `end()`, both reference counts drop by one
and the FBO is destroyed when its count reaches zero. In every other case the
descriptor and both registries are returned unchanged. -/
theorem notifySwapchainDestroyed_releases_iff (d : VulkanRenderPassDescriptor) (w : World)
    (window : VulkanWindow) :
    (∀ colour, 0 < d.mNumColourEntries → d.mColour[0]? = some (some colour) →
      colour.renderWindowSpecific = true → samePointer (some colour) window.texture = true →
      notifySwapchainDestroyed d w window = releaseFbo d w ∧
      ∀ k v f, d.mSharedFboItor = some k → fboEntry w k = some v → 1 ≤ v.refCount →
        v.mNumImageViews ≤ v.mImageViews.length →
        d.mSharedFboFlushItor = some f → 1 ≤ flushRefCount w f →
        ∃ w1, notifySwapchainDestroyed d w window =
            .ok ({ d with mSharedFboItor := none, mSharedFboFlushItor := none }, w1) ∧
          (v.refCount = 1 →
            fboEntry w1 k = none ∧
            destroyFboCount w1.device = destroyFboCount w.device + 1) ∧
          (1 < v.refCount →
            fboEntry w1 k = some { v with refCount := v.refCount - 1 } ∧
            w1.device = w.device) ∧
          ∀ g, flushRefCount w1 g = flushRefCount w g - if g = f then 1 else 0) ∧
    (d.mNumColourEntries = 0 → notifySwapchainDestroyed d w window = .ok (d, w)) ∧
    (∀ colour, d.mColour[0]? = some (some colour) →
      colour.renderWindowSpecific = false ∨ samePointer (some colour) window.texture = false →
      notifySwapchainDestroyed d w window = .ok (d, w)) := by
  refine ⟨?_, ?_, ?_⟩
  · intro colour hn hc hr hp
    have hread : readAt d.mColour 0 = .ok (some colour) := by simp [readAt, hc]
    have hrel : notifySwapchainDestroyed d w window = releaseFbo d w := by
      unfold notifySwapchainDestroyed
      simp [hn, hread, deref, bind, Except.bind, hr, hp]
    refine ⟨hrel, ?_⟩
    intro k v f hk hv hrc hviews hf hfrc
    obtain ⟨w1, e1, e2, e3, _, e5⟩ := releaseFbo_ok d w k v f hk hv hrc hviews hf hfrc
    exact ⟨w1, by rw [hrel, e1], e2, e3, e5⟩
  · intro hn
    unfold notifySwapchainDestroyed
    simp [hn, bind, Except.bind]
  · intro colour hc h
    have hread : readAt d.mColour 0 = .ok (some colour) := by simp [readAt, hc]
    unfold notifySwapchainDestroyed
    by_cases hn : 0 < d.mNumColourEntries
    · rcases h with h | h
      · simp [hn, hread, deref, bind, Except.bind, h]
      · simp [hn, hread, deref, bind, Except.bind, h]
    · simp [hn, bind, Except.bind]

theorem notifySwapchainDestroyed_releases_iff_witness :
    notifySwapchainDestroyed
        (acquiredDescriptor exampleExternals (exampleDescriptor [exampleWindowTexture 1 5] none))
        { emptyWorld with
          mFrameBufferDescMap :=
            [(⟨0⟩, { VulkanFrameBufferDescValue.new exampleExternals with refCount := 1 })],
          mFlushOnlyDescMap := [(1, ⟨1⟩)] }
        ⟨some (exampleWindowTexture 1 5), none⟩ =
      releaseFbo
        (acquiredDescriptor exampleExternals (exampleDescriptor [exampleWindowTexture 1 5] none))
        { emptyWorld with
          mFrameBufferDescMap :=
            [(⟨0⟩, { VulkanFrameBufferDescValue.new exampleExternals with refCount := 1 })],
          mFlushOnlyDescMap := [(1, ⟨1⟩)] } :=
  ((notifySwapchainDestroyed_releases_iff
    (acquiredDescriptor exampleExternals (exampleDescriptor [exampleWindowTexture 1 5] none))
    { emptyWorld with
      mFrameBufferDescMap :=
        [(⟨0⟩, { VulkanFrameBufferDescValue.new exampleExternals with refCount := 1 })],
      mFlushOnlyDescMap := [(1, ⟨1⟩)] }
    ⟨some (exampleWindowTexture 1 5), none⟩).1 (exampleWindowTexture 1 5)
    (by decide) rfl rfl rfl).1

/-- C23: `TriplanarTexturingFactory::createInstance` never raises when the
translator hands out an instance. For a property with another name it returns
NULL and adds no error. For a property named "triplanarTexturing" whose value
count is not 6 it adds one CE_INVALIDPARAMETERS error with the property's file
and line and returns NULL. With exactly 6 values it returns the instance,
with the three floats as parameters and the three strings as X/Y/Z texture
names and no error added, when the first three values parse as floats and the
last three as strings; otherwise it adds exactly one CE_INVALIDPARAMETERS
error with the property's file and line and returns NULL. -/
theorem createInstance_result (compiler : ScriptCompiler) (prop : PropertyAbstractNode)
    (translator : SGScriptTranslator) (subRenderState : TriplanarTexturing)
    (hinst : translator.subRenderState = some subRenderState) :
    (prop.name ≠ "triplanarTexturing" →
      TriplanarTexturingFactory.createInstance compiler prop translator =
        .ok { returned := none, compiler := compiler, translator := translator }) ∧
    (prop.name = "triplanarTexturing" → prop.values.length ≠ 6 →
      TriplanarTexturingFactory.createInstance compiler prop translator =
        .ok { returned := none,
              compiler := { errors := compiler.errors ++
                [⟨.CE_INVALIDPARAMETERS, prop.file, prop.line⟩] },
              translator := translator }) ∧
    (∀ v0 v1 v2 v3 v4 v5, prop.name = "triplanarTexturing" →
      prop.values = [v0, v1, v2, v3, v4, v5] →
      (∀ p0 p1 p2 x y z, v0.getFloat = some p0 → v1.getFloat = some p1 →
        v2.getFloat = some p2 → v3.getString = some x → v4.getString = some y →
        v5.getString = some z →
        ∃ r, TriplanarTexturingFactory.createInstance compiler prop translator = .ok r ∧
          r.returned = some
            { subRenderState with
              mParameters := (p0, p1, p2), mTextureNameFromX := x,
              mTextureNameFromY := y, mTextureNameFromZ := z } ∧
          r.compiler = compiler) ∧
      ((v0.getFloat = none ∨ v1.getFloat = none ∨ v2.getFloat = none ∨
          v3.getString = none ∨ v4.getString = none ∨ v5.getString = none) →
        ∃ r, TriplanarTexturingFactory.createInstance compiler prop translator = .ok r ∧
          r.returned = none ∧
          r.compiler.errors = compiler.errors ++
            [⟨.CE_INVALIDPARAMETERS, prop.file, prop.line⟩])) := by
  refine ⟨?_, ?_, ?_⟩
  · intro hname
    simp [TriplanarTexturingFactory.createInstance, hname]
  · intro hname hlen
    unfold TriplanarTexturingFactory.createInstance
    simp only [hname, if_true]
    split
    · rename_i hv
      rw [hv] at hlen
      simp at hlen
    · rfl
  · intro v0 v1 v2 v3 v4 v5 hname hv
    constructor
    · intro p0 p1 p2 x y z h0 h1 h2 h3 h4 h5
      simp [TriplanarTexturingFactory.createInstance, hname, hv, h0, h1, h2, h3, h4, h5, hinst,
        deref, bind, Except.bind, TriplanarTexturing.setParameters,
        TriplanarTexturing.setTextureNames]
    · intro hfail
      unfold TriplanarTexturingFactory.createInstance
      simp only [hname, if_true, hv, hinst, deref, bind, Except.bind,
        ScriptCompiler.addError]
      cases h0 : v0.getFloat <;> cases h1 : v1.getFloat <;> cases h2 : v2.getFloat <;>
        cases h3 : v3.getString <;> cases h4 : v4.getString <;> cases h5 : v5.getString <;>
        simp_all

theorem createInstance_result_witness :
    ∃ r, TriplanarTexturingFactory.createInstance ⟨[]⟩
        ⟨"triplanarTexturing",
          [⟨some 1, none⟩, ⟨some 2, none⟩, ⟨some 3, none⟩,
           ⟨none, some "x.png"⟩, ⟨none, some "y.png"⟩, ⟨none, some "z.png"⟩], "a.material", 7⟩
        ⟨some ⟨(0, 0, 0), "", "", ""⟩⟩ = .ok r ∧
      r.returned = some
        { (⟨(0, 0, 0), "", "", ""⟩ : TriplanarTexturing) with
          mParameters := (1, 2, 3), mTextureNameFromX := "x.png",
          mTextureNameFromY := "y.png", mTextureNameFromZ := "z.png" } ∧
      r.compiler = ⟨[]⟩ :=
  ((createInstance_result ⟨[]⟩
    ⟨"triplanarTexturing",
      [⟨some 1, none⟩, ⟨some 2, none⟩, ⟨some 3, none⟩,
       ⟨none, some "x.png"⟩, ⟨none, some "y.png"⟩, ⟨none, some "z.png"⟩], "a.material", 7⟩
    ⟨some ⟨(0, 0, 0), "", "", ""⟩⟩ ⟨(0, 0, 0), "", "", ""⟩ rfl).2.2
    ⟨some 1, none⟩ ⟨some 2, none⟩ ⟨some 3, none⟩
    ⟨none, some "x.png"⟩ ⟨none, some "y.png"⟩ ⟨none, some "z.png"⟩ rfl rfl).1
    1 2 3 "x.png" "y.png" "z.png" rfl rfl rfl rfl rfl rfl

/-! ### Re-acquiring a key; the depth clear slot -/

theorem releaseFboShared_keep (d : VulkanRenderPassDescriptor) (w : World)
    (k : VulkanFrameBufferDescKey) (v : VulkanFrameBufferDescValue)
    (hd : d.mSharedFboItor = some k) (hv : fboEntry w k = some v) (hrc : 1 < v.refCount) :
    releaseFboShared d w = .ok
      ({ d with mSharedFboItor := none },
       { w with
         mFrameBufferDescMap :=
           mapModify VulkanFrameBufferDescKey.equiv w.mFrameBufferDescMap k
             (fun _ => { v with refCount := v.refCount - 1 }),
         device := w.device }) := by
  obtain ⟨k1, hfind⟩ := fboEntry_some_find w k v hv
  have hne : ¬ v.refCount - 1 = 0 := by omega
  unfold releaseFboShared
  simp only [hd, hfind, hne, if_false]

/-- C26: when a descriptor that holds the FBO entry of a key equivalent to its
own (refCount r ≥ 1) runs `calculateSharedKey`, it succeeds, the descriptor
holds the same entry afterwards, the entry is exactly as before (refCount r,
same GPU objects) and no device call is made, so `destroyFbo` is not invoked,
also when r = 1. -/
theorem reacquire_same_key (ext : Externals) (d : VulkanRenderPassDescriptor) (w : World)
    (k : VulkanFrameBufferDescKey) (v : VulkanFrameBufferDescValue) (f : Nat)
    (hd : d.mSharedFboItor = some k)
    (hk : k.equiv (VulkanFrameBufferDescKey.ofDesc ext d) = true)
    (hv : fboEntry w k = some v) (hrc : 1 ≤ v.refCount)
    (hf : d.mSharedFboFlushItor = some f) (hfrc : 1 ≤ flushRefCount w f) :
    ∃ d1 w1, calculateSharedKey ext d w = .ok (d1, w1) ∧
      d1.mSharedFboItor = some k ∧ fboEntry w1 k = some v ∧ w1.device = w.device ∧
      destroyFboCount w1.device = destroyFboCount w.device := by
  have hkk : k = VulkanFrameBufferDescKey.ofDesc ext d := by
    rw [VulkanFrameBufferDescKey.equiv_eq] at hk
    simpa using hk
  subst hkk
  obtain ⟨k1, hfind⟩ := fboEntry_some_find w _ v hv
  have hk1 : k1 = VulkanFrameBufferDescKey.ofDesc ext d := by
    rw [equiv_fun_eq] at hfind
    exact mapFind_key _ _ _ hfind
  subst hk1
  obtain ⟨wA, hwA⟩ : ∃ wA : World, wA =
      { w with
        mFrameBufferDescMap :=
          mapModify VulkanFrameBufferDescKey.equiv w.mFrameBufferDescMap
            (VulkanFrameBufferDescKey.ofDesc ext d)
            (fun value => { value with refCount := value.refCount + 1 }),
        device := w.device } := ⟨_, rfl⟩
  have hvA : fboEntry wA (VulkanFrameBufferDescKey.ofDesc ext d) =
      some { v with refCount := v.refCount + 1 } := by
    rw [hwA, fboEntry_mapModify, hv]
    simp
  have hrel := releaseFboShared_keep d wA _ _ hd hvA (by simp; omega)
  obtain ⟨wB, hwB⟩ : ∃ wB : World, wB =
      { wA with
        mFrameBufferDescMap :=
          mapModify VulkanFrameBufferDescKey.equiv wA.mFrameBufferDescMap
            (VulkanFrameBufferDescKey.ofDesc ext d)
            (fun _ => { ({ v with refCount := v.refCount + 1 } : VulkanFrameBufferDescValue)
                        with refCount := v.refCount + 1 - 1 }),
        device := wA.device } := ⟨_, rfl⟩
  have hvB : fboEntry wB (VulkanFrameBufferDescKey.ofDesc ext d) = some v := by
    rw [hwB, fboEntry_mapModify, hvA]
    simp
  have hfB : ∀ g, flushRefCount wB g = flushRefCount w g := by
    intro g
    rw [hwB, hwA]
    rfl
  obtain ⟨wC, c1, c2, c3, c4⟩ := releaseFboFlush_ok { d with mSharedFboItor := none } wB f hf
    (by rw [hfB]; exact hfrc)
  obtain ⟨wD, e1, e2, e3, e4⟩ := calculateSharedFlushOnlyKey_ok ext
    { d with mSharedFboItor := some (VulkanFrameBufferDescKey.ofDesc ext d),
             mSharedFboFlushItor := none } wC
  have hdev : wD.device = w.device := by
    rw [e3, c3, hwB, hwA]
  refine ⟨{ d with
      mSharedFboItor := some (VulkanFrameBufferDescKey.ofDesc ext d),
      mSharedFboFlushItor := some (ext.flushKey
        { d with mSharedFboItor := some (VulkanFrameBufferDescKey.ofDesc ext d),
                 mSharedFboFlushItor := none }) },
    wD, ?_, ?_, ?_, hdev, by rw [hdev]⟩
  · unfold calculateSharedKey
    simp only [hfind, bind, Except.bind]
    rw [show ({ w with
        mFrameBufferDescMap :=
          mapModify VulkanFrameBufferDescKey.equiv w.mFrameBufferDescMap
            (VulkanFrameBufferDescKey.ofDesc ext d)
            (fun value => { value with refCount := value.refCount + 1 }) } : World) = wA
      from hwA.symm]
    unfold releaseFbo
    simp only [hrel, bind, Except.bind, ← hwB, c1]
    exact e1
  · rfl
  · rw [fboEntry_congr _ _ e2, fboEntry_congr _ _ c2, hvB]

theorem reacquire_same_key_witness :
    ∃ d1 w1,
      calculateSharedKey exampleExternals
        (acquiredDescriptor exampleExternals (exampleDescriptor [exampleTexture 1 5 0] none))
        { emptyWorld with
          mFrameBufferDescMap :=
            [(⟨0⟩, { VulkanFrameBufferDescValue.new exampleExternals with refCount := 1 })],
          mFlushOnlyDescMap := [(1, ⟨1⟩)] } = .ok (d1, w1) ∧
      fboEntry w1 ⟨0⟩ =
        some { VulkanFrameBufferDescValue.new exampleExternals with refCount := 1 } ∧
      w1.device = ⟨0, []⟩ := by
  obtain ⟨d1, w1, h1, _, h3, h4, _⟩ :=
    reacquire_same_key exampleExternals
      (acquiredDescriptor exampleExternals (exampleDescriptor [exampleTexture 1 5 0] none))
      { emptyWorld with
        mFrameBufferDescMap :=
          [(⟨0⟩, { VulkanFrameBufferDescValue.new exampleExternals with refCount := 1 })],
        mFlushOnlyDescMap := [(1, ⟨1⟩)] }
      ⟨0⟩ { VulkanFrameBufferDescValue.new exampleExternals with refCount := 1 } 1
      rfl rfl rfl (by decide) rfl (by decide)
  exact ⟨d1, w1, h1, h3, h4⟩

/-- C27 (as the source has it): a descriptor with a depth target that acquired
its entry through `entriesModified` without the All bits (so `setupFbo` never
ran and `mNumImageViews` is 0) computes slot `0 - 1u`, which wraps around to
4294967295, and both `setClearDepth` and `setClearStencil` index the
clear-value array out of bounds; and a descriptor with one colour and a depth
target that shares the entry realized by a descriptor with one colour target
only (`mNumImageViews` 1) writes the depth into slot 0, the colour slot, while
its own plan has the depth attachment at slot 1. -/
theorem clear_depth_slot_wraps_or_hits_colour :
    (∃ d1 w1,
      entriesModified exampleExternals
        (exampleDescriptor [] (some (exampleTexture 4 9 0))) emptyWorld 0 = .ok (d1, w1) ∧
      d1.mDepth.isSome = true ∧ d1.mSharedFboItor = some ⟨0⟩ ∧
      (fboEntry w1 ⟨0⟩).map (fun v => (v.refCount, v.mNumImageViews)) = some (1, 0) ∧
      lastImageViewIdx 0 = 4294967295 ∧ d1.mClearValues.length = 18 ∧
      setClearDepth exampleExternals d1 w1 1 = .error .outOfBounds ∧
      setClearStencil d1 w1 1 = .error .outOfBounds) ∧
    (∃ dA wA dB wB,
      entriesModified exampleExternals (exampleDescriptor [exampleTexture 1 5 0] none)
        emptyWorld exampleExternals.All = .ok (dA, wA) ∧
      entriesModified exampleExternals
        (exampleDescriptor [exampleTexture 2 5 0] (some (exampleTexture 4 9 0)))
        wA exampleExternals.All = .ok (dB, wB) ∧
      (fboEntry wB ⟨0⟩).map (fun v => (v.refCount, v.mNumImageViews)) = some (2, 1) ∧
      (setupFboPlan exampleExternals dB (VulkanFrameBufferDescValue.new exampleExternals)
          ⟨0, []⟩).map (fun s => s.depthAttachRef.map (fun r => r.attachment))
        = .ok (some 1) ∧
      (setClearDepth exampleExternals dB wB 7).map
          (fun d2 => (d2.mClearValues.take 2).map (fun c => c.depth))
        = .ok [7, 0]) :=
  ⟨⟨_, _, rfl, rfl, rfl, rfl, rfl, rfl, rfl, rfl⟩, ⟨_, _, _, _, rfl, rfl, rfl, rfl, rfl⟩⟩

/-! ### The two overloads of `setClearColour` -/

theorem clearColourSlot_congr (d d1 : VulkanRenderPassDescriptor) (h : d1.mColour = d.mColour) :
    ∀ r i a, clearColourSlot d1 r i a = clearColourSlot d r i a
  | 0, _, _ => rfl
  | r + 1, i, a => by
    simp only [clearColourSlot, h, bind, Except.bind]
    cases readAt d.mColour i with
    | error e => rfl
    | ok p =>
      cases p with
      | none => rfl
      | some colour =>
        simp only [deref]
        exact clearColourSlot_congr d d1 h r (i + 1) _

theorem setClearColourLoop_congr (ext : Externals) (c : ColourValue)
    (d d1 : VulkanRenderPassDescriptor) (h : d1.mColour = d.mColour) :
    ∀ r i a cv, setClearColourLoop ext d1 c r i a cv = setClearColourLoop ext d c r i a cv
  | 0, _, _, _ => rfl
  | r + 1, i, a, cv => by
    simp only [setClearColourLoop, h, bind, Except.bind]
    cases readAt d.mColour i with
    | error e => rfl
    | ok p =>
      cases p with
      | none => rfl
      | some colour =>
        simp only [deref]
        cases readAt cv a with
        | error e => rfl
        | ok old =>
          simp only
          cases writeAt cv a { old with color := getClearColour ext c colour.format } with
          | error e => rfl
          | ok cv1 => exact setClearColourLoop_congr ext c d d1 h r (i + 1) _ cv1

theorem clearColourSlot_succ (d : VulkanRenderPassDescriptor) :
    ∀ r i a, clearColourSlot d (r + 1) i a =
      (clearColourSlot d r i a >>= fun a1 =>
        ((readAt d.mColour (i + r)) >>= deref) >>= fun colour =>
          Except.ok (if colour.msaaTextureName ≠ 0 then a1 + 1 + 1 else a1 + 1))
  | 0, i, a => by
    simp only [clearColourSlot, bind, Except.bind, Nat.add_zero]
  | r + 1, i, a => by
    rw [clearColourSlot]
    simp only [bind, Except.bind]
    cases hread : readAt d.mColour i with
    | error e => simp [clearColourSlot, hread, bind, Except.bind]
    | ok p =>
      cases p with
      | none => simp [clearColourSlot, hread, deref, bind, Except.bind]
      | some colour =>
        simp only [deref]
        rw [clearColourSlot_succ d r (i + 1) _]
        simp only [clearColourSlot, hread, deref, bind, Except.bind,
          show i + 1 + r = i + (r + 1) by omega]

theorem setClearColourEach_eq_loop (ext : Externals) (c : ColourValue) :
    ∀ (r i a : Nat) (d : VulkanRenderPassDescriptor),
    clearColourSlot d i 0 0 = .ok a →
    setClearColourEach ext c r i d =
      (setClearColourLoop ext d c r i a d.mClearValues >>= fun cv =>
        Except.ok { d with mClearValues := cv })
  | 0, i, a, d, _ => by
    simp [setClearColourEach, setClearColourLoop, bind, Except.bind]
  | r + 1, i, a, d, h => by
    simp only [setClearColourEach, setClearColourLoop, setClearColour, h, bind, Except.bind]
    cases hread : readAt d.mColour i with
    | error e => rfl
    | ok p =>
      cases p with
      | none => rfl
      | some colour =>
        simp only [deref]
        cases hold : readAt d.mClearValues a with
        | error e => rfl
        | ok old =>
          simp only
          cases hwrite : writeAt d.mClearValues a
              { old with color := getClearColour ext c colour.format } with
          | error e => rfl
          | ok cv1 =>
            simp only
            have hnext : clearColourSlot { d with mClearValues := cv1 } (i + 1) 0 0 =
                .ok (if colour.msaaTextureName ≠ 0 then a + 1 + 1 else a + 1) := by
              rw [clearColourSlot_congr d { d with mClearValues := cv1 } rfl,
                clearColourSlot_succ d i 0 0, h]
              simp [bind, Except.bind, hread, deref]
            rw [setClearColourEach_eq_loop ext c r (i + 1) _ _ hnext]
            simp only [bind, Except.bind]
            rw [setClearColourLoop_congr ext c d { d with mClearValues := cv1 } rfl]

/-- The all-entries overload of `setClearColour` is, for every descriptor, the
same as calling `setClearColour( i, clearColour )` for every `i` from 0 to
`mNumColourEntries - 1` in turn, faults included. -/
theorem setClearColourAll_eq_each (ext : Externals) (d : VulkanRenderPassDescriptor)
    (c : ColourValue) :
    setClearColourAll ext d c = setClearColourEach ext c d.mNumColourEntries 0 d := by
  rw [setClearColourEach_eq_loop ext c d.mNumColourEntries 0 0 d rfl]
  rfl

/-- C24 (as the source has it): the all-entries overload equals the index by
index calls, but both walk `mColour` without the null-format skip of
`setupFbo`. For colour entries [null format, format 5] and a depth target the
plan has the colour at packed slot 0 and the depth at packed slot 1 (the
attachment of the depth reference), yet `setClearColour( c )` writes slots 0
and 1: the depth slot is not left untouched. -/
theorem setClearColourAll_overwrites_depth_slot :
    (setupFboPlan exampleExternals
        (exampleDescriptor [exampleTexture 1 0 0, exampleTexture 2 5 0]
          (some (exampleTexture 4 9 0)))
        (VulkanFrameBufferDescValue.new exampleExternals) ⟨0, []⟩).map
      (fun s => (s.attachmentIdx, s.depthAttachRef.map (fun r => r.attachment)))
      = .ok (2, some 1) ∧
    (setClearColourAll exampleExternals
        (exampleDescriptor [exampleTexture 1 0 0, exampleTexture 2 5 0]
          (some (exampleTexture 4 9 0))) ⟨1, 2, 3, 4⟩).map
      (fun d => (d.mClearValues.take 3).map (fun v => v.color))
      = .ok [.float32 ⟨1, 2, 3, 4⟩, .float32 ⟨1, 2, 3, 4⟩, .float32 ⟨0, 0, 0, 0⟩] ∧
    setClearColourAll exampleExternals
        (exampleDescriptor [exampleTexture 1 0 0, exampleTexture 2 5 0]
          (some (exampleTexture 4 9 0))) ⟨1, 2, 3, 4⟩ =
      setClearColourEach exampleExternals ⟨1, 2, 3, 4⟩ 2 0
        (exampleDescriptor [exampleTexture 1 0 0, exampleTexture 2 5 0]
          (some (exampleTexture 4 9 0))) :=
  ⟨rfl, rfl, rfl⟩

/-! ### Index bounds -/

section RefCountedLemmas

variable {K V : Type} [DecidableEq K]

theorem mapFind_none_keys (m : List (K × V)) (k : K)
    (h : mapFind (fun a b => decide (a = b)) m k = none) : ∀ node ∈ m, node.1 ≠ k := by
  intro node hn
  unfold mapFind at h
  have := List.find?_eq_none.mp h node hn
  simpa using this

theorem mapFind_some_mem (m : List (K × V)) (k : K) (n : K × V)
    (h : mapFind (fun a b => decide (a = b)) m k = some n) : n ∈ m ∧ n.1 = k := by
  unfold mapFind at h
  exact ⟨List.mem_of_find?_eq_some h, by simpa using List.find?_some h⟩

theorem RefCounted.congr {rc : V → Nat} {m : List (K × V)} {c c1 : K → Nat}
    (h : RefCounted rc m c) (hc : ∀ k, c1 k = c k) : RefCounted rc m c1 := by
  refine ⟨fun node hn => ?_, fun k hk => ?_⟩
  · rw [hc]; exact h.1 node hn
  · rw [hc] at hk; exact h.2 k hk

theorem RefCounted.acquire {rc : V → Nat} {m : List (K × V)} {c : K → Nat}
    (h : RefCounted rc m c) (k : K) (v0 : V) (f : V → V)
    (hv0 : rc v0 = 0) (hf : ∀ v, rc (f v) = rc v + 1) :
    RefCounted rc
      (mapModify (fun a b => decide (a = b))
        (match mapFind (fun a b => decide (a = b)) m k with
          | some _ => m
          | none => (k, v0) :: m) k f)
      (fun x => c x + if x = k then 1 else 0) := by
  have hmod : ∀ (l : List (K × V)), (∀ node ∈ l, rc node.2 = c node.1 ∧ rc node.2 ≠ 0) →
      ∀ node ∈ mapModify (fun a b => decide (a = b)) l k f,
        rc node.2 = (c node.1 + if node.1 = k then 1 else 0) ∧ rc node.2 ≠ 0 := by
    intro l hl node hn
    simp only [mapModify, List.mem_map] at hn
    obtain ⟨n0, hn0, rfl⟩ := hn
    have := hl n0 hn0
    by_cases hk : n0.1 = k
    · simp only [hk, decide_True, if_true, hf]
      rw [← hk]
      omega
    · simp only [hk, decide_False, Bool.false_eq_true, if_false, Nat.add_zero]
      exact this
  have hkeys : ∀ (l : List (K × V)) (x : K), (∃ node ∈ l, node.1 = x) →
      ∃ node ∈ mapModify (fun a b => decide (a = b)) l k f, node.1 = x := by
    intro l x ⟨n0, hn0, hx⟩
    refine ⟨if n0.1 = k then (n0.1, f n0.2) else n0, ?_, ?_⟩
    · simp only [mapModify, List.mem_map]
      exact ⟨n0, hn0, by simp⟩
    · split <;> exact hx
  cases hfind : mapFind (fun a b => decide (a = b)) m k with
  | none =>
    have hck : c k = 0 := by
      by_contra hne
      obtain ⟨node, hn, hk⟩ := h.2 k hne
      exact mapFind_none_keys m k hfind node hn hk
    have hcons : mapModify (fun a b => decide (a = b)) ((k, v0) :: m) k f =
        (k, f v0) :: mapModify (fun a b => decide (a = b)) m k f := by
      simp [mapModify]
    simp only [hcons]
    refine ⟨?_, ?_⟩
    · intro node hn
      rcases List.mem_cons.mp hn with rfl | hn
      · simp [hf, hv0, hck]
      · exact hmod m h.1 node hn
    · intro x hx
      by_cases hxk : x = k
      · exact ⟨(k, f v0), List.mem_cons_self _ _, hxk.symm⟩
      · simp only [hxk, if_false, Nat.add_zero] at hx
        obtain ⟨node, hn, hnx⟩ := hkeys m x (h.2 x hx)
        exact ⟨node, List.mem_cons_of_mem _ hn, hnx⟩
  | some n =>
    refine ⟨hmod _ h.1, ?_⟩
    intro x hx
    apply hkeys
    by_cases hxk : x = k
    · exact ⟨n, (mapFind_some_mem m k n hfind).1, by rw [hxk]; exact (mapFind_some_mem m k n hfind).2⟩
    · simp only [hxk, if_false, Nat.add_zero] at hx
      exact h.2 x hx

theorem RefCounted.acquire_present {rc : V → Nat} {m : List (K × V)} {c : K → Nat}
    (h : RefCounted rc m c) (k : K) (v0 : V) (f : V → V) (n : K × V)
    (hv0 : rc v0 = 0) (hf : ∀ v, rc (f v) = rc v + 1)
    (hfind : mapFind (fun a b => decide (a = b)) m k = some n) :
    RefCounted rc (mapModify (fun a b => decide (a = b)) m k f)
      (fun x => c x + if x = k then 1 else 0) := by
  have := h.acquire k v0 f hv0 hf
  rw [hfind] at this
  exact this

theorem RefCounted.acquire_absent {rc : V → Nat} {m : List (K × V)} {c : K → Nat}
    (h : RefCounted rc m c) (k : K) (v0 : V) (f : V → V)
    (hv0 : rc v0 = 0) (hf : ∀ v, rc (f v) = rc v + 1)
    (hfind : mapFind (fun a b => decide (a = b)) m k = none) :
    RefCounted rc (mapModify (fun a b => decide (a = b)) ((k, v0) :: m) k f)
      (fun x => c x + if x = k then 1 else 0) := by
  have := h.acquire k v0 f hv0 hf
  rw [hfind] at this
  exact this

theorem RefCounted.release {rc : V → Nat} {m : List (K × V)} {c : K → Nat}
    (h : RefCounted rc m c) (k : K) (n : K × V) (v1 : V)
    (hfind : mapFind (fun a b => decide (a = b)) m k = some n)
    (hv1 : rc v1 = rc n.2 - 1) :
    RefCounted rc
      (if rc v1 = 0 then mapErase (fun a b => decide (a = b)) m k
       else mapModify (fun a b => decide (a = b)) m k (fun _ => v1))
      (fun x => c x - if x = k then 1 else 0) := by
  obtain ⟨hmem, hkey⟩ := mapFind_some_mem m k n hfind
  have hn := h.1 n hmem
  rw [hkey] at hn
  by_cases hz : rc v1 = 0
  · simp only [hz, if_true]
    refine ⟨?_, ?_⟩
    · intro node hnode
      simp only [mapErase, List.mem_filter, Bool.not_eq_true', decide_eq_false_iff_not] at hnode
      have := h.1 node hnode.1
      simp only [hnode.2, if_false, Nat.sub_zero]
      exact this
    · intro x hx
      by_cases hxk : x = k
      · exfalso
        simp only [hxk, if_true] at hx
        omega
      · simp only [hxk, if_false, Nat.sub_zero] at hx
        obtain ⟨node, hnode, hnx⟩ := h.2 x hx
        refine ⟨node, ?_, hnx⟩
        simp only [mapErase, List.mem_filter, Bool.not_eq_true', decide_eq_false_iff_not]
        exact ⟨hnode, by rw [hnx]; exact hxk⟩
  · simp only [hz, if_false]
    refine ⟨?_, ?_⟩
    · intro node hnode
      simp only [mapModify, List.mem_map] at hnode
      obtain ⟨n0, hn0, rfl⟩ := hnode
      have := h.1 n0 hn0
      by_cases hk : n0.1 = k
      · simp only [hk, decide_True, if_true]
        exact ⟨by omega, hz⟩
      · simp only [hk, decide_False, Bool.false_eq_true, if_false, Nat.sub_zero]
        exact this
    · intro x hx
      have hcx : c x ≠ 0 := by
        intro h0
        have hx1 : c x - (if x = k then 1 else 0) ≠ 0 := hx
        omega
      obtain ⟨n0, hn0, hx0⟩ := h.2 x hcx
      refine ⟨if n0.1 = k then (n0.1, v1) else n0, ?_, ?_⟩
      · simp only [mapModify, List.mem_map]
        exact ⟨n0, hn0, by simp⟩
      · split <;> exact hx0

theorem filter_set_add {α : Type} (p : α → Bool) (b : α) :
    ∀ (l : List α) (i : Nat) (hi : i < l.length),
    ((l.set i b).filter p).length + (if p l[i] = true then 1 else 0) =
      (l.filter p).length + (if p b = true then 1 else 0)
  | [], i, hi => by simp at hi
  | x :: l, 0, _ => by
    by_cases hx : p x = true <;> by_cases hb : p b = true <;>
      simp [List.filter_cons, hx, hb]
  | x :: l, i + 1, hi => by
    have := filter_set_add p b l i (by simpa using hi)
    by_cases hx : p x = true <;>
      simp [List.filter_cons, hx] <;> omega

end RefCountedLemmas

theorem releaseFboShared_refCounted (d d1 : VulkanRenderPassDescriptor) (w w1 : World)
    (c : VulkanFrameBufferDescKey → Nat)
    (hinv : RefCounted (fun v : VulkanFrameBufferDescValue => v.refCount)
      w.mFrameBufferDescMap c)
    (h : releaseFboShared d w = .ok (d1, w1)) :
    d1 = { d with mSharedFboItor := none } ∧
    w1.mFlushOnlyDescMap = w.mFlushOnlyDescMap ∧
    RefCounted (fun v : VulkanFrameBufferDescValue => v.refCount) w1.mFrameBufferDescMap
      (fun x => c x - if d.mSharedFboItor = some x then 1 else 0) := by
  unfold releaseFboShared at h
  rw [equiv_fun_eq] at h
  cases hd : d.mSharedFboItor with
  | none =>
    simp only [hd] at h
    cases h
    refine ⟨?_, rfl, hinv.congr (fun k => by simp)⟩
    cases d
    simp_all
  | some k =>
    simp only [hd] at h
    cases hfind : mapFind (fun a b => decide (a = b)) w.mFrameBufferDescMap k with
    | none => rw [hfind] at h; cases h
    | some n =>
      obtain ⟨k1, v⟩ := n
      rw [hfind] at h
      simp only [bind, Except.bind] at h
      have hrel := hinv.release k (k1, v) { v with refCount := v.refCount - 1 } hfind rfl
      have hc : ∀ x, (c x - if some k = some x then 1 else 0) =
          (c x - if x = k then 1 else 0) := by
        intro x
        by_cases hx : x = k
        · simp [hx]
        · have : ¬ k = x := fun e => hx e.symm
          simp [hx, this]
      by_cases hz : v.refCount - 1 = 0
      · simp only [hz, if_true] at h hrel
        split at h
        · cases h
        · cases h
          exact ⟨rfl, rfl, hrel.congr hc⟩
      · simp only [hz, if_false] at h hrel
        cases h
        exact ⟨rfl, rfl, hrel.congr hc⟩

theorem releaseFboFlush_refCounted (d d1 : VulkanRenderPassDescriptor) (w w1 : World)
    (c : Nat → Nat)
    (hinv : RefCounted (fun v : VulkanFlushOnlyDescValue => v.refCount) w.mFlushOnlyDescMap c)
    (h : releaseFboFlush d w = .ok (d1, w1)) :
    d1 = { d with mSharedFboFlushItor := none } ∧
    w1.mFrameBufferDescMap = w.mFrameBufferDescMap ∧
    RefCounted (fun v : VulkanFlushOnlyDescValue => v.refCount) w1.mFlushOnlyDescMap
      (fun x => c x - if d.mSharedFboFlushItor = some x then 1 else 0) := by
  unfold releaseFboFlush at h
  rw [flushEquiv_fun_eq] at h
  cases hd : d.mSharedFboFlushItor with
  | none =>
    simp only [hd] at h
    cases h
    refine ⟨?_, rfl, hinv.congr (fun k => by simp)⟩
    cases d
    simp_all
  | some k =>
    simp only [hd] at h
    cases hfind : mapFind (fun a b => decide (a = b)) w.mFlushOnlyDescMap k with
    | none => rw [hfind] at h; cases h
    | some n =>
      obtain ⟨k1, v⟩ := n
      rw [hfind] at h
      simp only at h
      have hrel := hinv.release k (k1, v) { v with refCount := v.refCount - 1 } hfind rfl
      have hc : ∀ x, (c x - if some k = some x then 1 else 0) =
          (c x - if x = k then 1 else 0) := by
        intro x
        by_cases hx : x = k
        · simp [hx]
        · have : ¬ k = x := fun e => hx e.symm
          simp [hx, this]
      by_cases hz : v.refCount - 1 = 0
      · simp only [hz, if_true] at h hrel
        cases h
        exact ⟨rfl, rfl, hrel.congr hc⟩
      · simp only [hz, if_false] at h hrel
        cases h
        exact ⟨rfl, rfl, hrel.congr hc⟩

theorem calculateSharedFlushOnlyKey_refCounted (ext : Externals)
    (d d1 : VulkanRenderPassDescriptor) (w w1 : World) (c : Nat → Nat)
    (hinv : RefCounted (fun v : VulkanFlushOnlyDescValue => v.refCount) w.mFlushOnlyDescMap c)
    (h : calculateSharedFlushOnlyKey ext d w = .ok (d1, w1)) :
    d1 = { d with mSharedFboFlushItor := some (ext.flushKey d) } ∧
    w1.mFrameBufferDescMap = w.mFrameBufferDescMap ∧
    RefCounted (fun v : VulkanFlushOnlyDescValue => v.refCount) w1.mFlushOnlyDescMap
      (fun x => c x + if x = ext.flushKey d then 1 else 0) := by
  unfold calculateSharedFlushOnlyKey at h
  rw [flushEquiv_fun_eq] at h
  cases hfind0 : mapFind (fun a b => decide (a = b)) w.mFlushOnlyDescMap (ext.flushKey d) with
  | none =>
    have hacq := hinv.acquire_absent (ext.flushKey d)
      { VulkanFlushOnlyDescValue.new with refCount := 0 }
      (fun value => { value with refCount := value.refCount + 1 }) rfl (fun _ => rfl) hfind0
    simp only [hfind0] at h
    split at h
    · cases h
    · rename_i newItor v hfind
      have hk := mapFind_key _ _ _ hfind
      simp only at hk
      subst hk
      cases h
      exact ⟨rfl, rfl, hacq⟩
  | some n =>
    have hacq := hinv.acquire_present (ext.flushKey d)
      { VulkanFlushOnlyDescValue.new with refCount := 0 }
      (fun value => { value with refCount := value.refCount + 1 }) n rfl (fun _ => rfl) hfind0
    simp only [hfind0] at h
    cases h
    have hk := mapFind_key _ _ _ hfind0
    rw [hk]
    exact ⟨rfl, rfl, hacq⟩

theorem calculateSharedKey_refCounted (ext : Externals)
    (d d1 : VulkanRenderPassDescriptor) (w w1 : World)
    (cf : VulkanFrameBufferDescKey → Nat) (cl : Nat → Nat)
    (hf : RefCounted (fun v : VulkanFrameBufferDescValue => v.refCount)
      w.mFrameBufferDescMap cf)
    (hl : RefCounted (fun v : VulkanFlushOnlyDescValue => v.refCount) w.mFlushOnlyDescMap cl)
    (h : calculateSharedKey ext d w = .ok (d1, w1)) :
    ∃ k f, d1 = { d with mSharedFboItor := some k, mSharedFboFlushItor := some f } ∧
      RefCounted (fun v : VulkanFrameBufferDescValue => v.refCount) w1.mFrameBufferDescMap
        (fun x => cf x + (if x = k then 1 else 0) -
          if d.mSharedFboItor = some x then 1 else 0) ∧
      RefCounted (fun v : VulkanFlushOnlyDescValue => v.refCount) w1.mFlushOnlyDescMap
        (fun x => cl x - (if d.mSharedFboFlushItor = some x then 1 else 0) +
          if x = f then 1 else 0) := by
  have key : ∀ (m1 : List (VulkanFrameBufferDescKey × VulkanFrameBufferDescValue)),
      RefCounted (fun v : VulkanFrameBufferDescValue => v.refCount) m1
        (fun x => cf x + if x = VulkanFrameBufferDescKey.ofDesc ext d then 1 else 0) →
      (do
        let (d1, w1) ← releaseFbo d { w with mFrameBufferDescMap := m1 }
        calculateSharedFlushOnlyKey ext
          { d1 with mSharedFboItor := some (VulkanFrameBufferDescKey.ofDesc ext d) } w1)
        = .ok (d1, w1) →
      ∃ k f, d1 = { d with mSharedFboItor := some k, mSharedFboFlushItor := some f } ∧
        RefCounted (fun v : VulkanFrameBufferDescValue => v.refCount) w1.mFrameBufferDescMap
          (fun x => cf x + (if x = k then 1 else 0) -
            if d.mSharedFboItor = some x then 1 else 0) ∧
        RefCounted (fun v : VulkanFlushOnlyDescValue => v.refCount) w1.mFlushOnlyDescMap
          (fun x => cl x - (if d.mSharedFboFlushItor = some x then 1 else 0) +
            if x = f then 1 else 0) := by
    intro m1 hacq h
    simp only [bind, Except.bind] at h
    split at h
    · cases h
    · rename_i r hr
      obtain ⟨d2, w2⟩ := r
      simp only at h
      unfold releaseFbo at hr
      simp only [bind, Except.bind] at hr
      split at hr
      · cases hr
      · rename_i r3 hr3
        obtain ⟨d3, w3⟩ := r3
        simp only at hr
        obtain ⟨a1, a2, a3⟩ := releaseFboShared_refCounted d d3 _ w3 _ hacq hr3
        have hl3 : RefCounted (fun v : VulkanFlushOnlyDescValue => v.refCount)
            w3.mFlushOnlyDescMap cl := by rw [a2]; exact hl
        obtain ⟨b1, b2, b3⟩ := releaseFboFlush_refCounted d3 d2 w3 w2 cl hl3 hr
        obtain ⟨e1, e2, e3⟩ := calculateSharedFlushOnlyKey_refCounted ext _ d1 w2 w1 _ b3 h
        refine ⟨VulkanFrameBufferDescKey.ofDesc ext d,
          ext.flushKey
            { d2 with mSharedFboItor := some (VulkanFrameBufferDescKey.ofDesc ext d) },
          ?_, ?_, ?_⟩
        · rw [e1]
          subst b1
          subst a1
          rfl
        · rw [e2, b2]
          exact a3
        · refine e3.congr (fun x => ?_)
          rw [a1]
  unfold calculateSharedKey at h
  rw [equiv_fun_eq] at h
  cases hfind0 : mapFind (fun a b => decide (a = b)) w.mFrameBufferDescMap
      (VulkanFrameBufferDescKey.ofDesc ext d) with
  | none =>
    have hacq := hf.acquire_absent (VulkanFrameBufferDescKey.ofDesc ext d)
      { VulkanFrameBufferDescValue.new ext with refCount := 0 }
      (fun value => { value with refCount := value.refCount + 1 }) rfl (fun _ => rfl) hfind0
    simp only [hfind0] at h
    split at h
    · cases h
    · rename_i newItor v hfind
      have hk := mapFind_key _ _ _ hfind
      simp only at hk
      subst hk
      exact key _ hacq h
  | some n =>
    have hacq := hf.acquire_present (VulkanFrameBufferDescKey.ofDesc ext d)
      { VulkanFrameBufferDescValue.new ext with refCount := 0 }
      (fun value => { value with refCount := value.refCount + 1 }) n rfl (fun _ => rfl) hfind0
    simp only [hfind0] at h
    have hk := mapFind_key _ _ _ hfind0
    obtain ⟨k1, v1⟩ := n
    simp only at hk
    subst hk
    exact key _ hacq h

theorem filter_set_eq {α : Type} (p : α → Bool) (l : List α) (i : Nat) (hi : i < l.length)
    (b : α) :
    ((l.set i b).filter p).length =
      (l.filter p).length - (if p l[i] = true then 1 else 0) + (if p b = true then 1 else 0) ∧
    ((l.set i b).filter p).length =
      (l.filter p).length + (if p b = true then 1 else 0) - (if p l[i] = true then 1 else 0) := by
  have h := filter_set_add p b l i hi
  have hpos : p l[i] = true → 1 ≤ (l.filter p).length := by
    intro e
    exact List.length_pos.mpr (List.ne_nil_of_mem
      (List.mem_filter.mpr ⟨List.getElem_mem hi, e⟩))
  by_cases e : p l[i] = true
  · have := hpos e
    simp only [e, if_true] at h ⊢
    omega
  · simp [e] at h ⊢
    omega

theorem readAt_ok {α : Type} (xs : List α) (i : Nat) (x : α) (h : readAt xs i = .ok x) :
    ∃ hi : i < xs.length, xs[i] = x := by
  unfold readAt at h
  cases hx : xs[i]? with
  | none => rw [hx] at h; cases h
  | some y =>
    rw [hx] at h
    cases h
    have hi : i < xs.length := by
      by_contra hlt
      rw [List.getElem?_eq_none (by omega)] at hx
      cases hx
    refine ⟨hi, ?_⟩
    rw [List.getElem?_eq_getElem hi] at hx
    exact Option.some.inj hx

theorem applyOp_invariant (ext : Externals) (op : RegistryOp)
    (ds ds1 : List VulkanRenderPassDescriptor) (w w1 : World)
    (hinv : RegistryInvariant ds w) (h : applyOp ext op (ds, w) = .ok (ds1, w1)) :
    RegistryInvariant ds1 w1 := by
  obtain ⟨hf, hl⟩ := hinv
  cases op with
  | acquire i =>
    simp only [applyOp, bind, Except.bind] at h
    cases hread : readAt ds i with
    | error e => rw [hread] at h; cases h
    | ok d =>
      rw [hread] at h
      simp only at h
      obtain ⟨hi, hd⟩ := readAt_ok ds i d hread
      cases hcs : calculateSharedKey ext d w with
      | error e => rw [hcs] at h; cases h
      | ok r =>
        rw [hcs] at h
        obtain ⟨d1, w2⟩ := r
        simp only [Except.ok.injEq, Prod.mk.injEq] at h
        obtain ⟨h1, h2⟩ := h
        subst h1 h2
        obtain ⟨k, f, e1, e2, e3⟩ := calculateSharedKey_refCounted ext d d1 w w2 _ _ hf hl hcs
        constructor
        · refine e2.congr (fun x => ?_)
          rw [(filter_set_eq _ ds i hi d1).2]
          simp only [hd, e1, decide_eq_true_eq, Option.some.injEq]
          by_cases hx : x = k
          · simp [hx]
          · have : ¬ k = x := fun e => hx e.symm
            simp [hx, this]
        · refine e3.congr (fun x => ?_)
          rw [(filter_set_eq _ ds i hi d1).1]
          simp only [hd, e1, decide_eq_true_eq, Option.some.injEq]
          by_cases hx : x = f
          · simp [hx]
          · have : ¬ f = x := fun e => hx e.symm
            simp [hx, this]
  | release i =>
    simp only [applyOp, bind, Except.bind] at h
    cases hread : readAt ds i with
    | error e => rw [hread] at h; cases h
    | ok d =>
      rw [hread] at h
      simp only at h
      obtain ⟨hi, hd⟩ := readAt_ok ds i d hread
      cases hcs : releaseFbo d w with
      | error e => rw [hcs] at h; cases h
      | ok r =>
        rw [hcs] at h
        obtain ⟨d1, w2⟩ := r
        simp only [Except.ok.injEq, Prod.mk.injEq] at h
        obtain ⟨h1, h2⟩ := h
        subst h1 h2
        unfold releaseFbo at hcs
        simp only [bind, Except.bind] at hcs
        split at hcs
        · cases hcs
        · rename_i r3 hr3
          obtain ⟨d3, w3⟩ := r3
          simp only at hcs
          obtain ⟨a1, a2, a3⟩ := releaseFboShared_refCounted d d3 w w3 _ hf hr3
          have hl3 : RefCounted (fun v : VulkanFlushOnlyDescValue => v.refCount)
              w3.mFlushOnlyDescMap
              (fun k => (ds.filter
                (fun d => decide (d.mSharedFboFlushItor = some k))).length) := by
            rw [a2]; exact hl
          obtain ⟨b1, b2, b3⟩ := releaseFboFlush_refCounted d3 d1 w3 w2 _ hl3 hcs
          constructor
          · rw [b2]
            refine a3.congr (fun x => ?_)
            rw [(filter_set_eq _ ds i hi d1).1]
            simp [hd, b1, a1]
          · refine b3.congr (fun x => ?_)
            rw [(filter_set_eq _ ds i hi d1).1]
            simp [hd, b1, a1]
  | configure i d2 =>
    simp only [applyOp, bind, Except.bind] at h
    cases hread : readAt ds i with
    | error e => rw [hread] at h; cases h
    | ok d =>
      rw [hread] at h
      simp only [Except.ok.injEq, Prod.mk.injEq] at h
      obtain ⟨h1, h2⟩ := h
      subst h1 h2
      obtain ⟨hi, hd⟩ := readAt_ok ds i d hread
      constructor
      · refine hf.congr (fun x => ?_)
        have := filter_set_add (fun d => decide (d.mSharedFboItor = some x))
          { d2 with mSharedFboItor := d.mSharedFboItor,
                    mSharedFboFlushItor := d.mSharedFboFlushItor } ds i hi
        simp only [hd] at this
        omega
      · refine hl.congr (fun x => ?_)
        have := filter_set_add (fun d => decide (d.mSharedFboFlushItor = some x))
          { d2 with mSharedFboItor := d.mSharedFboItor,
                    mSharedFboFlushItor := d.mSharedFboFlushItor } ds i hi
        simp only [hd] at this
        omega

theorem applyOps_invariant (ext : Externals) :
    ∀ (ops : List RegistryOp) (ds ds1 : List VulkanRenderPassDescriptor) (w w1 : World),
    RegistryInvariant ds w → applyOps ext ops (ds, w) = .ok (ds1, w1) →
    RegistryInvariant ds1 w1
  | [], ds, ds1, w, w1, hinv, h => by
    simp only [applyOps, Except.ok.injEq, Prod.mk.injEq] at h
    obtain ⟨h1, h2⟩ := h
    subst h1 h2
    exact hinv
  | op :: ops, ds, ds1, w, w1, hinv, h => by
    simp only [applyOps, bind, Except.bind] at h
    cases hop : applyOp ext op (ds, w) with
    | error e => rw [hop] at h; cases h
    | ok st =>
      rw [hop] at h
      obtain ⟨ds2, w2⟩ := st
      exact applyOps_invariant ext ops ds2 ds1 w2 w1
        (applyOp_invariant ext op ds ds2 w w2 hinv hop) h

/-- C25: in every state reached from free descriptors and empty registries by
any sequence of `calculateSharedKey` and `releaseFbo` calls of any of the
descriptors (whose attachments may be changed in between), every entry of the
FBO map and of the flush-only map has a refCount equal to the number of
descriptors whose handle names it, no entry has refCount 0, and every handle
of a descriptor is `end()` or names an entry of its map. -/
theorem registry_invariant_reachable (ext : Externals) (ops : List RegistryOp)
    (ds0 ds : List VulkanRenderPassDescriptor) (w0 w : World)
    (hfree : ∀ d ∈ ds0, d.mSharedFboItor = none ∧ d.mSharedFboFlushItor = none)
    (hfbo : w0.mFrameBufferDescMap = []) (hflush : w0.mFlushOnlyDescMap = [])
    (h : applyOps ext ops (ds0, w0) = .ok (ds, w)) :
    (∀ node ∈ w.mFrameBufferDescMap,
      node.2.refCount =
        (ds.filter (fun d => decide (d.mSharedFboItor = some node.1))).length ∧
      node.2.refCount ≠ 0) ∧
    (∀ node ∈ w.mFlushOnlyDescMap,
      node.2.refCount =
        (ds.filter (fun d => decide (d.mSharedFboFlushItor = some node.1))).length ∧
      node.2.refCount ≠ 0) ∧
    (∀ d ∈ ds,
      (∀ k, d.mSharedFboItor = some k → ∃ node ∈ w.mFrameBufferDescMap, node.1 = k) ∧
      (∀ f, d.mSharedFboFlushItor = some f → ∃ node ∈ w.mFlushOnlyDescMap, node.1 = f)) := by
  have h0 : RegistryInvariant ds0 w0 := by
    constructor
    · refine ⟨by simp [hfbo], ?_⟩
      intro k hk
      exfalso
      apply hk
      rw [List.length_eq_zero, List.filter_eq_nil_iff]
      intro d hd
      simp [(hfree d hd).1]
    · refine ⟨by simp [hflush], ?_⟩
      intro k hk
      exfalso
      apply hk
      rw [List.length_eq_zero, List.filter_eq_nil_iff]
      intro d hd
      simp [(hfree d hd).2]
  obtain ⟨i1, i2⟩ := applyOps_invariant ext ops ds0 ds w0 w h0 h
  refine ⟨i1.1, i2.1, ?_⟩
  intro d hd
  constructor
  · intro k hk
    apply i1.2 k
    exact Nat.pos_iff_ne_zero.mp (List.length_pos.mpr (List.ne_nil_of_mem
      (List.mem_filter.mpr ⟨hd, by simp [hk]⟩)))
  · intro f hf
    apply i2.2 f
    exact Nat.pos_iff_ne_zero.mp (List.length_pos.mpr (List.ne_nil_of_mem
      (List.mem_filter.mpr ⟨hd, by simp [hf]⟩)))

theorem registry_invariant_reachable_witness :
    ∃ ds w,
      applyOps exampleExternals [.acquire 0, .acquire 1, .release 0, .acquire 1]
        ([exampleDescriptor [exampleTexture 1 5 0] none,
          exampleDescriptor [exampleTexture 2 6 0, exampleTexture 3 7 0] none], emptyWorld)
        = .ok (ds, w) ∧
      ∀ node ∈ w.mFrameBufferDescMap,
        node.2.refCount =
          (ds.filter (fun d => decide (d.mSharedFboItor = some node.1))).length ∧
        node.2.refCount ≠ 0 := by
  refine ⟨_, _, rfl, ?_⟩
  exact (registry_invariant_reachable exampleExternals
    [.acquire 0, .acquire 1, .release 0, .acquire 1]
    [exampleDescriptor [exampleTexture 1 5 0] none,
      exampleDescriptor [exampleTexture 2 6 0, exampleTexture 3 7 0] none] _ emptyWorld _
    (by decide) rfl rfl rfl).1

end Ogre
